import Mathlib

/-!
# CanvasDrawingSession (Win2D): lifecycle, layer stack and image drawing

A shallow embedding of `winrt/lib/drawing/CanvasDrawingSession.cpp`.

* A method of the class is a function of the session object (`self`) and of the
  `World` around it, returning a `Ret`: how the body ended, what it wrote through
  its out pointer, and the session and world it left behind.  A C++ exception does
  not undo the statements that ran before it, so a body that throws returns the
  session and world as they were at the `throw`.
* `float` values are rationals (exact arithmetic).
* The device context is a record of the state the code reads (`D2DState`) and a log
  of the calls that change it, draw with it or create resources from it.
* A failed `assert(...)` is an outcome of its own (`Outcome.assertFailed`): the
  embedding is that of the checked build.
-/

namespace Win2D

/-! ## Result codes and exceptions -/

/-- The HRESULT values the code produces, and `D2DERR code` for a failure code that
comes back from a collaborator (device context, adapter, brush, geometry, image). -/
inductive HRESULT
  | S_OK
  | E_FAIL
  | E_UNEXPECTED
  | E_INVALIDARG
  | RO_E_CLOSED
  | D2DERR (code : Nat)
  deriving DecidableEq, Repr

/-- The error messages of `Strings::` that this file raises. -/
inductive Strings
  | DidNotPopLayer
  | PoppedWrongLayer
  | DrawImageMinBlendNotSupported
  deriving DecidableEq, Repr

/-- How a method body ends.  `threw hr msg` is `ThrowHR(hr, msg)` (or a failed
`ThrowIfFailed`); at a public method `ExceptionBoundary` turns it into the returned
HRESULT `hr` with `msg` as the stored error message, and `ok` into `S_OK`.
`assertFailed` is a failed `assert(...)`. -/
inductive Outcome
  | ok
  | threw (hr : HRESULT) (message : Option Strings)
  | assertFailed
  deriving DecidableEq, Repr

/-- The HRESULT a public method returns through `ExceptionBoundary`; a failed
assertion returns nothing. -/
def Outcome.hresult : Outcome → Option HRESULT
  | .ok => some HRESULT.S_OK
  | .threw hr _ => some hr
  | .assertFailed => none

/-! ## Geometry -/

/-- Numerics `Vector2`. -/
structure Vector2 where
  X : ℚ
  Y : ℚ
  deriving DecidableEq, Repr

/-- Windows.Foundation `Rect`. -/
structure Rect where
  X : ℚ
  Y : ℚ
  Width : ℚ
  Height : ℚ
  deriving DecidableEq, Repr

/-- Direct2D point. -/
structure D2D1_POINT_2F where
  x : ℚ
  y : ℚ
  deriving DecidableEq, Repr

/-- Direct2D size. -/
structure D2D1_SIZE_F where
  width : ℚ
  height : ℚ
  deriving DecidableEq, Repr

/-- Direct2D rectangle, by its four edges. -/
structure D2D1_RECT_F where
  left : ℚ
  top : ℚ
  right : ℚ
  bottom : ℚ
  deriving DecidableEq, Repr

/-- The 3x2 affine matrix, shared by `Matrix3x2` and `D2D1_MATRIX_3X2_F` (the code
reinterprets one as the other). -/
structure Matrix3x2 where
  M11 : ℚ
  M12 : ℚ
  M21 : ℚ
  M22 : ℚ
  M31 : ℚ
  M32 : ℚ
  deriving DecidableEq, Repr

/-- Modelled from the spec: `D2D1::Matrix3x2F::Identity()` is declared outside this
file; the identity transform (the default geometry transform of a layer). -/
def Matrix3x2.Identity : Matrix3x2 := ⟨1, 0, 0, 1, 0, 0⟩

/-- Numerics `Matrix4x4`, kept as its sixteen entries in row order. -/
structure Matrix4x4 where
  entries : List ℚ
  deriving DecidableEq, Repr

/-- Modelled from the spec: `ToD2DRect` lives in a header outside this file; a `Rect`
with origin and size becomes the rectangle with the same origin and the corners
`X + Width`, `Y + Height`. -/
def ToD2DRect (r : Rect) : D2D1_RECT_F := ⟨r.X, r.Y, r.X + r.Width, r.Y + r.Height⟩

/-- Modelled from the spec: `ToD2DPoint` lives in a header outside this file. -/
def ToD2DPoint (v : Vector2) : D2D1_POINT_2F := ⟨v.X, v.Y⟩

/-! ## Enumerations -/

/-- The unit mode of the device context; `other` is any value outside the two the
code names. -/
inductive D2D1_UNIT_MODE
  | DIPS
  | PIXELS
  | other (v : Nat)
  deriving DecidableEq, Repr

/-- The primitive blend of the device context. -/
inductive D2D1_PRIMITIVE_BLEND
  | SOURCE_OVER
  | COPY
  | MIN
  | ADD
  | other (v : Nat)
  deriving DecidableEq, Repr

/-- The antialias mode of the device context. -/
inductive D2D1_ANTIALIAS_MODE
  | PER_PRIMITIVE
  | ALIASED
  deriving DecidableEq, Repr

/-- The enumeration `CanvasLayerOptions`; `other` is any value but `None`. -/
inductive CanvasLayerOptions
  | None
  | other (v : Nat)
  deriving DecidableEq, Repr

/-- The enumeration `CanvasImageInterpolation`; the values are those of `D2D1_INTERPOLATION_MODE`,
to which the code casts it. -/
inductive CanvasImageInterpolation
  | NearestNeighbor
  | Linear
  | Cubic
  | MultiSampleLinear
  | Anisotropic
  | HighQualityCubic
  deriving DecidableEq, Repr

/-- The enumeration `D2D1_INTERPOLATION_MODE`. -/
inductive D2D1_INTERPOLATION_MODE
  | NEAREST_NEIGHBOR
  | LINEAR
  | CUBIC
  | MULTI_SAMPLE_LINEAR
  | ANISOTROPIC
  | HIGH_QUALITY_CUBIC
  deriving DecidableEq, Repr

/-- The enumeration `CanvasComposite`; the values are those of `D2D1_COMPOSITE_MODE`, to which the
code casts it. -/
inductive CanvasComposite
  | SourceOver
  | DestinationOver
  | SourceIn
  | DestinationIn
  | SourceOut
  | DestinationOut
  | SourceAtop
  | DestinationAtop
  | Xor
  | Add
  | Copy
  | BoundedCopy
  | MaskInvert
  deriving DecidableEq, Repr

/-- The enumeration `D2D1_COMPOSITE_MODE`. -/
inductive D2D1_COMPOSITE_MODE
  | SOURCE_OVER
  | DESTINATION_OVER
  | SOURCE_IN
  | DESTINATION_IN
  | SOURCE_OUT
  | DESTINATION_OUT
  | SOURCE_ATOP
  | DESTINATION_ATOP
  | XOR
  | PLUS
  | SOURCE_COPY
  | BOUNDED_SOURCE_COPY
  | MASK_INVERT
  deriving DecidableEq, Repr

/-- The enumeration `CanvasUnits`; the values are those of `D2D1_UNIT_MODE`. -/
inductive CanvasUnits
  | Dips
  | Pixels
  | other (v : Nat)
  deriving DecidableEq, Repr

/-! ## Collaborators -/

/-- The device context pointer a session wraps, by identity. -/
structure ID2D1DeviceContext1 where
  address : Nat
  deriving DecidableEq, Repr

/-- The begin/end-draw adapter: `EndDraw` returns when `endDrawResult` is `S_OK`
and throws `endDrawResult` otherwise. -/
structure ICanvasDrawingSessionAdapter where
  tag : Nat
  endDrawResult : HRESULT
  deriving DecidableEq, Repr

/-- The class `NoopCanvasDrawingSessionAdapter`: its `EndDraw` does nothing. -/
def NoopCanvasDrawingSessionAdapter : ICanvasDrawingSessionAdapter := ⟨0, HRESULT.S_OK⟩

/-- The owning device wrapper, by the Direct2D device it wraps. -/
structure ICanvasDevice where
  d2dDevice : Nat
  deriving DecidableEq, Repr

/-- A brush wrapper: `GetD2DBrush` gives the native brush `d2dBrush` when `result`
is `S_OK` and throws `result` otherwise. -/
structure ICanvasBrush where
  d2dBrush : Nat
  result : HRESULT
  deriving DecidableEq, Repr

/-- A geometry wrapper: `GetWrappedResource` gives the native geometry when `result`
is `S_OK` and throws `result` otherwise. -/
structure ICanvasGeometry where
  d2dGeometry : Nat
  result : HRESULT
  deriving DecidableEq, Repr

/-- A native bitmap: its size in DIPs (`GetSize`) and in pixels (`GetPixelSize`). -/
structure ID2D1Bitmap where
  id : Nat
  size : D2D1_SIZE_F
  pixelWidth : Nat
  pixelHeight : Nat
  deriving DecidableEq, Repr

/-- A native image: a bitmap, some other image, or the output of one of the two
effects `DrawImageWorker` builds. -/
inductive ID2D1Image
  | bitmap (b : ID2D1Bitmap)
  | image (id : Nat)
  | opacityEffectOutput (input : ID2D1Image) (dpiCompensated : Bool) (alphaScale : ℚ)
  | borderEffectOutput (input : ID2D1Bitmap)
  deriving DecidableEq, Repr

/-- A bitmap wrapper (`ICanvasBitmap`, `ICanvasBitmapInternal`): `GetD2DBitmap` and
`GetD2DImage` give the native bitmap when `result` is `S_OK` and throw `result`
otherwise (a closed bitmap). -/
structure ICanvasBitmap where
  d2dBitmap : ID2D1Bitmap
  result : HRESULT
  deriving DecidableEq, Repr

/-- An image wrapper (`ICanvasImage`): either a bitmap wrapper, or an image that is
not one, whose `GetD2DImage` gives `d2dImage` when `result` is `S_OK` and throws
`result` otherwise. -/
inductive ICanvasImage
  | bitmap (b : ICanvasBitmap)
  | image (d2dImage : ID2D1Image) (result : HRESULT)
  deriving DecidableEq, Repr

/-- The effect classes the code creates (the third through
`D2D1::SetDpiCompensatedEffectInput`). -/
inductive CLSID
  | D2D1ColorMatrix
  | D2D1Border
  | D2D1DpiCompensation
  deriving DecidableEq, Repr

/-- The structure `D2D1_LAYER_PARAMETERS1`, in the order the code fills it. -/
structure D2D1_LAYER_PARAMETERS1 where
  contentBounds : D2D1_RECT_F
  geometricMask : Option Nat
  maskAntialiasMode : D2D1_ANTIALIAS_MODE
  maskTransform : Matrix3x2
  opacity : ℚ
  opacityBrush : Option Nat
  layerOptions : CanvasLayerOptions
  deriving DecidableEq, Repr

/-- The structure `D2D1_COLOR_F`. -/
structure D2D1_COLOR_F where
  r : ℚ
  g : ℚ
  b : ℚ
  a : ℚ
  deriving DecidableEq, Repr

/-- The calls on the device context that change its state, draw, or create a
resource.  Reads (`GetTransform`, `GetUnitMode`, `GetPrimitiveBlend`,
`GetAntialiasMode`, `GetDpi`, `GetDevice`) are not logged. -/
inductive D2DCall
  | SetTextAntialiasModeGrayscale
  | Clear (color : D2D1_COLOR_F)
  | Flush
  | DrawBitmap (bitmap : ID2D1Bitmap) (destinationRectangle : D2D1_RECT_F) (opacity : ℚ)
      (interpolationMode : D2D1_INTERPOLATION_MODE) (sourceRectangle : Option D2D1_RECT_F)
      (perspectiveTransform : Option Matrix4x4)
  | DrawImage (image : ID2D1Image) (targetOffset : D2D1_POINT_2F)
      (imageRectangle : Option D2D1_RECT_F) (interpolationMode : D2D1_INTERPOLATION_MODE)
      (compositeMode : D2D1_COMPOSITE_MODE)
  | CreateEffect (effectId : CLSID)
  | SetTransform (transform : Matrix3x2)
  | SetUnitMode (unitMode : D2D1_UNIT_MODE)
  | PushAxisAlignedClip (clipRect : D2D1_RECT_F) (antialiasMode : D2D1_ANTIALIAS_MODE)
  | PushLayer (layerParameters : D2D1_LAYER_PARAMETERS1)
  | PopAxisAlignedClip
  | PopLayer
  deriving DecidableEq, Repr

/-- A call on a begin/end-draw adapter: `EndDraw` with the device context passed. -/
inductive AdapterCall
  | EndDraw (adapter : ICanvasDrawingSessionAdapter) (d2dDeviceContext : ID2D1DeviceContext1)
  deriving DecidableEq, Repr

/-- The state of the device context that the code reads, and how its fallible calls
answer. -/
structure D2DState where
  transform : Matrix3x2
  unitMode : D2D1_UNIT_MODE
  primitiveBlend : D2D1_PRIMITIVE_BLEND
  antialiasMode : D2D1_ANTIALIAS_MODE
  dpi : ℚ
  device : Nat
  flushResult : HRESULT
  createColorMatrixResult : HRESULT
  createBorderResult : HRESULT
  createDpiCompensationResult : HRESULT
  deriving DecidableEq, Repr

/-- Everything outside the session object: the `bool` behind the shared
`targetHasActiveDrawingSession` pointer, the device context, and the calls made so far
on the device context and on adapters. -/
structure World where
  targetHasActiveDrawingSession : Bool
  d2d : D2DState
  backendCalls : List D2DCall
  adapterCalls : List AdapterCall
  deriving DecidableEq, Repr

/-- Log one call on the device context. -/
def World.call (w : World) (c : D2DCall) : World :=
  { w with backendCalls := w.backendCalls ++ [c] }

/-- Modelled from the spec: `ThrowIfFailed` is declared outside this file; a failure
code of an underlying call is propagated verbatim as the thrown HRESULT, `S_OK` passes. -/
def ThrowIfFailed (hr : HRESULT) : Outcome :=
  if hr = HRESULT.S_OK then Outcome.ok else Outcome.threw hr none

/-! ## The session object -/

/-- The members of `CanvasDrawingSession` (CanvasDrawingSession.h), with the wrapped
resource of its `ResourceWrapper` base as `resource`.
`m_targetHasActiveDrawingSession` says whether the shared pointer is non-null; the
`bool` it points to is `World.targetHasActiveDrawingSession`.  `m_activeLayerIds` is
the vector from front to back. -/
structure CanvasDrawingSession where
  resource : Option ID2D1DeviceContext1
  m_adapter : Option ICanvasDrawingSessionAdapter
  m_targetHasActiveDrawingSession : Bool
  m_offset : D2D1_POINT_2F
  m_solidColorBrush : Option Nat
  m_defaultTextFormat : Option Nat
  m_activeLayerIds : List Int
  m_nextLayerId : Int
  m_owner : Option ICanvasDevice
  m_inkD2DRenderer : Option Nat
  m_inkStateBlock : Option Nat
  deriving DecidableEq, Repr

/-- What a method leaves behind: how its body ended, the value written through its
out pointer (if it got that far), the session and the world. -/
structure Ret (α : Type) where
  outcome : Outcome
  value : Option α
  self : CanvasDrawingSession
  world : World

/-- The layer handle returned by `CreateLayerImpl`: the two values its close action
captured (the third, `weakSelf`, is the session the action is given when it runs). -/
structure CanvasActiveLayer where
  layerId : Int
  isAxisAlignedClip : Bool
  deriving DecidableEq, Repr

/-- Modelled from the spec: `ResourceWrapper::MaybeGetResource` is declared outside
this file; it gives the wrapped resource, null once released. -/
def CanvasDrawingSession.MaybeGetResource (self : CanvasDrawingSession) :
    Option ID2D1DeviceContext1 :=
  self.resource

/-- Modelled from the spec: `ResourceWrapper::ReleaseResource` is declared outside this
file; it detaches the backend resource handle from the session. -/
def CanvasDrawingSession.ReleaseResource (self : CanvasDrawingSession) :
    CanvasDrawingSession :=
  { self with resource := none }

/-- Modelled from the spec: `ResourceWrapper::GetResource` is declared outside this
file; it gives the wrapped resource, and after the resource was detached it fails with
the is-closed error (`none` here, which every caller turns into `RO_E_CLOSED`). -/
def CanvasDrawingSession.GetResource (self : CanvasDrawingSession) :
    Option ID2D1DeviceContext1 :=
  self.resource

/-- The throw of `GetResource` on a closed session. -/
def Ret.closed {α : Type} (self : CanvasDrawingSession) (w : World) : Ret α :=
  ⟨Outcome.threw HRESULT.RO_E_CLOSED none, none, self, w⟩

/-- The pre-increment `++` on the `int` counter; past `INT_MAX` the compiled code
wraps to `INT_MIN`. -/
def preIncrement (n : Int) : Int :=
  if n = 2147483647 then -2147483648 else n + 1

/-- The method `CanvasDrawingSession::InitializeDefaultState`. -/
def InitializeDefaultState (w : World) : World :=
  w.call D2DCall.SetTextAntialiasModeGrayscale

/-- The constructor `CanvasDrawingSession::CanvasDrawingSession`: a null `adapter`
is replaced by the no-op adapter, and the shared flag, when supplied, is set. -/
def CanvasDrawingSession.Constructor (deviceContext : ID2D1DeviceContext1)
    (adapter : Option ICanvasDrawingSessionAdapter) (owner : Option ICanvasDevice)
    (targetHasActiveDrawingSession : Bool) (offset : D2D1_POINT_2F) (w : World) :
    CanvasDrawingSession × World :=
  let self : CanvasDrawingSession :=
    { resource := some deviceContext
      m_adapter := some (match adapter with
        | some a => a
        | none => NoopCanvasDrawingSessionAdapter)
      m_targetHasActiveDrawingSession := targetHasActiveDrawingSession
      m_offset := offset
      m_solidColorBrush := none
      m_defaultTextFormat := none
      m_activeLayerIds := []
      m_nextLayerId := 0
      m_owner := owner
      m_inkD2DRenderer := none
      m_inkStateBlock := none }
  if self.m_targetHasActiveDrawingSession then
    (self, { w with targetHasActiveDrawingSession := true })
  else
    (self, w)

/-- The method `CanvasDrawingSession::CreateNew`. -/
def CanvasDrawingSession.CreateNew (deviceContext : ID2D1DeviceContext1)
    (drawingSessionAdapter : Option ICanvasDrawingSessionAdapter)
    (owner : Option ICanvasDevice) (targetHasActiveDrawingSession : Bool)
    (offset : D2D1_POINT_2F) (w : World) : CanvasDrawingSession × World :=
  CanvasDrawingSession.Constructor deviceContext drawingSessionAdapter owner
    targetHasActiveDrawingSession offset (InitializeDefaultState w)

/-- The tail of `Close`: the `Reset()` of the cached members. -/
def CanvasDrawingSession.resetCachedMembers (self : CanvasDrawingSession) :
    CanvasDrawingSession :=
  { self with
    m_solidColorBrush := none
    m_defaultTextFormat := none
    m_owner := none
    m_inkD2DRenderer := none
    m_inkStateBlock := none }

/-- The method `CanvasDrawingSession::Close`. -/
def CanvasDrawingSession.Close (self : CanvasDrawingSession) (w : World) : Ret Unit :=
  let deviceContext := self.MaybeGetResource
  let self := self.ReleaseResource
  if !self.m_activeLayerIds.isEmpty then
    ⟨Outcome.threw HRESULT.E_FAIL (some Strings.DidNotPopLayer), none, self, w⟩
  else
    let w := if self.m_targetHasActiveDrawingSession then
      { w with targetHasActiveDrawingSession := false } else w
    match self.m_adapter with
    | some adapter =>
      -- assert(deviceContext)
      match deviceContext with
      | none => ⟨Outcome.assertFailed, none, self, w⟩
      | some dc =>
        -- m_adapter is reset before EndDraw runs
        let self := { self with m_adapter := none }
        let w := { w with adapterCalls := w.adapterCalls ++ [AdapterCall.EndDraw adapter dc] }
        match ThrowIfFailed adapter.endDrawResult with
        | Outcome.ok => ⟨Outcome.ok, none, self.resetCachedMembers, w⟩
        | failure => ⟨failure, none, self, w⟩
    | none => ⟨Outcome.ok, none, self.resetCachedMembers, w⟩

/-- The destructor `~CanvasDrawingSession`: it runs `Close` and ignores the result;
the object is gone afterwards, the world stays. -/
def CanvasDrawingSession.Destructor (self : CanvasDrawingSession) (w : World) : World :=
  (self.Close w).world

/-- An out (or in) pointer argument, as far as the code looks at it: null or not. -/
inductive Pointer
  | null
  | valid
  deriving DecidableEq, Repr

/-- The constant `FLT_MAX` of the C library. -/
def FLT_MAX : ℚ := 340282346638528859811704183484516925440

/-- Modelled from the spec: `D2D1::InfiniteRect()` is declared outside this file; the
default "infinite" rectangle of a layer pushed without a clip rectangle. -/
def InfiniteRect : D2D1_RECT_F := ⟨-FLT_MAX, -FLT_MAX, FLT_MAX, FLT_MAX⟩

/-- The function `TransformIsAxisPreserving`: the current transform has no rotation or skew. -/
def TransformIsAxisPreserving (d2d : D2DState) : Bool :=
  d2d.transform.M12 == 0 && d2d.transform.M21 == 0

/-- The method `CanvasDrawingSession::ToD2DBrush`: null for a null brush, else the realized
native brush. -/
def CanvasDrawingSession.ToD2DBrush (self : CanvasDrawingSession)
    (brush : Option ICanvasBrush) : Except HRESULT (Option Nat) :=
  match brush with
  | none => Except.ok none
  | some brush =>
    match self.GetResource with
    | none => Except.error HRESULT.RO_E_CLOSED
    | some _ =>
      if brush.result = HRESULT.S_OK then Except.ok (some brush.d2dBrush)
      else Except.error brush.result

/-- Modelled from the spec: `GetWrappedResource<ID2D1Geometry>` is declared outside this
file; a geometry resource is realized as native geometry, or the call throws. -/
def GetWrappedResource (geometry : ICanvasGeometry) : Except HRESULT Nat :=
  if geometry.result = HRESULT.S_OK then Except.ok geometry.d2dGeometry
  else Except.error geometry.result

/-- The method `CanvasDrawingSession::CreateLayerImpl`.  `CheckAndClearOutPointer` (declared
outside this file) rejects a null out pointer with `E_INVALIDARG`; the allocation of
the `CanvasActiveLayer` is taken to succeed. -/
def CanvasDrawingSession.CreateLayerImpl (self : CanvasDrawingSession) (w : World)
    (opacity : ℚ) (opacityBrush : Option ICanvasBrush) (clipRectangle : Option Rect)
    (clipGeometry : Option ICanvasGeometry) (geometryTransform : Option Matrix3x2)
    (options : CanvasLayerOptions) (layer : Pointer) : Ret CanvasActiveLayer :=
  match layer with
  | Pointer.null => ⟨Outcome.threw HRESULT.E_INVALIDARG none, none, self, w⟩
  | Pointer.valid =>
  match self.GetResource with
  | none => Ret.closed self w
  | some _ =>
    match self.ToD2DBrush opacityBrush with
    | Except.error hr => ⟨Outcome.threw hr none, none, self, w⟩
    | Except.ok d2dBrush =>
      let d2dRect := match clipRectangle with
        | some r => ToD2DRect r
        | none => InfiniteRect
      match (match clipGeometry with
        | some geometry => (GetWrappedResource geometry).map some
        | none => Except.ok none) with
      | Except.error hr => ⟨Outcome.threw hr none, none, self, w⟩
      | Except.ok d2dGeometry =>
        let d2dMatrix := match geometryTransform with
          | some m => m
          | none => Matrix3x2.Identity
        let d2dAntialiasMode := w.d2d.antialiasMode
        let isAxisAlignedClip : Bool :=
          clipRectangle.isSome &&
          d2dBrush.isNone &&
          d2dGeometry.isNone &&
          opacity == 1 &&
          options == CanvasLayerOptions.None &&
          TransformIsAxisPreserving w.d2d
        let layerId := preIncrement self.m_nextLayerId
        let self := { self with m_nextLayerId := layerId }
        let self := { self with m_activeLayerIds := self.m_activeLayerIds ++ [layerId] }
        let activeLayer : CanvasActiveLayer := ⟨layerId, isAxisAlignedClip⟩
        let parameters : D2D1_LAYER_PARAMETERS1 :=
          { contentBounds := d2dRect
            geometricMask := d2dGeometry
            maskAntialiasMode := d2dAntialiasMode
            maskTransform := d2dMatrix
            opacity := opacity
            opacityBrush := d2dBrush
            layerOptions := options }
        ⟨Outcome.ok, some activeLayer, self,
          w.call (if isAxisAlignedClip then D2DCall.PushAxisAlignedClip d2dRect d2dAntialiasMode
            else D2DCall.PushLayer parameters)⟩

/-- The method `CanvasDrawingSession::CreateLayerWithOpacity`. -/
def CanvasDrawingSession.CreateLayerWithOpacity (self : CanvasDrawingSession) (w : World)
    (opacity : ℚ) (layer : Pointer) : Ret CanvasActiveLayer :=
  self.CreateLayerImpl w opacity none none none none CanvasLayerOptions.None layer

/-- The method `CanvasDrawingSession::CreateLayerWithOpacityAndClipRectangle`. -/
def CanvasDrawingSession.CreateLayerWithOpacityAndClipRectangle
    (self : CanvasDrawingSession) (w : World) (opacity : ℚ) (clipRectangle : Rect)
    (layer : Pointer) : Ret CanvasActiveLayer :=
  self.CreateLayerImpl w opacity none (some clipRectangle) none none
    CanvasLayerOptions.None layer

/-- The method `CanvasDrawingSession::PopLayer`. -/
def CanvasDrawingSession.PopLayer (self : CanvasDrawingSession) (w : World)
    (layerId : Int) (isAxisAlignedClip : Bool) : Ret Unit :=
  match self.GetResource with
  | none => Ret.closed self w
  | some _ =>
    -- assert(!m_activeLayerIds.empty())
    if self.m_activeLayerIds.isEmpty then
      ⟨Outcome.assertFailed, none, self, w⟩
    else if self.m_activeLayerIds.getLast? ≠ some layerId then
      ⟨Outcome.threw HRESULT.E_FAIL (some Strings.PoppedWrongLayer), none, self, w⟩
    else
      let self := { self with m_activeLayerIds := self.m_activeLayerIds.dropLast }
      if isAxisAlignedClip then
        ⟨Outcome.ok, none, self, w.call D2DCall.PopAxisAlignedClip⟩
      else
        ⟨Outcome.ok, none, self, w.call D2DCall.PopLayer⟩

/-- The close action built in `CreateLayerImpl` (the lambda given to
`CanvasActiveLayer`): `strongSelf` is what the weak reference locks to, `none` once
the session has been destroyed, and then nothing happens. -/
def CanvasActiveLayer.closeAction (layer : CanvasActiveLayer)
    (strongSelf : Option CanvasDrawingSession) (w : World) :
    Outcome × Option CanvasDrawingSession × World :=
  match strongSelf with
  | some self =>
    let r := self.PopLayer w layer.layerId layer.isAxisAlignedClip
    (r.outcome, some r.self, r.world)
  | none => (Outcome.ok, none, w)

/-! ## Clear, Flush, transform, units, device, DPI -/

/-- Windows.UI `Color`. -/
structure Color where
  A : Nat
  R : Nat
  G : Nat
  B : Nat
  deriving DecidableEq, Repr

/-- Modelled from the spec: `ToD2DColor` is declared outside this file; each 8-bit
channel of the colour over 255. -/
def ToD2DColor (c : Color) : D2D1_COLOR_F :=
  ⟨(c.R : ℚ) / 255, (c.G : ℚ) / 255, (c.B : ℚ) / 255, (c.A : ℚ) / 255⟩

/-- The device context's `SetTransform`. -/
def World.SetTransform (w : World) (m : Matrix3x2) : World :=
  { (w.call (D2DCall.SetTransform m)) with d2d := { w.d2d with transform := m } }

/-- The device context's `SetUnitMode`. -/
def World.SetUnitMode (w : World) (u : D2D1_UNIT_MODE) : World :=
  { (w.call (D2DCall.SetUnitMode u)) with d2d := { w.d2d with unitMode := u } }

/-- The method `CanvasDrawingSession::Clear`. -/
def CanvasDrawingSession.Clear (self : CanvasDrawingSession) (w : World) (color : Color) :
    Ret Unit :=
  match self.GetResource with
  | none => Ret.closed self w
  | some _ => ⟨Outcome.ok, none, self, w.call (D2DCall.Clear (ToD2DColor color))⟩

/-- The method `CanvasDrawingSession::Flush`. -/
def CanvasDrawingSession.Flush (self : CanvasDrawingSession) (w : World) : Ret Unit :=
  match self.GetResource with
  | none => Ret.closed self w
  | some _ => ⟨ThrowIfFailed w.d2d.flushResult, none, self, w.call D2DCall.Flush⟩

/-- Modelled from the spec: `DipsToPixels` with `CanvasDpiRounding::Floor` is declared
outside this file; pixel mode floors `offset * dpi / 96`. -/
def DipsToPixelsFloor (dips : ℚ) (dpi : ℚ) : Int :=
  Rat.floor (dips * dpi / 96)

/-- The function `GetOffsetInCorrectUnits`: `none` is the `assert(false)` of the last branch. -/
def GetOffsetInCorrectUnits (d2d : D2DState) (offset : D2D1_POINT_2F) :
    Option D2D1_POINT_2F :=
  match d2d.unitMode with
  | D2D1_UNIT_MODE.DIPS => some offset
  | D2D1_UNIT_MODE.PIXELS =>
    some ⟨(DipsToPixelsFloor offset.x d2d.dpi : ℚ), (DipsToPixelsFloor offset.y d2d.dpi : ℚ)⟩
  | D2D1_UNIT_MODE.other _ => none

/-- The static `GetTransform`: the device context's transform with the offset
stripped. -/
def GetTransform (d2d : D2DState) (offset : D2D1_POINT_2F) : Option Matrix3x2 :=
  match GetOffsetInCorrectUnits d2d offset with
  | none => none
  | some adjustedOffset =>
    some { d2d.transform with
      M31 := d2d.transform.M31 - adjustedOffset.x
      M32 := d2d.transform.M32 - adjustedOffset.y }

/-- The static `SetTransform`: sets the transform on the device context with the offset
applied; `none` when `GetOffsetInCorrectUnits` asserts. -/
def SetTransform (w : World) (offset : D2D1_POINT_2F) (matrix : Matrix3x2) : Option World :=
  match GetOffsetInCorrectUnits w.d2d offset with
  | none => none
  | some adjustedOffset =>
    some (w.SetTransform { matrix with
      M31 := matrix.M31 + adjustedOffset.x
      M32 := matrix.M32 + adjustedOffset.y })

/-- The method `CanvasDrawingSession::get_Transform`. -/
def CanvasDrawingSession.get_Transform (self : CanvasDrawingSession) (w : World)
    (value : Pointer) : Ret Matrix3x2 :=
  match self.GetResource with
  | none => Ret.closed self w
  | some _ =>
    match value with
    | Pointer.null => ⟨Outcome.threw HRESULT.E_INVALIDARG none, none, self, w⟩
    | Pointer.valid =>
      match GetTransform w.d2d self.m_offset with
      | none => ⟨Outcome.assertFailed, none, self, w⟩
      | some m => ⟨Outcome.ok, some m, self, w⟩

/-- The method `CanvasDrawingSession::put_Transform`. -/
def CanvasDrawingSession.put_Transform (self : CanvasDrawingSession) (w : World)
    (value : Matrix3x2) : Ret Unit :=
  match self.GetResource with
  | none => Ret.closed self w
  | some _ =>
    match SetTransform w self.m_offset value with
    | none => ⟨Outcome.assertFailed, none, self, w⟩
    | some w1 => ⟨Outcome.ok, none, self, w1⟩

/-- The cast of `D2D1_UNIT_MODE` to `CanvasUnits`. -/
def D2D1_UNIT_MODE.toCanvasUnits : D2D1_UNIT_MODE → CanvasUnits
  | D2D1_UNIT_MODE.DIPS => CanvasUnits.Dips
  | D2D1_UNIT_MODE.PIXELS => CanvasUnits.Pixels
  | D2D1_UNIT_MODE.other v => CanvasUnits.other v

/-- The cast of `CanvasUnits` to `D2D1_UNIT_MODE`. -/
def CanvasUnits.toD2D : CanvasUnits → D2D1_UNIT_MODE
  | CanvasUnits.Dips => D2D1_UNIT_MODE.DIPS
  | CanvasUnits.Pixels => D2D1_UNIT_MODE.PIXELS
  | CanvasUnits.other v => D2D1_UNIT_MODE.other v

/-- The method `CanvasDrawingSession::get_Units`. -/
def CanvasDrawingSession.get_Units (self : CanvasDrawingSession) (w : World)
    (value : Pointer) : Ret CanvasUnits :=
  match self.GetResource with
  | none => Ret.closed self w
  | some _ =>
    match value with
    | Pointer.null => ⟨Outcome.threw HRESULT.E_INVALIDARG none, none, self, w⟩
    | Pointer.valid => ⟨Outcome.ok, some w.d2d.unitMode.toCanvasUnits, self, w⟩

/-- The method `CanvasDrawingSession::put_Units`. -/
def CanvasDrawingSession.put_Units (self : CanvasDrawingSession) (w : World)
    (value : CanvasUnits) : Ret Unit :=
  match self.GetResource with
  | none => Ret.closed self w
  | some _ =>
    if self.m_offset.x ≠ 0 ∨ self.m_offset.y ≠ 0 then
      match GetTransform w.d2d self.m_offset with
      | none => ⟨Outcome.assertFailed, none, self, w⟩
      | some transform =>
        let w1 := w.SetUnitMode value.toD2D
        match SetTransform w1 self.m_offset transform with
        | none => ⟨Outcome.assertFailed, none, self, w1⟩
        | some w2 => ⟨Outcome.ok, none, self, w2⟩
    else
      ⟨Outcome.ok, none, self, w.SetUnitMode value.toD2D⟩

/-- The method `CanvasDrawingSession::GetDevice`: the owner when there is one, else a wrapper of
the device context's device, created on demand and kept in `m_owner`
(`ResourceManager::GetOrCreate` is taken to succeed). -/
def CanvasDrawingSession.GetDevice (self : CanvasDrawingSession) (w : World) :
    Except HRESULT ICanvasDevice × CanvasDrawingSession :=
  match self.m_owner with
  | some owner => (Except.ok owner, self)
  | none =>
    match self.GetResource with
    | none => (Except.error HRESULT.RO_E_CLOSED, self)
    | some _ => (Except.ok ⟨w.d2d.device⟩, { self with m_owner := some ⟨w.d2d.device⟩ })

/-- The method `CanvasDrawingSession::get_Device`. -/
def CanvasDrawingSession.get_Device (self : CanvasDrawingSession) (w : World)
    (value : Pointer) : Ret ICanvasDevice :=
  match value with
  | Pointer.null => ⟨Outcome.threw HRESULT.E_INVALIDARG none, none, self, w⟩
  | Pointer.valid =>
    match self.GetDevice w with
    | (Except.error hr, self1) => ⟨Outcome.threw hr none, none, self1, w⟩
    | (Except.ok device, self1) => ⟨Outcome.ok, some device, self1, w⟩

/-- The method `CanvasDrawingSession::get_Dpi`. -/
def CanvasDrawingSession.get_Dpi (self : CanvasDrawingSession) (w : World)
    (dpi : Pointer) : Ret ℚ :=
  match self.GetResource with
  | none => Ret.closed self w
  | some _ =>
    match dpi with
    | Pointer.null => ⟨Outcome.threw HRESULT.E_INVALIDARG none, none, self, w⟩
    | Pointer.valid => ⟨Outcome.ok, some w.d2d.dpi, self, w⟩

/-! ## DrawImageWorker -/

/-- The function `GetBitmapSize`: the bitmap's size in the given unit mode; `none` is the
`assert(false)` of the default branch. -/
def GetBitmapSize (unitMode : D2D1_UNIT_MODE) (bitmap : ID2D1Bitmap) : Option D2D1_SIZE_F :=
  match unitMode with
  | D2D1_UNIT_MODE.DIPS => some bitmap.size
  | D2D1_UNIT_MODE.PIXELS => some ⟨(bitmap.pixelWidth : ℚ), (bitmap.pixelHeight : ℚ)⟩
  | D2D1_UNIT_MODE.other _ => none

/-- The cast of `CanvasImageInterpolation` to `D2D1_INTERPOLATION_MODE`. -/
def CanvasImageInterpolation.toD2D : CanvasImageInterpolation → D2D1_INTERPOLATION_MODE
  | CanvasImageInterpolation.NearestNeighbor => D2D1_INTERPOLATION_MODE.NEAREST_NEIGHBOR
  | CanvasImageInterpolation.Linear => D2D1_INTERPOLATION_MODE.LINEAR
  | CanvasImageInterpolation.Cubic => D2D1_INTERPOLATION_MODE.CUBIC
  | CanvasImageInterpolation.MultiSampleLinear => D2D1_INTERPOLATION_MODE.MULTI_SAMPLE_LINEAR
  | CanvasImageInterpolation.Anisotropic => D2D1_INTERPOLATION_MODE.ANISOTROPIC
  | CanvasImageInterpolation.HighQualityCubic => D2D1_INTERPOLATION_MODE.HIGH_QUALITY_CUBIC

/-- The cast of `CanvasComposite` to `D2D1_COMPOSITE_MODE`. -/
def CanvasComposite.toD2D : CanvasComposite → D2D1_COMPOSITE_MODE
  | CanvasComposite.SourceOver => D2D1_COMPOSITE_MODE.SOURCE_OVER
  | CanvasComposite.DestinationOver => D2D1_COMPOSITE_MODE.DESTINATION_OVER
  | CanvasComposite.SourceIn => D2D1_COMPOSITE_MODE.SOURCE_IN
  | CanvasComposite.DestinationIn => D2D1_COMPOSITE_MODE.DESTINATION_IN
  | CanvasComposite.SourceOut => D2D1_COMPOSITE_MODE.SOURCE_OUT
  | CanvasComposite.DestinationOut => D2D1_COMPOSITE_MODE.DESTINATION_OUT
  | CanvasComposite.SourceAtop => D2D1_COMPOSITE_MODE.SOURCE_ATOP
  | CanvasComposite.DestinationAtop => D2D1_COMPOSITE_MODE.DESTINATION_ATOP
  | CanvasComposite.Xor => D2D1_COMPOSITE_MODE.XOR
  | CanvasComposite.Add => D2D1_COMPOSITE_MODE.PLUS
  | CanvasComposite.Copy => D2D1_COMPOSITE_MODE.SOURCE_COPY
  | CanvasComposite.BoundedCopy => D2D1_COMPOSITE_MODE.BOUNDED_SOURCE_COPY
  | CanvasComposite.MaskInvert => D2D1_COMPOSITE_MODE.MASK_INVERT

/-- Modelled from the spec: the matrix product of Direct2D is declared outside this
file; the product of two 3x2 affine matrices, acting on row vectors. -/
def Matrix3x2.mul (a b : Matrix3x2) : Matrix3x2 :=
  { M11 := a.M11 * b.M11 + a.M12 * b.M21
    M12 := a.M11 * b.M12 + a.M12 * b.M22
    M21 := a.M21 * b.M11 + a.M22 * b.M21
    M22 := a.M21 * b.M12 + a.M22 * b.M22
    M31 := a.M31 * b.M11 + a.M32 * b.M21 + b.M31
    M32 := a.M31 * b.M12 + a.M32 * b.M22 + b.M32 }

/-- Modelled from the spec: the point transform of Direct2D
(`Matrix3x2F::TransformPoint`) is declared outside this file; a point, as a row
vector, times the matrix, plus the translation. -/
def Matrix3x2.transformPoint (a : Matrix3x2) (p : D2D1_POINT_2F) : D2D1_POINT_2F :=
  ⟨p.x * a.M11 + p.y * a.M21 + a.M31, p.x * a.M12 + p.y * a.M22 + a.M32⟩

/-- Modelled from the spec: `TemporaryTransform` lives in utils/TemporaryTransform.h,
outside this file.  The transform it installs for the duration of one call: scale,
then translate by `offset`, in front of the transform that was current.  When its scope
ends, on every exit path, the transform that was current is set again; that step is
the last `SetTransform` of `DrawImageWorker.DrawImageToRect`. -/
def TemporaryTransform (previous : Matrix3x2) (offset : Vector2) (scale : Vector2) :
    Matrix3x2 :=
  (Matrix3x2.mul ⟨scale.X, 0, 0, scale.Y, 0, 0⟩ ⟨1, 0, 0, 1, offset.X, offset.Y⟩).mul previous

/-- The members of `DrawImageWorker`; the device context is the `World` its methods
run in.  `m_d2dSourceRect` is `none` while not initialised (no source rectangle). -/
structure DrawImageWorker where
  m_canvasDevice : ICanvasDevice
  m_offset : Option Vector2
  m_destinationRect : Option Rect
  m_sourceRect : Option Rect
  m_opacity : ℚ
  m_interpolation : CanvasImageInterpolation
  m_d2dSourceRect : Option D2D1_RECT_F
  deriving DecidableEq, Repr

/-- The constructor of `DrawImageWorker`; `none` is its failed assertion that an
offset or a destination rectangle is given. -/
def DrawImageWorker.Constructor (canvasDevice : ICanvasDevice) (offset : Option Vector2)
    (destinationRect : Option Rect) (sourceRect : Option Rect) (opacity : ℚ)
    (interpolation : CanvasImageInterpolation) : Option DrawImageWorker :=
  if offset.isNone && destinationRect.isNone then none
  else some
    { m_canvasDevice := canvasDevice
      m_offset := offset
      m_destinationRect := destinationRect
      m_sourceRect := sourceRect
      m_opacity := opacity
      m_interpolation := interpolation
      m_d2dSourceRect := sourceRect.map ToD2DRect }

/-- The method `DrawImageWorker::GetD2DSourceRect`. -/
def DrawImageWorker.GetD2DSourceRect (self : DrawImageWorker) : Option D2D1_RECT_F :=
  match self.m_sourceRect with
  | some _ => self.m_d2dSourceRect
  | none => none

/-- The method `DrawImageWorker::IsValidDrawBitmapCompositeMode`. -/
def DrawImageWorker.IsValidDrawBitmapCompositeMode (w : World)
    (composite : Option CanvasComposite) : Bool :=
  match w.d2d.primitiveBlend with
  | D2D1_PRIMITIVE_BLEND.SOURCE_OVER =>
    composite.isNone || composite == some CanvasComposite.SourceOver
  | D2D1_PRIMITIVE_BLEND.COPY =>
    composite.isNone || composite == some CanvasComposite.Copy
  | D2D1_PRIMITIVE_BLEND.ADD =>
    composite.isNone || composite == some CanvasComposite.Add
  | _ => false

/-- The method `DrawImageWorker::GetCompositeModeFromPrimitiveBlend`. -/
def DrawImageWorker.GetCompositeModeFromPrimitiveBlend (w : World) :
    Except Outcome D2D1_COMPOSITE_MODE :=
  match w.d2d.primitiveBlend with
  | D2D1_PRIMITIVE_BLEND.SOURCE_OVER => Except.ok D2D1_COMPOSITE_MODE.SOURCE_OVER
  | D2D1_PRIMITIVE_BLEND.COPY => Except.ok D2D1_COMPOSITE_MODE.SOURCE_COPY
  | D2D1_PRIMITIVE_BLEND.ADD => Except.ok D2D1_COMPOSITE_MODE.PLUS
  | D2D1_PRIMITIVE_BLEND.MIN =>
    Except.error (Outcome.threw HRESULT.E_FAIL (some Strings.DrawImageMinBlendNotSupported))
  | D2D1_PRIMITIVE_BLEND.other _ => Except.error (Outcome.threw HRESULT.E_UNEXPECTED none)

/-- The method `DrawImageWorker::IsValidDrawBitmapInterpolationMode`. -/
def DrawImageWorker.IsValidDrawBitmapInterpolationMode (self : DrawImageWorker) : Bool :=
  self.m_interpolation == CanvasImageInterpolation.Linear ||
  self.m_interpolation == CanvasImageInterpolation.NearestNeighbor

/-- The method `DrawImageWorker::CalculateDestRect`; `none` when `GetBitmapSize` asserts (or when
neither rectangle nor offset is there to read, which the constructor excludes). -/
def DrawImageWorker.CalculateDestRect (self : DrawImageWorker) (w : World)
    (d2dBitmap : ID2D1Bitmap) : Option D2D1_RECT_F :=
  match self.m_destinationRect with
  | some r => some (ToD2DRect r)
  | none =>
    match (match self.m_sourceRect with
      | some sourceRect => some (⟨sourceRect.Width, sourceRect.Height⟩ : D2D1_SIZE_F)
      | none => GetBitmapSize w.d2d.unitMode d2dBitmap) with
    | none => none
    | some destSize =>
      match self.m_offset with
      | none => none
      | some offset =>
        some ⟨offset.X, offset.Y, offset.X + destSize.width, offset.Y + destSize.height⟩

/-- The private `DrawImageWorker::DrawBitmap`. -/
def DrawImageWorker.DrawBitmap (self : DrawImageWorker) (w : World)
    (internalBitmap : ICanvasBitmap) (perspective : Option Matrix4x4) : Outcome × World :=
  match ThrowIfFailed internalBitmap.result with
  | Outcome.ok =>
    match self.CalculateDestRect w internalBitmap.d2dBitmap with
    | none => (Outcome.assertFailed, w)
    | some d2dDestRect =>
      (Outcome.ok, w.call (D2DCall.DrawBitmap internalBitmap.d2dBitmap d2dDestRect
        self.m_opacity self.m_interpolation.toD2D self.GetD2DSourceRect perspective))
  | failure => (failure, w)

/-- Modelled from the spec: `D2D1::SetDpiCompensatedEffectInput` is declared outside
this file (a Direct2D helper); the bitmap is bound through a DPI-compensating adapter,
an effect created on the device context, instead of being bound directly. -/
def SetDpiCompensatedEffectInput (w : World) : Outcome × World :=
  (ThrowIfFailed w.d2d.createDpiCompensationResult,
    w.call (D2DCall.CreateEffect CLSID.D2D1DpiCompensation))

/-- The method `DrawImageWorker::MaybeApplyOpacityEffect`. -/
def DrawImageWorker.MaybeApplyOpacityEffect (self : DrawImageWorker) (w : World)
    (d2dImage : ID2D1Image) : Outcome × ID2D1Image × World :=
  if self.m_opacity ≥ 1 then (Outcome.ok, d2dImage, w)
  else
    let w1 := w.call (D2DCall.CreateEffect CLSID.D2D1ColorMatrix)
    match ThrowIfFailed w.d2d.createColorMatrixResult with
    | Outcome.ok =>
      match d2dImage with
      | ID2D1Image.bitmap _ =>
        match SetDpiCompensatedEffectInput w1 with
        | (Outcome.ok, w2) =>
          (Outcome.ok, ID2D1Image.opacityEffectOutput d2dImage true self.m_opacity, w2)
        | (failure, w2) => (failure, d2dImage, w2)
      | _ => (Outcome.ok, ID2D1Image.opacityEffectOutput d2dImage false self.m_opacity, w1)
    | failure => (failure, d2dImage, w1)

/-- The method `DrawImageWorker::MaybeAdjustD2DSourceRect`: for a bitmap, the source rectangle is
clamped to the bitmap and a border effect is put in front of it. -/
def DrawImageWorker.MaybeAdjustD2DSourceRect (self : DrawImageWorker) (w : World)
    (d2dImage : ID2D1Image) : Outcome × DrawImageWorker × ID2D1Image × World :=
  match d2dImage with
  | ID2D1Image.bitmap d2dBitmap =>
    match self.m_d2dSourceRect with
    | none => (Outcome.assertFailed, self, d2dImage, w)
    | some r =>
      let r := { r with left := max r.left 0 }
      let r := { r with top := max r.top 0 }
      match GetBitmapSize w.d2d.unitMode d2dBitmap with
      | none => (Outcome.assertFailed, { self with m_d2dSourceRect := some r }, d2dImage, w)
      | some size =>
        let r := { r with right := min r.right size.width }
        let r := { r with bottom := min r.bottom size.height }
        let self := { self with m_d2dSourceRect := some r }
        let w1 := w.call (D2DCall.CreateEffect CLSID.D2D1Border)
        match ThrowIfFailed w.d2d.createBorderResult with
        | Outcome.ok =>
          match SetDpiCompensatedEffectInput w1 with
          | (Outcome.ok, w2) => (Outcome.ok, self, ID2D1Image.borderEffectOutput d2dBitmap, w2)
          | (failure, w2) => (failure, self, d2dImage, w2)
        | failure => (failure, self, d2dImage, w1)
  | _ => (Outcome.ok, self, d2dImage, w)

/-- The method `DrawImageWorker::DrawImageAtOffset`. -/
def DrawImageWorker.DrawImageAtOffset (self : DrawImageWorker) (w : World)
    (d2dImage : ID2D1Image) (offset : Vector2)
    (d2dInterpolationMode : D2D1_INTERPOLATION_MODE)
    (d2dCompositeMode : D2D1_COMPOSITE_MODE) : Outcome × World :=
  let d2dOffset := ToD2DPoint offset
  match self.MaybeApplyOpacityEffect w d2dImage with
  | (Outcome.ok, d2dImage, w1) =>
    (Outcome.ok, w1.call (D2DCall.DrawImage d2dImage d2dOffset self.GetD2DSourceRect
      d2dInterpolationMode d2dCompositeMode))
  | (failure, _, w1) => (failure, w1)

/-- The method `DrawImageWorker::DrawImageToRect`. -/
def DrawImageWorker.DrawImageToRect (self : DrawImageWorker) (w : World)
    (d2dImage : ID2D1Image) (destinationRect : Rect)
    (d2dInterpolationMode : D2D1_INTERPOLATION_MODE)
    (d2dCompositeMode : D2D1_COMPOSITE_MODE) : Outcome × World :=
  -- assert(m_sourceRect)
  match self.m_sourceRect with
  | none => (Outcome.assertFailed, w)
  | some _ =>
    match self.MaybeAdjustD2DSourceRect w d2dImage with
    | (Outcome.ok, self, d2dImage, w1) =>
      match self.MaybeApplyOpacityEffect w1 d2dImage with
      | (Outcome.ok, d2dImage, w2) =>
        match self.m_d2dSourceRect with
        | none => (Outcome.assertFailed, w2)
        | some m_d2dSourceRect =>
          let sourceWidth := m_d2dSourceRect.right - m_d2dSourceRect.left
          let sourceHeight := m_d2dSourceRect.bottom - m_d2dSourceRect.top
          if sourceWidth = 0 ∨ sourceHeight = 0 then (Outcome.ok, w2)
          else
            let offset : Vector2 := ⟨destinationRect.X, destinationRect.Y⟩
            let scale : Vector2 :=
              ⟨destinationRect.Width / sourceWidth, destinationRect.Height / sourceHeight⟩
            let previous := w2.d2d.transform
            let w3 := w2.SetTransform (TemporaryTransform previous offset scale)
            let w4 := w3.call (D2DCall.DrawImage d2dImage ⟨0, 0⟩ (some m_d2dSourceRect)
              d2dInterpolationMode d2dCompositeMode)
            (Outcome.ok, w4.SetTransform previous)
      | (failure, _, w2) => (failure, w2)
    | (failure, _, _, w1) => (failure, w1)

/-- Modelled from the spec: `ICanvasImageInternal::GetD2DImage` is declared outside this
file; an image resource is realized as a native drawable image, or the call throws. -/
def ICanvasImage.GetD2DImage : ICanvasImage → Except HRESULT ID2D1Image
  | ICanvasImage.bitmap b =>
    if b.result = HRESULT.S_OK then Except.ok (ID2D1Image.bitmap b.d2dBitmap)
    else Except.error b.result
  | ICanvasImage.image d2dImage result =>
    if result = HRESULT.S_OK then Except.ok d2dImage else Except.error result

/-- Modelled from the spec: `MaybeAs<ICanvasBitmapInternal>` is declared outside this
file; it answers whether the source exposes a realized native bitmap. -/
def ICanvasImage.MaybeAsBitmapInternal : ICanvasImage → Option ICanvasBitmap
  | ICanvasImage.bitmap b => some b
  | ICanvasImage.image _ _ => none

/-- The composite mode the slow path of `DrawImageWorker::DrawImage` draws with: the
override, cast to the Direct2D enumeration, when one is given, else what
`GetCompositeModeFromPrimitiveBlend` gives (or throws). -/
def DrawImageWorker.d2dCompositeMode (w : World) (composite : Option CanvasComposite) :
    Except Outcome D2D1_COMPOSITE_MODE :=
  match composite with
  | some c => Except.ok c.toD2D
  | none => DrawImageWorker.GetCompositeModeFromPrimitiveBlend w

/-- The slow path of `DrawImageWorker::DrawImage` (its `else` branch). -/
def DrawImageWorker.DrawImageSlowPath (self : DrawImageWorker) (w : World)
    (image : ICanvasImage) (composite : Option CanvasComposite) : Outcome × World :=
  match image.GetD2DImage with
  | Except.error hr => (Outcome.threw hr none, w)
  | Except.ok d2dImage =>
    let d2dInterpolationMode := self.m_interpolation.toD2D
    match DrawImageWorker.d2dCompositeMode w composite with
    | Except.error failure => (failure, w)
    | Except.ok d2dCompositeMode =>
      match self.m_offset with
      | some offset =>
        self.DrawImageAtOffset w d2dImage offset d2dInterpolationMode d2dCompositeMode
      | none =>
        match self.m_destinationRect with
        | some destinationRect =>
          self.DrawImageToRect w d2dImage destinationRect d2dInterpolationMode
            d2dCompositeMode
        | none => (Outcome.assertFailed, w)

/-- The method `DrawImageWorker::DrawImage`. -/
def DrawImageWorker.DrawImage (self : DrawImageWorker) (w : World) (image : ICanvasImage)
    (composite : Option CanvasComposite) : Outcome × World :=
  match image.MaybeAsBitmapInternal with
  | some internalBitmap =>
    if DrawImageWorker.IsValidDrawBitmapCompositeMode w composite &&
        self.IsValidDrawBitmapInterpolationMode then
      self.DrawBitmap w internalBitmap none
    else self.DrawImageSlowPath w image composite
  | none => self.DrawImageSlowPath w image composite

/-! ## The image-drawing entry points -/

/-- The default `DefaultDrawImageOpacity()` of CanvasDrawingSession.h. -/
def DefaultDrawImageOpacity : ℚ := 1

/-- The default `DefaultDrawImageInterpolation()` of CanvasDrawingSession.h. -/
def DefaultDrawImageInterpolation : CanvasImageInterpolation :=
  CanvasImageInterpolation.Linear

/-- The method `CanvasDrawingSession::DrawImageImpl`.  `CheckInPointer` (declared outside this
file) rejects a null pointer with `E_INVALIDARG`. -/
def CanvasDrawingSession.DrawImageImpl (self : CanvasDrawingSession) (w : World)
    (image : Option ICanvasImage) (offset : Option Vector2) (destinationRect : Option Rect)
    (sourceRect : Option Rect) (opacity : ℚ) (interpolation : CanvasImageInterpolation)
    (composite : Option CanvasComposite) : Ret Unit :=
  match self.GetResource with
  | none => Ret.closed self w
  | some _ =>
    match image with
    | none => ⟨Outcome.threw HRESULT.E_INVALIDARG none, none, self, w⟩
    | some image =>
      match self.GetDevice w with
      | (Except.error hr, self1) => ⟨Outcome.threw hr none, none, self1, w⟩
      | (Except.ok device, self1) =>
        match DrawImageWorker.Constructor device offset destinationRect sourceRect opacity
          interpolation with
        | none => ⟨Outcome.assertFailed, none, self1, w⟩
        | some worker =>
          ⟨(worker.DrawImage w image composite).1, none, self1,
            (worker.DrawImage w image composite).2⟩

/-- The method `CanvasDrawingSession::DrawBitmapImpl`; the public `DrawImageWorker::DrawBitmap` it
calls passes the bitmap's `ICanvasBitmapInternal` to the private one. -/
def CanvasDrawingSession.DrawBitmapImpl (self : CanvasDrawingSession) (w : World)
    (bitmap : Option ICanvasBitmap) (offset : Option Vector2) (destinationRect : Option Rect)
    (sourceRect : Option Rect) (opacity : ℚ) (interpolation : CanvasImageInterpolation)
    (perspective : Option Matrix4x4) : Ret Unit :=
  match self.GetResource with
  | none => Ret.closed self w
  | some _ =>
    match bitmap with
    | none => ⟨Outcome.threw HRESULT.E_INVALIDARG none, none, self, w⟩
    | some bitmap =>
      match self.GetDevice w with
      | (Except.error hr, self1) => ⟨Outcome.threw hr none, none, self1, w⟩
      | (Except.ok device, self1) =>
        match DrawImageWorker.Constructor device offset destinationRect sourceRect opacity
          interpolation with
        | none => ⟨Outcome.assertFailed, none, self1, w⟩
        | some worker =>
          ⟨(worker.DrawBitmap w bitmap perspective).1, none, self1,
            (worker.DrawBitmap w bitmap perspective).2⟩

/-- The method `CanvasDrawingSession::DrawImageAtOrigin`. -/
def CanvasDrawingSession.DrawImageAtOrigin
    (self : CanvasDrawingSession) (w : World) (image : Option ICanvasImage) : Ret Unit :=
  self.DrawImageImpl w image (some ⟨0, 0⟩) none none DefaultDrawImageOpacity
    DefaultDrawImageInterpolation none

/-- The method `CanvasDrawingSession::DrawImageAtOffset`. -/
def CanvasDrawingSession.DrawImageAtOffset
    (self : CanvasDrawingSession) (w : World) (image : Option ICanvasImage)
    (offset : Vector2) : Ret Unit :=
  self.DrawImageImpl w image (some offset) none none DefaultDrawImageOpacity
    DefaultDrawImageInterpolation none

/-- The method `CanvasDrawingSession::DrawImageAtCoords`. -/
def CanvasDrawingSession.DrawImageAtCoords
    (self : CanvasDrawingSession) (w : World) (image : Option ICanvasImage) (x y : ℚ)
    : Ret Unit :=
  self.DrawImageImpl w image (some ⟨x, y⟩) none none DefaultDrawImageOpacity
    DefaultDrawImageInterpolation none

/-- The method `CanvasDrawingSession::DrawImageToRect`. -/
def CanvasDrawingSession.DrawImageToRect
    (self : CanvasDrawingSession) (w : World) (bitmap : Option ICanvasBitmap)
    (destinationRect : Rect) : Ret Unit :=
  self.DrawBitmapImpl w bitmap none (some destinationRect) none DefaultDrawImageOpacity
    DefaultDrawImageInterpolation none

/-- The method `CanvasDrawingSession::DrawImageAtOffsetWithSourceRect`. -/
def CanvasDrawingSession.DrawImageAtOffsetWithSourceRect
    (self : CanvasDrawingSession) (w : World) (image : Option ICanvasImage)
    (offset : Vector2) (sourceRect : Rect) : Ret Unit :=
  self.DrawImageImpl w image (some offset) none (some sourceRect) DefaultDrawImageOpacity
    DefaultDrawImageInterpolation none

/-- The method `CanvasDrawingSession::DrawImageAtCoordsWithSourceRect`. -/
def CanvasDrawingSession.DrawImageAtCoordsWithSourceRect
    (self : CanvasDrawingSession) (w : World) (image : Option ICanvasImage) (x y : ℚ)
    (sourceRect : Rect) : Ret Unit :=
  self.DrawImageImpl w image (some ⟨x, y⟩) none (some sourceRect) DefaultDrawImageOpacity
    DefaultDrawImageInterpolation none

/-- The method `CanvasDrawingSession::DrawImageToRectWithSourceRect`. -/
def CanvasDrawingSession.DrawImageToRectWithSourceRect
    (self : CanvasDrawingSession) (w : World) (image : Option ICanvasImage)
    (destinationRect : Rect) (sourceRect : Rect) : Ret Unit :=
  self.DrawImageImpl w image none (some destinationRect) (some sourceRect)
    DefaultDrawImageOpacity DefaultDrawImageInterpolation none

/-- The method `CanvasDrawingSession::DrawImageAtOffsetWithSourceRectAndOpacity`. -/
def CanvasDrawingSession.DrawImageAtOffsetWithSourceRectAndOpacity
    (self : CanvasDrawingSession) (w : World) (image : Option ICanvasImage)
    (offset : Vector2) (sourceRectangle : Rect) (opacity : ℚ) : Ret Unit :=
  self.DrawImageImpl w image (some offset) none (some sourceRectangle) opacity
    DefaultDrawImageInterpolation none

/-- The method `CanvasDrawingSession::DrawImageAtCoordsWithSourceRectAndOpacity`. -/
def CanvasDrawingSession.DrawImageAtCoordsWithSourceRectAndOpacity
    (self : CanvasDrawingSession) (w : World) (image : Option ICanvasImage) (x y : ℚ)
    (sourceRectangle : Rect) (opacity : ℚ) : Ret Unit :=
  self.DrawImageImpl w image (some ⟨x, y⟩) none (some sourceRectangle) opacity
    DefaultDrawImageInterpolation none

/-- The method `CanvasDrawingSession::DrawImageToRectWithSourceRectAndOpacity`. -/
def CanvasDrawingSession.DrawImageToRectWithSourceRectAndOpacity
    (self : CanvasDrawingSession) (w : World) (image : Option ICanvasImage)
    (destinationRectangle : Rect) (sourceRectangle : Rect) (opacity : ℚ) : Ret Unit :=
  self.DrawImageImpl w image none (some destinationRectangle) (some sourceRectangle) opacity
    DefaultDrawImageInterpolation none

/-- The method `CanvasDrawingSession::DrawImageAtOffsetWithSourceRectAndOpacityAndInterpolation`. -/
def CanvasDrawingSession.DrawImageAtOffsetWithSourceRectAndOpacityAndInterpolation
    (self : CanvasDrawingSession) (w : World) (image : Option ICanvasImage)
    (offset : Vector2) (sourceRectangle : Rect) (opacity : ℚ)
    (interpolation : CanvasImageInterpolation) : Ret Unit :=
  self.DrawImageImpl w image (some offset) none (some sourceRectangle) opacity interpolation
    none

/-- The method `CanvasDrawingSession::DrawImageAtCoordsWithSourceRectAndOpacityAndInterpolation`. -/
def CanvasDrawingSession.DrawImageAtCoordsWithSourceRectAndOpacityAndInterpolation
    (self : CanvasDrawingSession) (w : World) (image : Option ICanvasImage) (x y : ℚ)
    (sourceRectangle : Rect) (opacity : ℚ) (interpolation : CanvasImageInterpolation)
    : Ret Unit :=
  self.DrawImageImpl w image (some ⟨x, y⟩) none (some sourceRectangle) opacity interpolation
    none

/-- The method `CanvasDrawingSession::DrawImageToRectWithSourceRectAndOpacityAndInterpolation`. -/
def CanvasDrawingSession.DrawImageToRectWithSourceRectAndOpacityAndInterpolation
    (self : CanvasDrawingSession) (w : World) (image : Option ICanvasImage)
    (destinationRectangle : Rect) (sourceRectangle : Rect) (opacity : ℚ)
    (interpolation : CanvasImageInterpolation) : Ret Unit :=
  self.DrawImageImpl w image none (some destinationRectangle) (some sourceRectangle) opacity
    interpolation none

/-- The entry point
`DrawImageAtOffsetWithSourceRectAndOpacityAndInterpolationAndComposite`. -/
def CanvasDrawingSession.DrawImageAtOffsetWithSourceRectAndOpacityAndInterpolationAndComposite
    (self : CanvasDrawingSession) (w : World) (image : Option ICanvasImage)
    (offset : Vector2) (sourceRectangle : Rect) (opacity : ℚ)
    (interpolation : CanvasImageInterpolation) (composite : CanvasComposite) : Ret Unit :=
  self.DrawImageImpl w image (some offset) none (some sourceRectangle) opacity interpolation
    (some composite)

/-- The entry point
`DrawImageAtCoordsWithSourceRectAndOpacityAndInterpolationAndComposite`. -/
def CanvasDrawingSession.DrawImageAtCoordsWithSourceRectAndOpacityAndInterpolationAndComposite
    (self : CanvasDrawingSession) (w : World) (image : Option ICanvasImage) (x y : ℚ)
    (sourceRectangle : Rect) (opacity : ℚ) (interpolation : CanvasImageInterpolation)
    (composite : CanvasComposite) : Ret Unit :=
  self.DrawImageImpl w image (some ⟨x, y⟩) none (some sourceRectangle) opacity interpolation
    (some composite)

/-- The method `CanvasDrawingSession::DrawImageToRectWithSourceRectAndOpacityAndInterpolationAndComposite`. -/
def CanvasDrawingSession.DrawImageToRectWithSourceRectAndOpacityAndInterpolationAndComposite
    (self : CanvasDrawingSession) (w : World) (image : Option ICanvasImage)
    (destinationRectangle : Rect) (sourceRectangle : Rect) (opacity : ℚ)
    (interpolation : CanvasImageInterpolation) (composite : CanvasComposite) : Ret Unit :=
  self.DrawImageImpl w image none (some destinationRectangle) (some sourceRectangle) opacity
    interpolation (some composite)

/-- The entry point
`DrawImageAtOffsetWithSourceRectAndOpacityAndInterpolationAndPerspective`. -/
def CanvasDrawingSession.DrawImageAtOffsetWithSourceRectAndOpacityAndInterpolationAndPerspective
    (self : CanvasDrawingSession) (w : World) (bitmap : Option ICanvasBitmap)
    (offset : Vector2) (sourceRectangle : Rect) (opacity : ℚ)
    (interpolation : CanvasImageInterpolation) (perspective : Matrix4x4) : Ret Unit :=
  self.DrawBitmapImpl w bitmap (some offset) none (some sourceRectangle) opacity
    interpolation (some perspective)

/-- The entry point
`DrawImageAtCoordsWithSourceRectAndOpacityAndInterpolationAndPerspective`. -/
def CanvasDrawingSession.DrawImageAtCoordsWithSourceRectAndOpacityAndInterpolationAndPerspective
    (self : CanvasDrawingSession) (w : World) (bitmap : Option ICanvasBitmap) (x y : ℚ)
    (sourceRectangle : Rect) (opacity : ℚ) (interpolation : CanvasImageInterpolation)
    (perspective : Matrix4x4) : Ret Unit :=
  self.DrawBitmapImpl w bitmap (some ⟨x, y⟩) none (some sourceRectangle) opacity
    interpolation (some perspective)

/-- The entry point
`DrawImageToRectWithSourceRectAndOpacityAndInterpolationAndPerspective`. -/
def CanvasDrawingSession.DrawImageToRectWithSourceRectAndOpacityAndInterpolationAndPerspective
    (self : CanvasDrawingSession) (w : World) (bitmap : Option ICanvasBitmap)
    (destinationRectangle : Rect) (sourceRectangle : Rect) (opacity : ℚ)
    (interpolation : CanvasImageInterpolation) (perspective : Matrix4x4) : Ret Unit :=
  self.DrawBitmapImpl w bitmap none (some destinationRectangle) (some sourceRectangle)
    opacity interpolation (some perspective)

/-- The arguments of one `CreateLayerImpl` call. -/
structure LayerRequest where
  opacity : ℚ
  opacityBrush : Option ICanvasBrush
  clipRectangle : Option Rect
  clipGeometry : Option ICanvasGeometry
  geometryTransform : Option Matrix3x2
  options : CanvasLayerOptions
  layer : Pointer
  deriving DecidableEq, Repr

/-- The method `CreateLayerImpl` applied to a bundled argument list. -/
def CanvasDrawingSession.CreateLayer (self : CanvasDrawingSession) (w : World)
    (a : LayerRequest) : Ret CanvasActiveLayer :=
  self.CreateLayerImpl w a.opacity a.opacityBrush a.clipRectangle a.clipGeometry
    a.geometryTransform a.options a.layer

/-- The condition under which `DrawImageWorker::DrawImage` takes the `DrawBitmap` fast
path (the condition of its `if`). -/
def DrawImageWorker.takesBitmapPath (self : DrawImageWorker) (w : World)
    (image : ICanvasImage) (composite : Option CanvasComposite) : Bool :=
  image.MaybeAsBitmapInternal.isSome &&
    (DrawImageWorker.IsValidDrawBitmapCompositeMode w composite &&
      self.IsValidDrawBitmapInterpolationMode)

/-- The worker that `DrawImageImpl` and `DrawBitmapImpl` build from their arguments. -/
def DrawImageWorker.ofArguments (canvasDevice : ICanvasDevice) (offset : Option Vector2)
    (destinationRect : Option Rect) (sourceRect : Option Rect) (opacity : ℚ)
    (interpolation : CanvasImageInterpolation) : DrawImageWorker :=
  { m_canvasDevice := canvasDevice
    m_offset := offset
    m_destinationRect := destinationRect
    m_sourceRect := sourceRect
    m_opacity := opacity
    m_interpolation := interpolation
    m_d2dSourceRect := sourceRect.map ToD2DRect }

/-! ## Reading the call log -/

/-- The world `w` after the calls `new` were made on the device context, its state
otherwise as in `w`. -/
def World.logged (w : World) (new : List D2DCall) : World :=
  { w with backendCalls := w.backendCalls ++ new }

/-- The calls made on the device context after world `w`, up to the later world `w1`. -/
def World.callsSince (w w1 : World) : List D2DCall :=
  w1.backendCalls.drop w.backendCalls.length

/-- Whether a call is the bitmap-blit primitive `DrawBitmap`. -/
def D2DCall.isDrawBitmap : D2DCall → Bool
  | D2DCall.DrawBitmap _ _ _ _ _ _ => true
  | _ => false

/-- Whether a call is the generic image primitive `DrawImage`. -/
def D2DCall.isDrawImage : D2DCall → Bool
  | D2DCall.DrawImage _ _ _ _ _ => true
  | _ => false

/-- Whether a call is `CreateEffect`. -/
def D2DCall.isCreateEffect : D2DCall → Bool
  | D2DCall.CreateEffect _ => true
  | _ => false

/-- Whether a call is `SetTransform`. -/
def D2DCall.isSetTransform : D2DCall → Bool
  | D2DCall.SetTransform _ => true
  | _ => false

/-- What the slow path may call when it draws with interpolation `interpolation` and
composite mode `composite`: `CreateEffect`, `SetTransform`, and `DrawImage` with these
two modes. -/
def D2DCall.isSlowPathCall (interpolation : D2D1_INTERPOLATION_MODE)
    (composite : D2D1_COMPOSITE_MODE) : D2DCall → Bool
  | D2DCall.CreateEffect _ => true
  | D2DCall.SetTransform _ => true
  | D2DCall.DrawImage _ _ _ i c => i == interpolation && c == composite
  | _ => false

/-- Whether a native image is a bitmap (`MaybeAs<ID2D1Bitmap>` succeeds). -/
def ID2D1Image.isBitmap : ID2D1Image → Bool
  | ID2D1Image.bitmap _ => true
  | _ => false

/-! ## Sample objects and scenarios -/

/-- A device context state with the Direct2D defaults. -/
def sampleD2D : D2DState :=
  { transform := Matrix3x2.Identity
    unitMode := D2D1_UNIT_MODE.DIPS
    primitiveBlend := D2D1_PRIMITIVE_BLEND.SOURCE_OVER
    antialiasMode := D2D1_ANTIALIAS_MODE.PER_PRIMITIVE
    dpi := 96
    device := 1
    flushResult := HRESULT.S_OK
    createColorMatrixResult := HRESULT.S_OK
    createBorderResult := HRESULT.S_OK
    createDpiCompensationResult := HRESULT.S_OK }

/-- A world in which nothing has happened yet. -/
def sampleWorld : World :=
  { targetHasActiveDrawingSession := false
    d2d := sampleD2D
    backendCalls := []
    adapterCalls := [] }

/-- An adapter whose `EndDraw` succeeds. -/
def sampleAdapter : ICanvasDrawingSessionAdapter := ⟨1, HRESULT.S_OK⟩

/-- An adapter whose `EndDraw` throws. -/
def failingAdapter : ICanvasDrawingSessionAdapter := ⟨2, HRESULT.D2DERR 1⟩

/-- A freshly constructed session on device context 7, with `sampleAdapter`, an owner
and the shared flag. -/
def sampleSession : CanvasDrawingSession :=
  (CanvasDrawingSession.Constructor ⟨7⟩ (some sampleAdapter) (some ⟨1⟩) true ⟨0, 0⟩
    sampleWorld).1

/-- The world right after `sampleSession` was constructed. -/
def sampleOpenWorld : World :=
  (CanvasDrawingSession.Constructor ⟨7⟩ (some sampleAdapter) (some ⟨1⟩) true ⟨0, 0⟩
    sampleWorld).2

/-- A full layer request: opacity one half, nothing else. -/
def sampleLayerRequest : LayerRequest :=
  { opacity := 1 / 2
    opacityBrush := none
    clipRectangle := none
    clipGeometry := none
    geometryTransform := none
    options := CanvasLayerOptions.None
    layer := Pointer.valid }

/-- The session `sampleSession` after one successful layer push (layer id 1 open). -/
def layeredSession : CanvasDrawingSession :=
  (sampleSession.CreateLayer sampleOpenWorld sampleLayerRequest).self

/-- The world after that push. -/
def layeredWorld : World :=
  (sampleSession.CreateLayer sampleOpenWorld sampleLayerRequest).world

/-- A session constructed like `sampleSession`, but with the adapter whose `EndDraw`
throws. -/
def failingSession : CanvasDrawingSession :=
  (CanvasDrawingSession.Constructor ⟨7⟩ (some failingAdapter) (some ⟨1⟩) true ⟨0, 0⟩
    sampleWorld).1

/-- The method `Close` called `n` times in a row on the same session, results ignored (the last
call may be the one the destructor makes). -/
def closeTimes : Nat → CanvasDrawingSession → World → CanvasDrawingSession × World
  | 0, s, w => (s, w)
  | n + 1, s, w => closeTimes n (s.Close w).self (s.Close w).world

/-- The sessions constructed so far against one render target, all holding the same
shared flag (the `bool` in `world`). -/
structure TargetState where
  world : World
  sessions : List CanvasDrawingSession
  deriving DecidableEq, Repr

/-- What can happen to the sessions of one target: a new one is constructed with the
shared flag, or `Close` runs on session number `i` (called by the user or by the
destructor). -/
inductive SessionEvent
  | construct (deviceContext : ID2D1DeviceContext1)
      (adapter : Option ICanvasDrawingSessionAdapter) (owner : Option ICanvasDevice)
      (offset : D2D1_POINT_2F)
  | close (i : Nat)
  deriving DecidableEq, Repr

/-- One event applied to the sessions of a target. -/
def TargetState.step (t : TargetState) : SessionEvent → TargetState
  | SessionEvent.construct deviceContext adapter owner offset =>
    let r := CanvasDrawingSession.Constructor deviceContext adapter owner true offset t.world
    ⟨r.2, t.sessions ++ [r.1]⟩
  | SessionEvent.close i =>
    match t.sessions[i]? with
    | none => t
    | some s => ⟨(s.Close t.world).world, t.sessions.set i (s.Close t.world).self⟩

/-- The events applied in order. -/
def TargetState.run (t : TargetState) (events : List SessionEvent) : TargetState :=
  events.foldl TargetState.step t

/-- The events respect the rule of the session's creator: a session is constructed
only while the shared flag is false. -/
def TargetState.constructsOnlyWhenFlagClear (t : TargetState) : List SessionEvent → Bool
  | [] => true
  | SessionEvent.construct dc a o off :: rest =>
    !t.world.targetHasActiveDrawingSession &&
      (t.step (SessionEvent.construct dc a o off)).constructsOnlyWhenFlagClear rest
  | SessionEvent.close i :: rest =>
    (t.step (SessionEvent.close i)).constructsOnlyWhenFlagClear rest

/-- The number of sessions of the target that are open. -/
def TargetState.openSessions (t : TargetState) : Nat :=
  (t.sessions.filter (fun s => s.resource.isSome)).length

/-- A target on which nothing has happened yet. -/
def freshTarget : TargetState := ⟨sampleWorld, []⟩

/-- Session 0 is constructed and closed, session 1 is constructed (the flag is false
again, so this is allowed), and then `Close` runs once more on session 0, as its
destructor does. -/
def staleCloseEvents : List SessionEvent :=
  [SessionEvent.construct ⟨7⟩ none none ⟨0, 0⟩,
   SessionEvent.close 0,
   SessionEvent.construct ⟨8⟩ none none ⟨0, 0⟩,
   SessionEvent.close 0]

/-- A 64 by 64 bitmap (at 96 DPI, so 64 by 64 DIPs) that can be realized. -/
def sampleBitmap : ICanvasBitmap := ⟨⟨1, ⟨64, 64⟩, 64, 64⟩, HRESULT.S_OK⟩

/-- An image that is not a bitmap (an effect, say) and can be realized. -/
def sampleEffectImage : ICanvasImage := ICanvasImage.image (ID2D1Image.image 5) HRESULT.S_OK

/-- The world of `sampleSession` with the primitive blend set to `MIN`. -/
def minBlendWorld : World :=
  { sampleOpenWorld with
    d2d := { sampleD2D with primitiveBlend := D2D1_PRIMITIVE_BLEND.MIN } }

/-- The world of `sampleSession` with the primitive blend set to `ADD`. -/
def addBlendWorld : World :=
  { sampleOpenWorld with
    d2d := { sampleD2D with primitiveBlend := D2D1_PRIMITIVE_BLEND.ADD } }

/-! ## Sequences of layer operations -/

/-- One session, the world, and the layer handles `CreateLayerImpl` has returned so
far, in the order of their creation. -/
structure LayerState where
  session : CanvasDrawingSession
  world : World
  handles : List CanvasActiveLayer
  deriving DecidableEq, Repr

/-- What a caller can do to the layers of a session: push a layer, close the handle
number `k` it was given (`Close` on a `CanvasActiveLayer` runs the close action), or
call `Close` on the session. -/
inductive LayerEvent
  | push (request : LayerRequest)
  | closeHandle (k : Nat)
  | close
  deriving DecidableEq, Repr

/-- One event applied: the session and the world are what the method called leaves
behind; a successful push adds its handle to the handles held. -/
def LayerState.step (t : LayerState) : LayerEvent → LayerState
  | LayerEvent.push request =>
    ⟨(t.session.CreateLayer t.world request).self, (t.session.CreateLayer t.world request).world,
      t.handles ++ (t.session.CreateLayer t.world request).value.toList⟩
  | LayerEvent.closeHandle k =>
    match t.handles[k]? with
    | none => t
    | some handle =>
      match handle.closeAction (some t.session) t.world with
      | (_, some s, w) => ⟨s, w, t.handles⟩
      | (_, none, w) => ⟨t.session, w, t.handles⟩
  | LayerEvent.close =>
    ⟨(t.session.Close t.world).self, (t.session.Close t.world).world, t.handles⟩

/-- The events applied in order. -/
def LayerState.run (t : LayerState) (events : List LayerEvent) : LayerState :=
  events.foldl LayerState.step t

/-- A session right after its construction, no handle issued yet. -/
def LayerState.start (deviceContext : ID2D1DeviceContext1)
    (adapter : Option ICanvasDrawingSessionAdapter) (owner : Option ICanvasDevice)
    (targetHasActiveDrawingSession : Bool) (offset : D2D1_POINT_2F) (w : World) :
    LayerState :=
  ⟨(CanvasDrawingSession.Constructor deviceContext adapter owner
      targetHasActiveDrawingSession offset w).1,
    (CanvasDrawingSession.Constructor deviceContext adapter owner
      targetHasActiveDrawingSession offset w).2, []⟩

/-- The kind of a push primitive: `true` for `PushAxisAlignedClip`, `false` for
`PushLayer`, `none` for every other call. -/
def D2DCall.pushKind : D2DCall → Option Bool
  | D2DCall.PushAxisAlignedClip _ _ => some true
  | D2DCall.PushLayer _ => some false
  | _ => none

/-- The kind of a pop primitive: `true` for `PopAxisAlignedClip`, `false` for
`PopLayer`, `none` for every other call. -/
def D2DCall.popKind : D2DCall → Option Bool
  | D2DCall.PopAxisAlignedClip => some true
  | D2DCall.PopLayer => some false
  | _ => none

/-- One call read against the kinds of the pushes not yet matched (oldest first): a
push adds its kind on top, a pop removes the top when it is of the pop's kind and
otherwise breaks the nesting (`none`), any other call changes nothing. -/
def nestingStep (unmatched : Option (List Bool)) (c : D2DCall) : Option (List Bool) :=
  match unmatched with
  | none => none
  | some kinds =>
    match c.pushKind with
    | some kind => some (kinds ++ [kind])
    | none =>
      match c.popKind with
      | some kind => if kinds.getLast? = some kind then some kinds.dropLast else none
      | none => some kinds

/-- The kinds of the pushes of a call log that no pop has matched yet, oldest first;
`none` when the log is not well nested by kind. -/
def unmatchedPushes (calls : List D2DCall) : Option (List Bool) :=
  calls.foldl nestingStep (some [])

/-- Two pushes (a layer, then an axis-aligned clip) on `sampleSession`, closed in
the reverse order, with an attempt to close the first handle too early in between. -/
def sampleLayerEvents : List LayerEvent :=
  [LayerEvent.push sampleLayerRequest,
   LayerEvent.push ⟨1, none, some ⟨0, 0, 10, 10⟩, none, none, CanvasLayerOptions.None,
     Pointer.valid⟩,
   LayerEvent.closeHandle 0,
   LayerEvent.closeHandle 1,
   LayerEvent.closeHandle 0]

/-- A call of one of the public image-drawing entry points, with its arguments. -/
inductive DrawImageCall
  | DrawImageAtOrigin (image : Option ICanvasImage)
  | DrawImageAtOffset (image : Option ICanvasImage) (offset : Vector2)
  | DrawImageAtCoords (image : Option ICanvasImage) (x : ℚ) (y : ℚ)
  | DrawImageToRect (bitmap : Option ICanvasBitmap) (destinationRect : Rect)
  | DrawImageAtOffsetWithSourceRect (image : Option ICanvasImage) (offset : Vector2)
      (sourceRect : Rect)
  | DrawImageAtCoordsWithSourceRect (image : Option ICanvasImage) (x : ℚ) (y : ℚ)
      (sourceRect : Rect)
  | DrawImageToRectWithSourceRect (image : Option ICanvasImage) (destinationRect : Rect)
      (sourceRect : Rect)
  | DrawImageAtOffsetWithSourceRectAndOpacity (image : Option ICanvasImage) (offset : Vector2)
      (sourceRect : Rect) (opacity : ℚ)
  | DrawImageAtCoordsWithSourceRectAndOpacity (image : Option ICanvasImage) (x : ℚ) (y : ℚ)
      (sourceRect : Rect) (opacity : ℚ)
  | DrawImageToRectWithSourceRectAndOpacity (image : Option ICanvasImage)
      (destinationRect : Rect) (sourceRect : Rect) (opacity : ℚ)
  | DrawImageAtOffsetWithSourceRectAndOpacityAndInterpolation (image : Option ICanvasImage)
      (offset : Vector2) (sourceRect : Rect) (opacity : ℚ)
      (interpolation : CanvasImageInterpolation)
  | DrawImageAtCoordsWithSourceRectAndOpacityAndInterpolation (image : Option ICanvasImage)
      (x : ℚ) (y : ℚ) (sourceRect : Rect) (opacity : ℚ)
      (interpolation : CanvasImageInterpolation)
  | DrawImageToRectWithSourceRectAndOpacityAndInterpolation (image : Option ICanvasImage)
      (destinationRect : Rect) (sourceRect : Rect) (opacity : ℚ)
      (interpolation : CanvasImageInterpolation)
  | DrawImageAtOffsetWithSourceRectAndOpacityAndInterpolationAndComposite
      (image : Option ICanvasImage) (offset : Vector2) (sourceRect : Rect) (opacity : ℚ)
      (interpolation : CanvasImageInterpolation) (composite : CanvasComposite)
  | DrawImageAtCoordsWithSourceRectAndOpacityAndInterpolationAndComposite
      (image : Option ICanvasImage) (x : ℚ) (y : ℚ) (sourceRect : Rect) (opacity : ℚ)
      (interpolation : CanvasImageInterpolation) (composite : CanvasComposite)
  | DrawImageToRectWithSourceRectAndOpacityAndInterpolationAndComposite
      (image : Option ICanvasImage) (destinationRect : Rect) (sourceRect : Rect) (opacity : ℚ)
      (interpolation : CanvasImageInterpolation) (composite : CanvasComposite)
  | DrawImageAtOffsetWithSourceRectAndOpacityAndInterpolationAndPerspective
      (bitmap : Option ICanvasBitmap) (offset : Vector2) (sourceRect : Rect) (opacity : ℚ)
      (interpolation : CanvasImageInterpolation) (perspective : Matrix4x4)
  | DrawImageAtCoordsWithSourceRectAndOpacityAndInterpolationAndPerspective
      (bitmap : Option ICanvasBitmap) (x : ℚ) (y : ℚ) (sourceRect : Rect) (opacity : ℚ)
      (interpolation : CanvasImageInterpolation) (perspective : Matrix4x4)
  | DrawImageToRectWithSourceRectAndOpacityAndInterpolationAndPerspective
      (bitmap : Option ICanvasBitmap) (destinationRect : Rect) (sourceRect : Rect) (opacity : ℚ)
      (interpolation : CanvasImageInterpolation) (perspective : Matrix4x4)

/-- The entry point called. -/
def DrawImageCall.run (s : CanvasDrawingSession) (w : World) : DrawImageCall → Ret Unit
  | DrawImageCall.DrawImageAtOrigin image => s.DrawImageAtOrigin w image
  | DrawImageCall.DrawImageAtOffset image offset => s.DrawImageAtOffset w image offset
  | DrawImageCall.DrawImageAtCoords image x y => s.DrawImageAtCoords w image x y
  | DrawImageCall.DrawImageToRect bitmap destinationRect => s.DrawImageToRect w bitmap
      destinationRect
  | DrawImageCall.DrawImageAtOffsetWithSourceRect image offset sourceRect =>
      s.DrawImageAtOffsetWithSourceRect w image offset sourceRect
  | DrawImageCall.DrawImageAtCoordsWithSourceRect image x y sourceRect =>
      s.DrawImageAtCoordsWithSourceRect w image x y sourceRect
  | DrawImageCall.DrawImageToRectWithSourceRect image destinationRect sourceRect =>
      s.DrawImageToRectWithSourceRect w image destinationRect sourceRect
  | DrawImageCall.DrawImageAtOffsetWithSourceRectAndOpacity image offset sourceRect opacity =>
      s.DrawImageAtOffsetWithSourceRectAndOpacity w image offset sourceRect opacity
  | DrawImageCall.DrawImageAtCoordsWithSourceRectAndOpacity image x y sourceRect opacity =>
      s.DrawImageAtCoordsWithSourceRectAndOpacity w image x y sourceRect opacity
  | DrawImageCall.DrawImageToRectWithSourceRectAndOpacity image destinationRect sourceRect
      opacity => s.DrawImageToRectWithSourceRectAndOpacity w image destinationRect sourceRect
      opacity
  | DrawImageCall.DrawImageAtOffsetWithSourceRectAndOpacityAndInterpolation image offset
      sourceRect opacity interpolation =>
      s.DrawImageAtOffsetWithSourceRectAndOpacityAndInterpolation w image offset sourceRect
      opacity interpolation
  | DrawImageCall.DrawImageAtCoordsWithSourceRectAndOpacityAndInterpolation image x y sourceRect
      opacity interpolation => s.DrawImageAtCoordsWithSourceRectAndOpacityAndInterpolation w
      image x y sourceRect opacity interpolation
  | DrawImageCall.DrawImageToRectWithSourceRectAndOpacityAndInterpolation image destinationRect
      sourceRect opacity interpolation =>
      s.DrawImageToRectWithSourceRectAndOpacityAndInterpolation w image destinationRect
      sourceRect opacity interpolation
  | DrawImageCall.DrawImageAtOffsetWithSourceRectAndOpacityAndInterpolationAndComposite image
      offset sourceRect opacity interpolation composite =>
      s.DrawImageAtOffsetWithSourceRectAndOpacityAndInterpolationAndComposite w image offset
      sourceRect opacity interpolation composite
  | DrawImageCall.DrawImageAtCoordsWithSourceRectAndOpacityAndInterpolationAndComposite image x
      y sourceRect opacity interpolation composite =>
      s.DrawImageAtCoordsWithSourceRectAndOpacityAndInterpolationAndComposite w image x y
      sourceRect opacity interpolation composite
  | DrawImageCall.DrawImageToRectWithSourceRectAndOpacityAndInterpolationAndComposite image
      destinationRect sourceRect opacity interpolation composite =>
      s.DrawImageToRectWithSourceRectAndOpacityAndInterpolationAndComposite w image
      destinationRect sourceRect opacity interpolation composite
  | DrawImageCall.DrawImageAtOffsetWithSourceRectAndOpacityAndInterpolationAndPerspective bitmap
      offset sourceRect opacity interpolation perspective =>
      s.DrawImageAtOffsetWithSourceRectAndOpacityAndInterpolationAndPerspective w bitmap offset
      sourceRect opacity interpolation perspective
  | DrawImageCall.DrawImageAtCoordsWithSourceRectAndOpacityAndInterpolationAndPerspective bitmap
      x y sourceRect opacity interpolation perspective =>
      s.DrawImageAtCoordsWithSourceRectAndOpacityAndInterpolationAndPerspective w bitmap x y
      sourceRect opacity interpolation perspective
  | DrawImageCall.DrawImageToRectWithSourceRectAndOpacityAndInterpolationAndPerspective bitmap
      destinationRect sourceRect opacity interpolation perspective =>
      s.DrawImageToRectWithSourceRectAndOpacityAndInterpolationAndPerspective w bitmap
      destinationRect sourceRect opacity interpolation perspective

/-- The offset, destination rectangle and source rectangle that the entry point hands
to `DrawImageImpl` or `DrawBitmapImpl`, and they to the `DrawImageWorker`. -/
def DrawImageCall.request : DrawImageCall → Option Vector2 × Option Rect × Option Rect
  | DrawImageCall.DrawImageAtOrigin _ => (some ⟨0, 0⟩, none, none)
  | DrawImageCall.DrawImageAtOffset _ offset => (some offset, none, none)
  | DrawImageCall.DrawImageAtCoords _ x y => (some ⟨x, y⟩, none, none)
  | DrawImageCall.DrawImageToRect _ destinationRect => (none, some destinationRect, none)
  | DrawImageCall.DrawImageAtOffsetWithSourceRect _ offset sourceRect =>
      (some offset, none, some sourceRect)
  | DrawImageCall.DrawImageAtCoordsWithSourceRect _ x y sourceRect =>
      (some ⟨x, y⟩, none, some sourceRect)
  | DrawImageCall.DrawImageToRectWithSourceRect _ destinationRect sourceRect =>
      (none, some destinationRect, some sourceRect)
  | DrawImageCall.DrawImageAtOffsetWithSourceRectAndOpacity _ offset sourceRect _ =>
      (some offset, none, some sourceRect)
  | DrawImageCall.DrawImageAtCoordsWithSourceRectAndOpacity _ x y sourceRect _ =>
      (some ⟨x, y⟩, none, some sourceRect)
  | DrawImageCall.DrawImageToRectWithSourceRectAndOpacity _ destinationRect sourceRect _ =>
      (none, some destinationRect, some sourceRect)
  | DrawImageCall.DrawImageAtOffsetWithSourceRectAndOpacityAndInterpolation _ offset sourceRect
      _ _ => (some offset, none, some sourceRect)
  | DrawImageCall.DrawImageAtCoordsWithSourceRectAndOpacityAndInterpolation _ x y sourceRect _ _
      => (some ⟨x, y⟩, none, some sourceRect)
  | DrawImageCall.DrawImageToRectWithSourceRectAndOpacityAndInterpolation _ destinationRect
      sourceRect _ _ => (none, some destinationRect, some sourceRect)
  | DrawImageCall.DrawImageAtOffsetWithSourceRectAndOpacityAndInterpolationAndComposite _ offset
      sourceRect _ _ _ => (some offset, none, some sourceRect)
  | DrawImageCall.DrawImageAtCoordsWithSourceRectAndOpacityAndInterpolationAndComposite _ x y
      sourceRect _ _ _ => (some ⟨x, y⟩, none, some sourceRect)
  | DrawImageCall.DrawImageToRectWithSourceRectAndOpacityAndInterpolationAndComposite _
      destinationRect sourceRect _ _ _ => (none, some destinationRect, some sourceRect)
  | DrawImageCall.DrawImageAtOffsetWithSourceRectAndOpacityAndInterpolationAndPerspective _
      offset sourceRect _ _ _ => (some offset, none, some sourceRect)
  | DrawImageCall.DrawImageAtCoordsWithSourceRectAndOpacityAndInterpolationAndPerspective _ x y
      sourceRect _ _ _ => (some ⟨x, y⟩, none, some sourceRect)
  | DrawImageCall.DrawImageToRectWithSourceRectAndOpacityAndInterpolationAndPerspective _
      destinationRect sourceRect _ _ _ => (none, some destinationRect, some sourceRect)

/-- Whether the entry point takes an `ICanvasBitmap` and goes through `DrawBitmapImpl`,
which never reaches the slow path. -/
def DrawImageCall.isBitmapTyped : DrawImageCall → Bool
  | DrawImageCall.DrawImageAtOrigin _ => false
  | DrawImageCall.DrawImageAtOffset _ _ => false
  | DrawImageCall.DrawImageAtCoords _ _ _ => false
  | DrawImageCall.DrawImageToRect _ _ => true
  | DrawImageCall.DrawImageAtOffsetWithSourceRect _ _ _ => false
  | DrawImageCall.DrawImageAtCoordsWithSourceRect _ _ _ _ => false
  | DrawImageCall.DrawImageToRectWithSourceRect _ _ _ => false
  | DrawImageCall.DrawImageAtOffsetWithSourceRectAndOpacity _ _ _ _ => false
  | DrawImageCall.DrawImageAtCoordsWithSourceRectAndOpacity _ _ _ _ _ => false
  | DrawImageCall.DrawImageToRectWithSourceRectAndOpacity _ _ _ _ => false
  | DrawImageCall.DrawImageAtOffsetWithSourceRectAndOpacityAndInterpolation _ _ _ _ _ => false
  | DrawImageCall.DrawImageAtCoordsWithSourceRectAndOpacityAndInterpolation _ _ _ _ _ _ => false
  | DrawImageCall.DrawImageToRectWithSourceRectAndOpacityAndInterpolation _ _ _ _ _ => false
  | DrawImageCall.DrawImageAtOffsetWithSourceRectAndOpacityAndInterpolationAndComposite _ _ _ _
      _ _ => false
  | DrawImageCall.DrawImageAtCoordsWithSourceRectAndOpacityAndInterpolationAndComposite _ _ _ _
      _ _ _ => false
  | DrawImageCall.DrawImageToRectWithSourceRectAndOpacityAndInterpolationAndComposite _ _ _ _ _
      _ => false
  | DrawImageCall.DrawImageAtOffsetWithSourceRectAndOpacityAndInterpolationAndPerspective _ _ _
      _ _ _ => true
  | DrawImageCall.DrawImageAtCoordsWithSourceRectAndOpacityAndInterpolationAndPerspective _ _ _
      _ _ _ _ => true
  | DrawImageCall.DrawImageToRectWithSourceRectAndOpacityAndInterpolationAndPerspective _ _ _ _
      _ _ => true

/-! ## Theorems -/

/-! ### Shared lemmas -/

theorem preIncrement_ne (n : Int) : preIncrement n ≠ n := by
  unfold preIncrement
  split <;> omega

theorem PopLayer_of_top (s : CanvasDrawingSession) (w : World) (dc : ID2D1DeviceContext1)
    (hopen : s.resource = some dc) (l : List Int) (layerId : Int) (ax : Bool)
    (hl : s.m_activeLayerIds = l ++ [layerId]) :
    (s.PopLayer w layerId ax).outcome = Outcome.ok ∧
    (s.PopLayer w layerId ax).self = { s with m_activeLayerIds := l } ∧
    (s.PopLayer w layerId ax).world =
      w.call (if ax then D2DCall.PopAxisAlignedClip else D2DCall.PopLayer) := by
  unfold CanvasDrawingSession.PopLayer CanvasDrawingSession.GetResource
  simp only [hopen, hl]
  cases ax <;> simp

theorem PopLayer_not_top (s : CanvasDrawingSession) (w : World) (dc : ID2D1DeviceContext1)
    (hopen : s.resource = some dc) (layerId : Int) (ax : Bool)
    (hne : s.m_activeLayerIds ≠ [])
    (hl : s.m_activeLayerIds.getLast? ≠ some layerId) :
    s.PopLayer w layerId ax =
      ⟨Outcome.threw HRESULT.E_FAIL (some Strings.PoppedWrongLayer), none, s, w⟩ := by
  unfold CanvasDrawingSession.PopLayer CanvasDrawingSession.GetResource
  simp [hopen, hl, hne]

theorem PopLayer_empty (s : CanvasDrawingSession) (w : World) (dc : ID2D1DeviceContext1)
    (hopen : s.resource = some dc) (layerId : Int) (ax : Bool)
    (hl : s.m_activeLayerIds = []) :
    s.PopLayer w layerId ax = ⟨Outcome.assertFailed, none, s, w⟩ := by
  unfold CanvasDrawingSession.PopLayer CanvasDrawingSession.GetResource
  simp [hopen, hl]

theorem CreateLayerImpl_ok (s : CanvasDrawingSession) (w : World) (a : LayerRequest)
    (h : (s.CreateLayer w a).outcome = Outcome.ok) :
    s.resource.isSome ∧
    (s.CreateLayer w a).self =
      { s with m_nextLayerId := preIncrement s.m_nextLayerId
               m_activeLayerIds := s.m_activeLayerIds ++ [preIncrement s.m_nextLayerId] } ∧
    ∃ ax, (s.CreateLayer w a).value = some ⟨preIncrement s.m_nextLayerId, ax⟩ := by
  obtain ⟨op, br, cr, cg, gt, opts, lp⟩ := a
  simp only [CanvasDrawingSession.CreateLayer, CanvasDrawingSession.CreateLayerImpl,
    CanvasDrawingSession.GetResource, Ret.closed] at h ⊢
  cases lp
  · simp at h
  · cases hres : s.resource with
    | none => simp [hres] at h
    | some dc =>
      simp only [hres] at h ⊢
      cases hb : s.ToD2DBrush br with
      | error hr => simp [hb] at h
      | ok d2dBrush =>
        simp only [hb] at h ⊢
        cases hg : (match cg with
          | some geometry => (GetWrappedResource geometry).map some
          | none => Except.ok none) with
        | error hr => simp [hg] at h
        | ok d2dGeometry =>
          simp only [hg] at h ⊢
          simp

/-! ### The call log -/

theorem World.call_eq_logged (w : World) (c : D2DCall) : w.call c = w.logged [c] := rfl

theorem World.logged_nil (w : World) : w.logged [] = w := by
  simp [World.logged]

theorem World.logged_logged (w : World) (a b : List D2DCall) :
    (w.logged a).logged b = w.logged (a ++ b) := by
  simp [World.logged]

theorem World.callsSince_logged (w : World) (new : List D2DCall) :
    w.callsSince (w.logged new) = new := by
  simp [World.callsSince, World.logged]

theorem World.logged_d2d (w : World) (new : List D2DCall) : (w.logged new).d2d = w.d2d := rfl

theorem World.setTransform_restore (w : World) (m : Matrix3x2) (c : D2DCall) :
    ((w.SetTransform m).call c).SetTransform w.d2d.transform =
      w.logged [D2DCall.SetTransform m, c, D2DCall.SetTransform w.d2d.transform] := by
  simp [World.SetTransform, World.call, World.logged]

theorem closeAction_cases (s : CanvasDrawingSession) (w : World) (dc : ID2D1DeviceContext1)
    (hopen : s.resource = some dc) (h : CanvasActiveLayer) :
    (s.m_activeLayerIds.getLast? = some h.layerId ∧
      h.closeAction (some s) w =
        (Outcome.ok, some { s with m_activeLayerIds := s.m_activeLayerIds.dropLast },
          w.call (if h.isAxisAlignedClip then D2DCall.PopAxisAlignedClip
            else D2DCall.PopLayer)) ∧
      s.m_activeLayerIds = s.m_activeLayerIds.dropLast ++ [h.layerId]) ∨
    (s.m_activeLayerIds.getLast? ≠ some h.layerId ∧ s.m_activeLayerIds ≠ [] ∧
      h.closeAction (some s) w =
        (Outcome.threw HRESULT.E_FAIL (some Strings.PoppedWrongLayer), some s, w)) ∨
    (s.m_activeLayerIds = [] ∧
      h.closeAction (some s) w = (Outcome.assertFailed, some s, w)) := by
  rcases List.eq_nil_or_concat s.m_activeLayerIds with hnil | ⟨l, x, hl⟩
  on_goal 2 => rw [List.concat_eq_append] at hl
  · right; right
    refine ⟨hnil, ?_⟩
    simp [CanvasActiveLayer.closeAction, PopLayer_empty s w dc hopen _ _ hnil]
  · by_cases hx : x = h.layerId
    · left
      subst hx
      obtain ⟨h1, h2, h3⟩ := PopLayer_of_top s w dc hopen l h.layerId h.isAxisAlignedClip hl
      refine ⟨by simp [hl], ?_, by simp [hl]⟩
      simp [CanvasActiveLayer.closeAction, h1, h2, h3, hl]
    · right; left
      have hlast : s.m_activeLayerIds.getLast? ≠ some h.layerId := by simp [hl, hx]
      have hne : s.m_activeLayerIds ≠ [] := by simp [hl]
      refine ⟨hlast, hne, ?_⟩
      simp [CanvasActiveLayer.closeAction, PopLayer_not_top s w dc hopen _ _ hne hlast]

/-! ### Layer handles close in strict LIFO order -/

/-- C1: on an open session, closing a layer handle succeeds exactly when the handle's
id is the top (back) of the open-id stack, and a successful close removes exactly that
top element and changes nothing else in the session.  In particular, after two
successful pushes A then B, closing A first fails with `E_FAIL` and the message
`PoppedWrongLayer` (leaving session and world as they were), while closing B and then
A both succeed and leave the stack as it was before A was pushed. -/
theorem C1_layer_close_is_strictly_lifo (s : CanvasDrawingSession) (w : World)
    (dc : ID2D1DeviceContext1) (hopen : s.resource = some dc) :
    (∀ h : CanvasActiveLayer,
      ((h.closeAction (some s) w).1 = Outcome.ok ↔
        s.m_activeLayerIds.getLast? = some h.layerId) ∧
      ((h.closeAction (some s) w).1 = Outcome.ok →
        (h.closeAction (some s) w).2.1 =
          some { s with m_activeLayerIds := s.m_activeLayerIds.dropLast } ∧
        s.m_activeLayerIds = s.m_activeLayerIds.dropLast ++ [h.layerId])) ∧
    (∀ a b : LayerRequest,
      (s.CreateLayer w a).outcome = Outcome.ok →
      ((s.CreateLayer w a).self.CreateLayer (s.CreateLayer w a).world b).outcome =
        Outcome.ok →
      ∃ A B sA wA s0 w0,
        (s.CreateLayer w a).value = some A ∧
        ((s.CreateLayer w a).self.CreateLayer (s.CreateLayer w a).world b).value = some B ∧
        A.closeAction
            (some ((s.CreateLayer w a).self.CreateLayer (s.CreateLayer w a).world b).self)
            ((s.CreateLayer w a).self.CreateLayer (s.CreateLayer w a).world b).world =
          (Outcome.threw HRESULT.E_FAIL (some Strings.PoppedWrongLayer),
            some ((s.CreateLayer w a).self.CreateLayer (s.CreateLayer w a).world b).self,
            ((s.CreateLayer w a).self.CreateLayer (s.CreateLayer w a).world b).world) ∧
        B.closeAction
            (some ((s.CreateLayer w a).self.CreateLayer (s.CreateLayer w a).world b).self)
            ((s.CreateLayer w a).self.CreateLayer (s.CreateLayer w a).world b).world =
          (Outcome.ok, some sA, wA) ∧
        A.closeAction (some sA) wA = (Outcome.ok, some s0, w0) ∧
        s0.m_activeLayerIds = s.m_activeLayerIds) := by
  refine ⟨?_, ?_⟩
  · intro h
    rcases closeAction_cases s w dc hopen h with ⟨h1, h2, h3⟩ | ⟨h1, _, h2⟩ | ⟨h1, h2⟩
    · simp [h1, h2, ← h3]
    · simp [h1, h2]
    · simp [h1, h2]
  · intro a b ha hb
    obtain ⟨_, hsA, axA, hvA⟩ := CreateLayerImpl_ok s w a ha
    obtain ⟨_, hsB, axB, hvB⟩ := CreateLayerImpl_ok _ _ b hb
    generalize (s.CreateLayer w a).world = wa at *
    generalize hrb : (s.CreateLayer w a).self.CreateLayer wa b = rb at *
    rw [hsA] at hsB hvB
    simp only at hsB hvB
    have hopenB : rb.self.resource = some dc := by rw [hsB]; exact hopen
    have hidsB : rb.self.m_activeLayerIds =
        (s.m_activeLayerIds ++ [preIncrement s.m_nextLayerId]) ++
          [preIncrement (preIncrement s.m_nextLayerId)] := by rw [hsB]
    have hne := preIncrement_ne (preIncrement s.m_nextLayerId)
    -- closing A first
    have hA : (⟨preIncrement s.m_nextLayerId, axA⟩ : CanvasActiveLayer).closeAction
        (some rb.self) rb.world =
        (Outcome.threw HRESULT.E_FAIL (some Strings.PoppedWrongLayer), some rb.self,
          rb.world) := by
      rcases closeAction_cases rb.self rb.world dc hopenB ⟨preIncrement s.m_nextLayerId, axA⟩
        with ⟨h1, _, _⟩ | ⟨_, _, h2⟩ | ⟨h1, _⟩
      · rw [hidsB] at h1
        simp at h1
        exact absurd h1 hne
      · exact h2
      · rw [hidsB] at h1
        simp at h1
    -- closing B
    obtain ⟨hB1, hB2, hB3⟩ := PopLayer_of_top rb.self rb.world dc hopenB _ _ axB hidsB
    have hopenA : (rb.self.PopLayer rb.world (preIncrement (preIncrement s.m_nextLayerId))
        axB).self.resource = some dc := by rw [hB2]; exact hopenB
    obtain ⟨hA1, hA2, hA3⟩ := PopLayer_of_top _
      (rb.self.PopLayer rb.world (preIncrement (preIncrement s.m_nextLayerId)) axB).world
      dc hopenA s.m_activeLayerIds (preIncrement s.m_nextLayerId) axA (by rw [hB2])
    refine ⟨_, _,
      (rb.self.PopLayer rb.world (preIncrement (preIncrement s.m_nextLayerId)) axB).self,
      (rb.self.PopLayer rb.world (preIncrement (preIncrement s.m_nextLayerId)) axB).world,
      ((rb.self.PopLayer rb.world (preIncrement (preIncrement s.m_nextLayerId)) axB).self.PopLayer
        (rb.self.PopLayer rb.world (preIncrement (preIncrement s.m_nextLayerId)) axB).world
        (preIncrement s.m_nextLayerId) axA).self,
      ((rb.self.PopLayer rb.world (preIncrement (preIncrement s.m_nextLayerId)) axB).self.PopLayer
        (rb.self.PopLayer rb.world (preIncrement (preIncrement s.m_nextLayerId)) axB).world
        (preIncrement s.m_nextLayerId) axA).world,
      hvA, hvB, hA, ?_, ?_, ?_⟩
    · simp only [CanvasActiveLayer.closeAction, hB1]
    · simp only [CanvasActiveLayer.closeAction, hA1]
    · rw [hA2]

/-- C1 at a concrete session: `sampleSession` is open, two pushes on it succeed, and
the handles then close only in reverse order. -/
theorem C1_layer_close_is_strictly_lifo_witness :
    sampleSession.resource = some ⟨7⟩ ∧
    (sampleSession.CreateLayer sampleOpenWorld sampleLayerRequest).outcome = Outcome.ok ∧
    (layeredSession.CreateLayer layeredWorld sampleLayerRequest).outcome = Outcome.ok ∧
    ∃ A B sA wA s0 w0,
      (sampleSession.CreateLayer sampleOpenWorld sampleLayerRequest).value = some A ∧
      (layeredSession.CreateLayer layeredWorld sampleLayerRequest).value = some B ∧
      A.closeAction (some (layeredSession.CreateLayer layeredWorld sampleLayerRequest).self)
          (layeredSession.CreateLayer layeredWorld sampleLayerRequest).world =
        (Outcome.threw HRESULT.E_FAIL (some Strings.PoppedWrongLayer),
          some (layeredSession.CreateLayer layeredWorld sampleLayerRequest).self,
          (layeredSession.CreateLayer layeredWorld sampleLayerRequest).world) ∧
      B.closeAction (some (layeredSession.CreateLayer layeredWorld sampleLayerRequest).self)
          (layeredSession.CreateLayer layeredWorld sampleLayerRequest).world =
        (Outcome.ok, some sA, wA) ∧
      A.closeAction (some sA) wA = (Outcome.ok, some s0, w0) ∧
      s0.m_activeLayerIds = sampleSession.m_activeLayerIds :=
  ⟨rfl, rfl, rfl,
    (C1_layer_close_is_strictly_lifo sampleSession sampleOpenWorld ⟨7⟩ rfl).2
      sampleLayerRequest sampleLayerRequest rfl rfl⟩

/-- C2: on an open session, closing a handle whose id is not the top of the open-id
stack fails and changes nothing: the session (so the open-id stack and the layer-id
counter) and the world (so the log of backend calls: no `PopLayer`, no
`PopAxisAlignedClip`) are as before; on a non-empty stack the failure is `E_FAIL` with
`PoppedWrongLayer`. -/
theorem C2_failed_pop_is_atomic (s : CanvasDrawingSession) (w : World)
    (dc : ID2D1DeviceContext1) (hopen : s.resource = some dc) (h : CanvasActiveLayer)
    (hnot : s.m_activeLayerIds.getLast? ≠ some h.layerId) :
    (h.closeAction (some s) w).1 ≠ Outcome.ok ∧
    (h.closeAction (some s) w).2 = (some s, w) ∧
    (h.closeAction (some s) w).2.2.backendCalls = w.backendCalls ∧
    (s.m_activeLayerIds ≠ [] →
      (h.closeAction (some s) w).1 =
        Outcome.threw HRESULT.E_FAIL (some Strings.PoppedWrongLayer)) := by
  rcases closeAction_cases s w dc hopen h with ⟨h1, _, _⟩ | ⟨_, _, h2⟩ | ⟨h1, h2⟩
  · exact absurd h1 hnot
  · simp [h2]
  · simp [h2, h1]

/-- C2 at a concrete session: with layer 1 open, closing a handle with id 5 fails with
`PoppedWrongLayer` and leaves session and world untouched. -/
theorem C2_failed_pop_is_atomic_witness :
    layeredSession.resource = some ⟨7⟩ ∧
    layeredSession.m_activeLayerIds.getLast? ≠ some 5 ∧
    ((⟨5, false⟩ : CanvasActiveLayer).closeAction (some layeredSession) layeredWorld).1 ≠
      Outcome.ok ∧
    ((⟨5, false⟩ : CanvasActiveLayer).closeAction (some layeredSession) layeredWorld).2 =
      (some layeredSession, layeredWorld) :=
  ⟨rfl, by decide,
    (C2_failed_pop_is_atomic layeredSession layeredWorld ⟨7⟩ rfl ⟨5, false⟩ (by decide)).1,
    (C2_failed_pop_is_atomic layeredSession layeredWorld ⟨7⟩ rfl ⟨5, false⟩ (by decide)).2.1⟩

theorem Close_of_open_layers (s : CanvasDrawingSession) (w : World)
    (hopen : s.m_activeLayerIds ≠ []) :
    s.Close w =
      ⟨Outcome.threw HRESULT.E_FAIL (some Strings.DidNotPopLayer), none,
        s.ReleaseResource, w⟩ := by
  unfold CanvasDrawingSession.Close
  simp [CanvasDrawingSession.ReleaseResource, hopen]

/-- C4: for every session (open or closed) whose open-id stack is non-empty, `Close`
reports `E_FAIL` with `DidNotPopLayer`, leaves the world as it was (so it issues no
backend call, in particular neither `PopLayer` nor `PopAxisAlignedClip`), and leaves
the open-id stack unchanged. -/
theorem C4_close_with_open_layers_reports_error (s : CanvasDrawingSession) (w : World)
    (hlayers : s.m_activeLayerIds ≠ []) :
    (s.Close w).outcome = Outcome.threw HRESULT.E_FAIL (some Strings.DidNotPopLayer) ∧
    (s.Close w).world = w ∧
    (s.Close w).world.backendCalls = w.backendCalls ∧
    (s.Close w).self.m_activeLayerIds = s.m_activeLayerIds := by
  rw [Close_of_open_layers s w hlayers]
  exact ⟨rfl, rfl, rfl, rfl⟩

/-- C4 at a concrete session with layer 1 open. -/
theorem C4_close_with_open_layers_reports_error_witness :
    layeredSession.m_activeLayerIds ≠ [] ∧
    (layeredSession.Close layeredWorld).outcome =
      Outcome.threw HRESULT.E_FAIL (some Strings.DidNotPopLayer) ∧
    (layeredSession.Close layeredWorld).world = layeredWorld ∧
    (layeredSession.Close layeredWorld).world.backendCalls = layeredWorld.backendCalls ∧
    (layeredSession.Close layeredWorld).self.m_activeLayerIds =
      layeredSession.m_activeLayerIds :=
  ⟨by decide,
    C4_close_with_open_layers_reports_error layeredSession layeredWorld (by decide)⟩

theorem Close_of_open_no_layers (s : CanvasDrawingSession) (w : World)
    (dc : ID2D1DeviceContext1) (a : ICanvasDrawingSessionAdapter)
    (hopen : s.resource = some dc) (hadapter : s.m_adapter = some a)
    (hlayers : s.m_activeLayerIds = []) :
    s.Close w =
      ⟨ThrowIfFailed a.endDrawResult, none,
        if a.endDrawResult = HRESULT.S_OK then
          { s with resource := none, m_adapter := none, m_solidColorBrush := none,
                   m_defaultTextFormat := none, m_owner := none, m_inkD2DRenderer := none,
                   m_inkStateBlock := none }
        else { s with resource := none, m_adapter := none },
        { w with
          targetHasActiveDrawingSession :=
            if s.m_targetHasActiveDrawingSession then false
            else w.targetHasActiveDrawingSession
          adapterCalls := w.adapterCalls ++ [AdapterCall.EndDraw a dc] }⟩ := by
  unfold CanvasDrawingSession.Close
  simp only [CanvasDrawingSession.ReleaseResource, CanvasDrawingSession.MaybeGetResource,
    hopen, hadapter, hlayers, ThrowIfFailed, CanvasDrawingSession.resetCachedMembers]
  by_cases hr : a.endDrawResult = HRESULT.S_OK
  · cases hf : s.m_targetHasActiveDrawingSession <;> simp [hr]
  · cases hf : s.m_targetHasActiveDrawingSession <;> simp [hr]

theorem Close_of_closed_no_layers (s : CanvasDrawingSession) (w : World)
    (hclosed : s.resource = none) (hadapter : s.m_adapter = none)
    (hlayers : s.m_activeLayerIds = []) :
    s.Close w =
      ⟨Outcome.ok, none, s.resetCachedMembers,
        { w with
          targetHasActiveDrawingSession :=
            if s.m_targetHasActiveDrawingSession then false
            else w.targetHasActiveDrawingSession }⟩ := by
  unfold CanvasDrawingSession.Close
  simp only [CanvasDrawingSession.ReleaseResource, CanvasDrawingSession.MaybeGetResource,
    hclosed, hadapter, hlayers, CanvasDrawingSession.resetCachedMembers]
  cases hf : s.m_targetHasActiveDrawingSession <;> simp [← hclosed]

/-- A freshly constructed session is open, holds an adapter and has no open layer. -/
theorem Constructor_open_with_adapter
    (deviceContext : ID2D1DeviceContext1) (adapter : Option ICanvasDrawingSessionAdapter)
    (owner : Option ICanvasDevice) (flag : Bool) (offset : D2D1_POINT_2F) (w : World) :
    ((CanvasDrawingSession.Constructor deviceContext adapter owner flag offset w).1.resource =
        some deviceContext) ∧
    (CanvasDrawingSession.Constructor deviceContext adapter owner flag offset w).1.m_adapter ≠
      none ∧
    (CanvasDrawingSession.Constructor deviceContext adapter owner flag offset
      w).1.m_activeLayerIds = [] := by
  unfold CanvasDrawingSession.Constructor
  cases flag <;> simp

/-- The property "closed with an empty open-id stack implies no adapter" is kept by
`Close`. -/
theorem closed_session_holds_no_adapter_after_Close (s : CanvasDrawingSession) (w : World)
    (h : s.resource = none → s.m_activeLayerIds = [] → s.m_adapter = none) :
    (s.Close w).self.resource = none → (s.Close w).self.m_activeLayerIds = [] →
      (s.Close w).self.m_adapter = none := by
  intro _ hl
  by_cases hlayers : s.m_activeLayerIds = []
  · cases hres : s.resource with
    | none =>
      rw [Close_of_closed_no_layers s w hres (h hres hlayers) hlayers]
      simpa [CanvasDrawingSession.resetCachedMembers] using h hres hlayers
    | some dc =>
      cases had : s.m_adapter with
      | none =>
        unfold CanvasDrawingSession.Close
        simp [CanvasDrawingSession.ReleaseResource, had, hlayers,
          CanvasDrawingSession.resetCachedMembers]
      | some a =>
        rw [Close_of_open_no_layers s w dc a hres had hlayers]
        by_cases hr : a.endDrawResult = HRESULT.S_OK <;> simp [hr]
  · rw [Close_of_open_layers s w hlayers] at hl
    exact absurd (by simpa [CanvasDrawingSession.ReleaseResource] using hl) hlayers

/-- Pushing a layer changes neither the resource nor the adapter of the session, and
changes nothing at all on a closed session. -/
theorem CreateLayer_keeps_resource_and_adapter (s : CanvasDrawingSession) (w : World)
    (a : LayerRequest) :
    (s.CreateLayer w a).self.resource = s.resource ∧
    (s.CreateLayer w a).self.m_adapter = s.m_adapter ∧
    (s.resource = none → (s.CreateLayer w a).self = s) := by
  obtain ⟨op, br, cr, cg, gt, opts, lp⟩ := a
  simp only [CanvasDrawingSession.CreateLayer, CanvasDrawingSession.CreateLayerImpl,
    CanvasDrawingSession.GetResource, Ret.closed]
  cases lp
  · simp
  · cases hres : s.resource with
    | none => simp [hres]
    | some dc =>
      simp only
      cases hb : s.ToD2DBrush br with
      | error hr => simp [hres]
      | ok d2dBrush =>
        simp only
        cases hg : (match cg with
          | some geometry => (GetWrappedResource geometry).map some
          | none => Except.ok none) with
        | error hr => simp [hres]
        | ok d2dGeometry => simp [hres]

/-- Popping a layer changes neither the resource nor the adapter of the session, and
changes nothing at all on a closed session. -/
theorem PopLayer_keeps_resource_and_adapter (s : CanvasDrawingSession) (w : World)
    (layerId : Int) (ax : Bool) :
    (s.PopLayer w layerId ax).self.resource = s.resource ∧
    (s.PopLayer w layerId ax).self.m_adapter = s.m_adapter ∧
    (s.resource = none → (s.PopLayer w layerId ax).self = s) := by
  unfold CanvasDrawingSession.PopLayer CanvasDrawingSession.GetResource Ret.closed
  cases hres : s.resource with
  | none => simp [hres]
  | some dc =>
    simp only
    split
    · simp [hres]
    · split
      · simp [hres]
      · split <;> simp [hres]

/-- C5, as stated, fails: `layeredSession` is open with layer 1 still open; its first
`Close` reports the open-layer error, and afterwards the shared flag is still true, no
`EndDraw` has been invoked and the adapter reference is still held. -/
theorem C5_close_with_open_layers_counterexample :
    layeredSession.resource = some ⟨7⟩ ∧
    layeredSession.m_activeLayerIds = [1] ∧
    layeredSession.m_targetHasActiveDrawingSession = true ∧
    (layeredSession.Close layeredWorld).outcome =
      Outcome.threw HRESULT.E_FAIL (some Strings.DidNotPopLayer) ∧
    (layeredSession.Close layeredWorld).world.targetHasActiveDrawingSession = true ∧
    (layeredSession.Close layeredWorld).world.adapterCalls = [] ∧
    (layeredSession.Close layeredWorld).self.m_adapter = some sampleAdapter := by
  decide

/-- C5, amended: for every open session whose open-id stack is non-empty, the first
`Close` reports the open-layer error and detaches the backend resource, and does
nothing else: the shared flag keeps its value, no `EndDraw` is invoked (the world is
unchanged) and the adapter reference, like every other member, is kept. -/
theorem C5_close_with_open_layers_only_detaches (s : CanvasDrawingSession) (w : World)
    (dc : ID2D1DeviceContext1) (_hopen : s.resource = some dc)
    (hlayers : s.m_activeLayerIds ≠ []) :
    (s.Close w).outcome = Outcome.threw HRESULT.E_FAIL (some Strings.DidNotPopLayer) ∧
    (s.Close w).self = { s with resource := none } ∧
    (s.Close w).self.m_adapter = s.m_adapter ∧
    (s.Close w).world = w ∧
    (s.Close w).world.targetHasActiveDrawingSession = w.targetHasActiveDrawingSession ∧
    (s.Close w).world.adapterCalls = w.adapterCalls := by
  rw [Close_of_open_layers s w hlayers]
  exact ⟨rfl, rfl, rfl, rfl, rfl, rfl⟩

/-- C5 amended, at a concrete session with layer 1 open. -/
theorem C5_close_with_open_layers_only_detaches_witness :
    layeredSession.resource = some ⟨7⟩ ∧ layeredSession.m_activeLayerIds ≠ [] ∧
    (layeredSession.Close layeredWorld).outcome =
      Outcome.threw HRESULT.E_FAIL (some Strings.DidNotPopLayer) ∧
    (layeredSession.Close layeredWorld).self = { layeredSession with resource := none } ∧
    (layeredSession.Close layeredWorld).self.m_adapter = layeredSession.m_adapter ∧
    (layeredSession.Close layeredWorld).world = layeredWorld ∧
    (layeredSession.Close layeredWorld).world.targetHasActiveDrawingSession =
      layeredWorld.targetHasActiveDrawingSession ∧
    (layeredSession.Close layeredWorld).world.adapterCalls = layeredWorld.adapterCalls :=
  ⟨rfl, by decide,
    C5_close_with_open_layers_only_detaches layeredSession layeredWorld ⟨7⟩ rfl (by decide)⟩

/-- C6, as stated, fails: with layer 1 still open, the second `Close` of
`layeredSession` does not return success; it reports `E_FAIL` with `DidNotPopLayer`
again. -/
theorem C6_second_close_counterexample :
    ((layeredSession.Close layeredWorld).self.Close
        (layeredSession.Close layeredWorld).world).outcome =
      Outcome.threw HRESULT.E_FAIL (some Strings.DidNotPopLayer) ∧
    ((layeredSession.Close layeredWorld).self.Close
        (layeredSession.Close layeredWorld).world).outcome.hresult ≠ some HRESULT.S_OK := by
  decide

/-- C6, amended: take any session which, if already closed with an empty open-id
stack, holds no adapter (as is the case for every session `Close` has closed).  If its
open-id stack is empty, a `Close` that follows a `Close` returns success and leaves the
world as it was (no backend call, no adapter call, the flag as the first `Close` left
it); it changes no member of the session when the first `Close` succeeded, and in any
case only clears the cached members.  If its open-id stack is not empty, the second
`Close` reports `E_FAIL` with `DidNotPopLayer` like the first, and changes neither the
world nor the session. -/
theorem C6_second_close_is_noop (s : CanvasDrawingSession) (w : World)
    (hclosed : s.resource = none → s.m_activeLayerIds = [] → s.m_adapter = none) :
    (s.m_activeLayerIds = [] →
      ((s.Close w).self.Close (s.Close w).world).outcome = Outcome.ok ∧
      ((s.Close w).self.Close (s.Close w).world).world = (s.Close w).world ∧
      ((s.Close w).self.Close (s.Close w).world).self =
        (s.Close w).self.resetCachedMembers ∧
      ((s.Close w).outcome = Outcome.ok →
        ((s.Close w).self.Close (s.Close w).world).self = (s.Close w).self)) ∧
    (s.m_activeLayerIds ≠ [] →
      ((s.Close w).self.Close (s.Close w).world).outcome =
        Outcome.threw HRESULT.E_FAIL (some Strings.DidNotPopLayer) ∧
      ((s.Close w).self.Close (s.Close w).world).world = (s.Close w).world ∧
      ((s.Close w).self.Close (s.Close w).world).self = (s.Close w).self) := by
  refine ⟨fun hlayers => ?_, fun hlayers => ?_⟩
  · cases hres : s.resource with
    | none =>
      have had := hclosed hres hlayers
      rw [Close_of_closed_no_layers s w hres had hlayers]
      rw [Close_of_closed_no_layers _ _
        (by simpa [CanvasDrawingSession.resetCachedMembers] using hres)
        (by simpa [CanvasDrawingSession.resetCachedMembers] using had)
        (by simpa [CanvasDrawingSession.resetCachedMembers] using hlayers)]
      cases hf : s.m_targetHasActiveDrawingSession <;>
        simp [CanvasDrawingSession.resetCachedMembers, hf]
    | some dc =>
      cases had : s.m_adapter with
      | none =>
        have h1 : s.Close w = ⟨Outcome.ok, none,
            ({ s with resource := none } : CanvasDrawingSession).resetCachedMembers,
            { w with targetHasActiveDrawingSession :=
                if s.m_targetHasActiveDrawingSession then false
                else w.targetHasActiveDrawingSession }⟩ := by
          unfold CanvasDrawingSession.Close
          simp only [CanvasDrawingSession.ReleaseResource, had, hlayers]
          cases hf : s.m_targetHasActiveDrawingSession <;> simp
        rw [h1]
        rw [Close_of_closed_no_layers _ _ rfl
          (by simpa [CanvasDrawingSession.resetCachedMembers] using had)
          (by simpa [CanvasDrawingSession.resetCachedMembers] using hlayers)]
        cases hf : s.m_targetHasActiveDrawingSession <;>
          simp [CanvasDrawingSession.resetCachedMembers, hf]
      | some a =>
        rw [Close_of_open_no_layers s w dc a hres had hlayers]
        by_cases hr : a.endDrawResult = HRESULT.S_OK
        · simp only [hr, if_true]
          rw [Close_of_closed_no_layers _ _ rfl rfl (by simpa using hlayers)]
          cases hf : s.m_targetHasActiveDrawingSession <;>
            simp [CanvasDrawingSession.resetCachedMembers, hf]
        · simp only [hr, if_false]
          rw [Close_of_closed_no_layers _ _ rfl rfl (by simpa using hlayers)]
          cases hf : s.m_targetHasActiveDrawingSession <;>
            simp [CanvasDrawingSession.resetCachedMembers, hf, ThrowIfFailed, hr]
  · rw [Close_of_open_layers s w hlayers]
    rw [Close_of_open_layers _ _
      (by simpa [CanvasDrawingSession.ReleaseResource] using hlayers)]
    exact ⟨rfl, rfl, rfl⟩

/-- C6 amended, at concrete sessions: `sampleSession` has an empty stack and is open,
and its second `Close` returns success and changes neither the world nor the session;
`layeredSession` has layer 1 open, and its second `Close` fails like the first. -/
theorem C6_second_close_is_noop_witness :
    (sampleSession.resource = none → sampleSession.m_activeLayerIds = [] →
      sampleSession.m_adapter = none) ∧
    sampleSession.m_activeLayerIds = [] ∧
    ((sampleSession.Close sampleOpenWorld).self.Close
        (sampleSession.Close sampleOpenWorld).world).outcome = Outcome.ok ∧
    ((sampleSession.Close sampleOpenWorld).self.Close
        (sampleSession.Close sampleOpenWorld).world).world =
      (sampleSession.Close sampleOpenWorld).world ∧
    ((sampleSession.Close sampleOpenWorld).self.Close
        (sampleSession.Close sampleOpenWorld).world).self =
      (sampleSession.Close sampleOpenWorld).self ∧
    layeredSession.m_activeLayerIds ≠ [] ∧
    ((layeredSession.Close layeredWorld).self.Close
        (layeredSession.Close layeredWorld).world).outcome =
      Outcome.threw HRESULT.E_FAIL (some Strings.DidNotPopLayer) :=
  ⟨by decide, rfl,
    ((C6_second_close_is_noop sampleSession sampleOpenWorld (by decide)).1 rfl).1,
    ((C6_second_close_is_noop sampleSession sampleOpenWorld (by decide)).1 rfl).2.1,
    ((C6_second_close_is_noop sampleSession sampleOpenWorld (by decide)).1 rfl).2.2.2 rfl,
    by decide,
    ((C6_second_close_is_noop layeredSession layeredWorld (by decide)).2 (by decide)).1⟩

theorem closeTimes_of_closed (n : Nat) (s : CanvasDrawingSession) (w : World)
    (hclosed : s.resource = none) (hadapter : s.m_adapter = none)
    (hlayers : s.m_activeLayerIds = []) :
    (closeTimes n s w).2.adapterCalls = w.adapterCalls ∧
    (closeTimes n s w).2.backendCalls = w.backendCalls := by
  induction n generalizing s w with
  | zero => exact ⟨rfl, rfl⟩
  | succ n ih =>
    unfold closeTimes
    rw [Close_of_closed_no_layers s w hclosed hadapter hlayers]
    exact ih _ _ (by simpa [CanvasDrawingSession.resetCachedMembers] using hclosed)
      (by simpa [CanvasDrawingSession.resetCachedMembers] using hadapter)
      (by simpa [CanvasDrawingSession.resetCachedMembers] using hlayers)

/-- C7: for an open session with adapter `a` on device context `dc` whose open-id
stack is empty, however many times `Close` runs (once or more, the last run possibly
being the destructor's), the adapter calls made are exactly one `EndDraw`, of `a`, with
`dc`, and that call is made by the first `Close`; this does not depend on whether
`EndDraw` succeeds, and the first `Close` leaves no adapter reference in the session. -/
theorem C7_end_draw_invoked_exactly_once (s : CanvasDrawingSession) (w : World)
    (dc : ID2D1DeviceContext1) (a : ICanvasDrawingSessionAdapter)
    (hopen : s.resource = some dc) (hadapter : s.m_adapter = some a)
    (hlayers : s.m_activeLayerIds = []) (n : Nat) :
    (s.Close w).world.adapterCalls = w.adapterCalls ++ [AdapterCall.EndDraw a dc] ∧
    (s.Close w).self.m_adapter = none ∧
    (closeTimes (n + 1) s w).2.adapterCalls =
      w.adapterCalls ++ [AdapterCall.EndDraw a dc] ∧
    ((closeTimes (n + 1) s w).1.Destructor (closeTimes (n + 1) s w).2).adapterCalls =
      w.adapterCalls ++ [AdapterCall.EndDraw a dc] ∧
    (s.Destructor w).adapterCalls = w.adapterCalls ++ [AdapterCall.EndDraw a dc] := by
  have h1 := Close_of_open_no_layers s w dc a hopen hadapter hlayers
  have hc : (s.Close w).self.resource = none ∧ (s.Close w).self.m_adapter = none ∧
      (s.Close w).self.m_activeLayerIds = [] := by
    rw [h1]
    by_cases hr : a.endDrawResult = HRESULT.S_OK <;> simp [hr, hlayers]
  have hw : (s.Close w).world.adapterCalls = w.adapterCalls ++ [AdapterCall.EndDraw a dc] := by
    rw [h1]
  have hdest : ∀ m, ((closeTimes (m + 1) s w).1.Destructor
      (closeTimes (m + 1) s w).2) = (closeTimes (m + 2) s w).2 := by
    intro m
    have key : ∀ (k : Nat) (s0 : CanvasDrawingSession) (w0 : World),
        (closeTimes k s0 w0).1.Destructor (closeTimes k s0 w0).2 =
          (closeTimes (k + 1) s0 w0).2 := by
      intro k
      induction k with
      | zero => intro s0 w0; rfl
      | succ k ih =>
        intro s0 w0
        have := ih (s0.Close w0).self (s0.Close w0).world
        simpa [closeTimes] using this
    exact key (m + 1) s w
  have hn : ∀ m, (closeTimes (m + 1) s w).2.adapterCalls =
      w.adapterCalls ++ [AdapterCall.EndDraw a dc] := by
    intro m
    show (closeTimes m (s.Close w).self (s.Close w).world).2.adapterCalls = _
    rw [(closeTimes_of_closed m _ _ hc.1 hc.2.1 hc.2.2).1, hw]
  refine ⟨hw, hc.2.1, hn n, ?_, hw⟩
  rw [hdest n]
  exact hn (n + 1)

/-- C7 at concrete sessions: three `Close` calls on `failingSession` (whose `EndDraw`
throws) invoke `EndDraw` once, with device context 7. -/
theorem C7_end_draw_invoked_exactly_once_witness :
    failingSession.resource = some ⟨7⟩ ∧
    failingSession.m_adapter = some failingAdapter ∧
    failingSession.m_activeLayerIds = [] ∧
    (closeTimes 3 failingSession sampleOpenWorld).2.adapterCalls =
      sampleOpenWorld.adapterCalls ++ [AdapterCall.EndDraw failingAdapter ⟨7⟩] :=
  ⟨rfl, rfl, rfl,
    (C7_end_draw_invoked_exactly_once failingSession sampleOpenWorld ⟨7⟩ failingAdapter
      rfl rfl rfl 2).2.2.1⟩

/-- C8, as stated, fails: `failingSession` is open with an empty layer stack and its
adapter's `EndDraw` throws; `Close` reports that failure, and when it returns the
owning-device reference is still set. -/
theorem C8_end_draw_failure_counterexample :
    failingSession.resource = some ⟨7⟩ ∧
    failingSession.m_activeLayerIds = [] ∧
    failingSession.m_adapter = some failingAdapter ∧
    failingAdapter.endDrawResult ≠ HRESULT.S_OK ∧
    (failingSession.Close sampleOpenWorld).outcome = Outcome.threw (HRESULT.D2DERR 1) none ∧
    (failingSession.Close sampleOpenWorld).self.m_owner = some ⟨1⟩ ∧
    (failingSession.Close sampleOpenWorld).self.m_owner ≠ none := by
  decide

/-- C8, amended: for every open session with an empty layer stack whose adapter's
`EndDraw` fails, `Close` reports that failure having detached the backend resource,
cleared the shared flag (when supplied), invoked `EndDraw` and released the adapter
reference; the cached brush, the default text format, the owning-device reference and
the ink members are left as they were, and are cleared by the next `Close`. -/
theorem C8_end_draw_failure_releases_adapter_only (s : CanvasDrawingSession) (w : World)
    (dc : ID2D1DeviceContext1) (a : ICanvasDrawingSessionAdapter)
    (hopen : s.resource = some dc) (hadapter : s.m_adapter = some a)
    (hlayers : s.m_activeLayerIds = []) (hfail : a.endDrawResult ≠ HRESULT.S_OK) :
    (s.Close w).outcome = Outcome.threw a.endDrawResult none ∧
    (s.Close w).self = { s with resource := none, m_adapter := none } ∧
    (s.m_targetHasActiveDrawingSession = true →
      (s.Close w).world.targetHasActiveDrawingSession = false) ∧
    (s.Close w).world.adapterCalls = w.adapterCalls ++ [AdapterCall.EndDraw a dc] ∧
    (s.Close w).world.backendCalls = w.backendCalls ∧
    ((s.Close w).self.Close (s.Close w).world).self =
      { s with resource := none, m_adapter := none, m_solidColorBrush := none,
               m_defaultTextFormat := none, m_owner := none, m_inkD2DRenderer := none,
               m_inkStateBlock := none } := by
  have h1 := Close_of_open_no_layers s w dc a hopen hadapter hlayers
  simp only [hfail, ↓reduceIte, ThrowIfFailed] at h1
  rw [h1, Close_of_closed_no_layers _ _ rfl rfl (by simpa using hlayers)]
  refine ⟨rfl, rfl, ?_, rfl, rfl, rfl⟩
  intro hf
  simp [hf]

/-- C8 amended, at a concrete session. -/
theorem C8_end_draw_failure_releases_adapter_only_witness :
    failingSession.resource = some ⟨7⟩ ∧ failingSession.m_adapter = some failingAdapter ∧
    failingSession.m_activeLayerIds = [] ∧ failingAdapter.endDrawResult ≠ HRESULT.S_OK ∧
    (failingSession.Close sampleOpenWorld).outcome =
      Outcome.threw failingAdapter.endDrawResult none ∧
    (failingSession.Close sampleOpenWorld).self =
      { failingSession with resource := none, m_adapter := none } :=
  ⟨rfl, rfl, rfl, by decide,
    (C8_end_draw_failure_releases_adapter_only failingSession sampleOpenWorld ⟨7⟩
      failingAdapter rfl rfl rfl (by decide)).1,
    (C8_end_draw_failure_releases_adapter_only failingSession sampleOpenWorld ⟨7⟩
      failingAdapter rfl rfl rfl (by decide)).2.1⟩

/-! ### Operations on a closed session -/

theorem Close_detaches (s : CanvasDrawingSession) (w : World) :
    (s.Close w).self.resource = none := by
  unfold CanvasDrawingSession.Close
  simp only [CanvasDrawingSession.ReleaseResource, CanvasDrawingSession.MaybeGetResource,
    CanvasDrawingSession.resetCachedMembers]
  split
  · rfl
  · split
    · split
      · rfl
      · split <;> rfl
    · rfl

theorem Close_ok_clears_owner (s : CanvasDrawingSession) (w : World)
    (h : (s.Close w).outcome = Outcome.ok) : (s.Close w).self.m_owner = none := by
  revert h
  unfold CanvasDrawingSession.Close
  simp only [CanvasDrawingSession.ReleaseResource, CanvasDrawingSession.MaybeGetResource,
    CanvasDrawingSession.resetCachedMembers]
  split
  · simp
  · split
    · split
      · simp
      · split
        · simp
        · rename_i hne
          intro h
          exact absurd h (by simpa using hne)
    · simp

theorem DrawImageImpl_closed (c : CanvasDrawingSession) (w1 : World)
    (hc : c.resource = none) (image : Option ICanvasImage) (offset : Option Vector2)
    (destinationRect : Option Rect) (sourceRect : Option Rect) (opacity : ℚ)
    (interpolation : CanvasImageInterpolation) (composite : Option CanvasComposite) :
    c.DrawImageImpl w1 image offset destinationRect sourceRect opacity interpolation
      composite = Ret.closed c w1 := by
  simp [CanvasDrawingSession.DrawImageImpl, CanvasDrawingSession.GetResource, hc]

theorem DrawBitmapImpl_closed (c : CanvasDrawingSession) (w1 : World)
    (hc : c.resource = none) (bitmap : Option ICanvasBitmap) (offset : Option Vector2)
    (destinationRect : Option Rect) (sourceRect : Option Rect) (opacity : ℚ)
    (interpolation : CanvasImageInterpolation) (perspective : Option Matrix4x4) :
    c.DrawBitmapImpl w1 bitmap offset destinationRect sourceRect opacity interpolation
      perspective = Ret.closed c w1 := by
  simp [CanvasDrawingSession.DrawBitmapImpl, CanvasDrawingSession.GetResource, hc]

/-- C9, as stated, fails: the first `Close` of `layeredSession` reports the open-layer
error, and the `get_Device` that follows does not fail with the is-closed error; it
returns the owner the session still holds. -/
theorem C9_get_Device_after_close_counterexample :
    (layeredSession.Close layeredWorld).outcome =
      Outcome.threw HRESULT.E_FAIL (some Strings.DidNotPopLayer) ∧
    ((layeredSession.Close layeredWorld).self.get_Device
        (layeredSession.Close layeredWorld).world Pointer.valid).outcome = Outcome.ok ∧
    ((layeredSession.Close layeredWorld).self.get_Device
        (layeredSession.Close layeredWorld).world Pointer.valid).value = some ⟨1⟩ ∧
    ((layeredSession.Close layeredWorld).self.get_Device
        (layeredSession.Close layeredWorld).world Pointer.valid).outcome ≠
      Outcome.threw HRESULT.RO_E_CLOSED none := by
  decide

/-- C9, amended: after any `Close` the session is closed (its resource is detached),
and a `Close` that succeeded has also dropped the owner reference.  On a closed
session, in any world: `Clear`, `Flush`, `DrawImageImpl`, `DrawBitmapImpl` and every
image-drawing entry point, `get_Transform`, `put_Transform`, `get_Units`, `put_Units`,
`get_Dpi`, the close action of any layer handle, and `CreateLayerImpl` (and its public
forms) given a non-null out pointer, all fail with `RO_E_CLOSED` and leave session and
world as they were (no backend call).  `get_Device` with a non-null out pointer does
so when the session holds no owner reference; while it still holds one it returns that
owner with success. -/
theorem C9_closed_session_rejects_operations (s : CanvasDrawingSession) (w : World) :
    (s.Close w).self.resource = none ∧
    ((s.Close w).outcome = Outcome.ok → (s.Close w).self.m_owner = none) ∧
    ∀ (c : CanvasDrawingSession) (w1 : World), c.resource = none →
      (∀ color : Color, c.Clear w1 color = Ret.closed c w1) ∧
      c.Flush w1 = Ret.closed c w1 ∧
      (∀ (image : Option ICanvasImage) (offset : Option Vector2)
          (destinationRect sourceRect : Option Rect) (opacity : ℚ)
          (interpolation : CanvasImageInterpolation) (composite : Option CanvasComposite),
        c.DrawImageImpl w1 image offset destinationRect sourceRect opacity interpolation
          composite = Ret.closed c w1) ∧
      (∀ (bitmap : Option ICanvasBitmap) (offset : Option Vector2)
          (destinationRect sourceRect : Option Rect) (opacity : ℚ)
          (interpolation : CanvasImageInterpolation) (perspective : Option Matrix4x4),
        c.DrawBitmapImpl w1 bitmap offset destinationRect sourceRect opacity interpolation
          perspective = Ret.closed c w1) ∧
      (∀ (image : Option ICanvasImage),
        c.DrawImageAtOrigin w1 image = Ret.closed c w1) ∧
      (∀ (image : Option ICanvasImage) (offset : Vector2),
        c.DrawImageAtOffset w1 image offset = Ret.closed c w1) ∧
      (∀ (image : Option ICanvasImage) (x y : ℚ),
        c.DrawImageAtCoords w1 image x y = Ret.closed c w1) ∧
      (∀ (bitmap : Option ICanvasBitmap) (destinationRect : Rect),
        c.DrawImageToRect w1 bitmap destinationRect = Ret.closed c w1) ∧
      (∀ (image : Option ICanvasImage) (offset : Vector2) (sourceRect : Rect),
        c.DrawImageAtOffsetWithSourceRect w1 image offset sourceRect = Ret.closed c w1) ∧
      (∀ (image : Option ICanvasImage) (x y : ℚ) (sourceRect : Rect),
        c.DrawImageAtCoordsWithSourceRect w1 image x y sourceRect = Ret.closed c w1) ∧
      (∀ (image : Option ICanvasImage) (destinationRect : Rect) (sourceRect : Rect),
        c.DrawImageToRectWithSourceRect w1 image destinationRect sourceRect = Ret.closed c w1) ∧
      (∀ (image : Option ICanvasImage) (offset : Vector2) (sourceRectangle : Rect) (opacity : ℚ),
        c.DrawImageAtOffsetWithSourceRectAndOpacity w1 image offset sourceRectangle opacity =
          Ret.closed c w1) ∧
      (∀ (image : Option ICanvasImage) (x y : ℚ) (sourceRectangle : Rect) (opacity : ℚ),
        c.DrawImageAtCoordsWithSourceRectAndOpacity w1 image x y sourceRectangle opacity =
          Ret.closed c w1) ∧
      (∀ (image : Option ICanvasImage) (destinationRectangle : Rect) (sourceRectangle : Rect)
          (opacity : ℚ),
        c.DrawImageToRectWithSourceRectAndOpacity w1 image destinationRectangle sourceRectangle
          opacity = Ret.closed c w1) ∧
      (∀ (image : Option ICanvasImage) (offset : Vector2) (sourceRectangle : Rect) (opacity : ℚ)
          (interpolation : CanvasImageInterpolation),
        c.DrawImageAtOffsetWithSourceRectAndOpacityAndInterpolation w1 image offset
          sourceRectangle opacity interpolation = Ret.closed c w1) ∧
      (∀ (image : Option ICanvasImage) (x y : ℚ) (sourceRectangle : Rect) (opacity : ℚ)
          (interpolation : CanvasImageInterpolation),
        c.DrawImageAtCoordsWithSourceRectAndOpacityAndInterpolation w1 image x y sourceRectangle
          opacity interpolation = Ret.closed c w1) ∧
      (∀ (image : Option ICanvasImage) (destinationRectangle : Rect) (sourceRectangle : Rect)
          (opacity : ℚ) (interpolation : CanvasImageInterpolation),
        c.DrawImageToRectWithSourceRectAndOpacityAndInterpolation w1 image destinationRectangle
          sourceRectangle opacity interpolation = Ret.closed c w1) ∧
      (∀ (image : Option ICanvasImage) (offset : Vector2) (sourceRectangle : Rect) (opacity : ℚ)
          (interpolation : CanvasImageInterpolation) (composite : CanvasComposite),
        c.DrawImageAtOffsetWithSourceRectAndOpacityAndInterpolationAndComposite w1 image offset
          sourceRectangle opacity interpolation composite = Ret.closed c w1) ∧
      (∀ (image : Option ICanvasImage) (x y : ℚ) (sourceRectangle : Rect) (opacity : ℚ)
          (interpolation : CanvasImageInterpolation) (composite : CanvasComposite),
        c.DrawImageAtCoordsWithSourceRectAndOpacityAndInterpolationAndComposite w1 image x y
          sourceRectangle opacity interpolation composite = Ret.closed c w1) ∧
      (∀ (image : Option ICanvasImage) (destinationRectangle : Rect) (sourceRectangle : Rect)
          (opacity : ℚ) (interpolation : CanvasImageInterpolation)
          (composite : CanvasComposite),
        c.DrawImageToRectWithSourceRectAndOpacityAndInterpolationAndComposite w1 image
          destinationRectangle sourceRectangle opacity interpolation composite = Ret.closed c
          w1) ∧
      (∀ (bitmap : Option ICanvasBitmap) (offset : Vector2) (sourceRectangle : Rect)
          (opacity : ℚ) (interpolation : CanvasImageInterpolation) (perspective : Matrix4x4),
        c.DrawImageAtOffsetWithSourceRectAndOpacityAndInterpolationAndPerspective w1 bitmap
          offset sourceRectangle opacity interpolation perspective = Ret.closed c w1) ∧
      (∀ (bitmap : Option ICanvasBitmap) (x y : ℚ) (sourceRectangle : Rect) (opacity : ℚ)
          (interpolation : CanvasImageInterpolation) (perspective : Matrix4x4),
        c.DrawImageAtCoordsWithSourceRectAndOpacityAndInterpolationAndPerspective w1 bitmap x y
          sourceRectangle opacity interpolation perspective = Ret.closed c w1) ∧
      (∀ (bitmap : Option ICanvasBitmap) (destinationRectangle : Rect) (sourceRectangle : Rect)
          (opacity : ℚ) (interpolation : CanvasImageInterpolation) (perspective : Matrix4x4),
        c.DrawImageToRectWithSourceRectAndOpacityAndInterpolationAndPerspective w1 bitmap
          destinationRectangle sourceRectangle opacity interpolation perspective = Ret.closed c
          w1) ∧
      (∀ value : Pointer, c.get_Transform w1 value = Ret.closed c w1) ∧
      (∀ value : Matrix3x2, c.put_Transform w1 value = Ret.closed c w1) ∧
      (∀ value : Pointer, c.get_Units w1 value = Ret.closed c w1) ∧
      (∀ value : CanvasUnits, c.put_Units w1 value = Ret.closed c w1) ∧
      (∀ dpi : Pointer, c.get_Dpi w1 dpi = Ret.closed c w1) ∧
      (∀ a : LayerRequest, a.layer = Pointer.valid → c.CreateLayer w1 a = Ret.closed c w1) ∧
      (∀ opacity : ℚ, c.CreateLayerWithOpacity w1 opacity Pointer.valid = Ret.closed c w1) ∧
      (∀ (opacity : ℚ) (clipRectangle : Rect),
        c.CreateLayerWithOpacityAndClipRectangle w1 opacity clipRectangle Pointer.valid =
          Ret.closed c w1) ∧
      (∀ layer : CanvasActiveLayer,
        layer.closeAction (some c) w1 =
          (Outcome.threw HRESULT.RO_E_CLOSED none, some c, w1)) ∧
      (c.m_owner = none → c.get_Device w1 Pointer.valid = Ret.closed c w1) ∧
      (∀ owner : ICanvasDevice, c.m_owner = some owner →
        c.get_Device w1 Pointer.valid = ⟨Outcome.ok, some owner, c, w1⟩) := by
  refine ⟨Close_detaches s w, Close_ok_clears_owner s w, ?_⟩
  intro c w1 hc
  have hI := DrawImageImpl_closed c w1 hc
  have hB := DrawBitmapImpl_closed c w1 hc
  refine ⟨?_, ?_, hI, hB,
    (fun _ => hI _ _ _ _ _ _ _),
    (fun _ _ => hI _ _ _ _ _ _ _),
    (fun _ _ _ => hI _ _ _ _ _ _ _),
    (fun _ _ => hB _ _ _ _ _ _ _),
    (fun _ _ _ => hI _ _ _ _ _ _ _),
    (fun _ _ _ _ => hI _ _ _ _ _ _ _),
    (fun _ _ _ => hI _ _ _ _ _ _ _),
    (fun _ _ _ _ => hI _ _ _ _ _ _ _),
    (fun _ _ _ _ _ => hI _ _ _ _ _ _ _),
    (fun _ _ _ _ => hI _ _ _ _ _ _ _),
    (fun _ _ _ _ _ => hI _ _ _ _ _ _ _),
    (fun _ _ _ _ _ _ => hI _ _ _ _ _ _ _),
    (fun _ _ _ _ _ => hI _ _ _ _ _ _ _),
    (fun _ _ _ _ _ _ => hI _ _ _ _ _ _ _),
    (fun _ _ _ _ _ _ _ => hI _ _ _ _ _ _ _),
    (fun _ _ _ _ _ _ => hI _ _ _ _ _ _ _),
    (fun _ _ _ _ _ _ => hB _ _ _ _ _ _ _),
    (fun _ _ _ _ _ _ _ => hB _ _ _ _ _ _ _),
    (fun _ _ _ _ _ _ => hB _ _ _ _ _ _ _),
    ?_, ?_, ?_, ?_, ?_, ?_, ?_, ?_, ?_, ?_, ?_⟩
  · intro color
    simp [CanvasDrawingSession.Clear, CanvasDrawingSession.GetResource, hc]
  · simp [CanvasDrawingSession.Flush, CanvasDrawingSession.GetResource, hc]
  · intro value
    simp [CanvasDrawingSession.get_Transform, CanvasDrawingSession.GetResource, hc]
  · intro value
    simp [CanvasDrawingSession.put_Transform, CanvasDrawingSession.GetResource, hc]
  · intro value
    simp [CanvasDrawingSession.get_Units, CanvasDrawingSession.GetResource, hc]
  · intro value
    simp [CanvasDrawingSession.put_Units, CanvasDrawingSession.GetResource, hc]
  · intro dpi
    simp [CanvasDrawingSession.get_Dpi, CanvasDrawingSession.GetResource, hc]
  · intro a ha
    simp [CanvasDrawingSession.CreateLayer, CanvasDrawingSession.CreateLayerImpl,
      CanvasDrawingSession.GetResource, hc, ha]
  · intro opacity
    simp [CanvasDrawingSession.CreateLayerWithOpacity, CanvasDrawingSession.CreateLayerImpl,
      CanvasDrawingSession.GetResource, hc]
  · intro opacity clipRectangle
    simp [CanvasDrawingSession.CreateLayerWithOpacityAndClipRectangle,
      CanvasDrawingSession.CreateLayerImpl, CanvasDrawingSession.GetResource, hc]
  · intro layer
    simp [CanvasActiveLayer.closeAction, CanvasDrawingSession.PopLayer,
      CanvasDrawingSession.GetResource, hc, Ret.closed]
  · intro ho
    simp [CanvasDrawingSession.get_Device, CanvasDrawingSession.GetDevice,
      CanvasDrawingSession.GetResource, hc, ho, Ret.closed]
  · intro owner ho
    simp [CanvasDrawingSession.get_Device, CanvasDrawingSession.GetDevice, ho]

/-- C9 amended, at a concrete session: after the `Close` of `sampleSession`, `Flush`
and `get_Device` fail with the is-closed error. -/
theorem C9_closed_session_rejects_operations_witness :
    (sampleSession.Close sampleOpenWorld).self.resource = none ∧
    (sampleSession.Close sampleOpenWorld).self.Flush (sampleSession.Close sampleOpenWorld).world =
      Ret.closed (sampleSession.Close sampleOpenWorld).self
        (sampleSession.Close sampleOpenWorld).world ∧
    (sampleSession.Close sampleOpenWorld).self.get_Device
        (sampleSession.Close sampleOpenWorld).world Pointer.valid =
      Ret.closed (sampleSession.Close sampleOpenWorld).self
        (sampleSession.Close sampleOpenWorld).world :=
  ⟨rfl,
    ((C9_closed_session_rejects_operations sampleSession sampleOpenWorld).2.2
      (sampleSession.Close sampleOpenWorld).self (sampleSession.Close sampleOpenWorld).world
      rfl).2.1,
    (((C9_closed_session_rejects_operations sampleSession sampleOpenWorld).2.2
      (sampleSession.Close sampleOpenWorld).self (sampleSession.Close sampleOpenWorld).world
      rfl).2.2.2.2.2.2.2.2.2.2.2.2.2.2.2.2.2.2.2.2.2.2.2.2.2.2.2.2.2.2.2.2.1) rfl⟩

/-! ### The shared flag -/

/-- C10, evaluated on the code: in `staleCloseEvents` every construction happens
while the flag is false; after the second `Close` of session 0 the flag is false
although session 1 is open, so a third session may be constructed next to it, and two
sessions sharing the flag are open at once. -/
theorem C10_stale_close_clears_flag_of_open_session :
    freshTarget.constructsOnlyWhenFlagClear staleCloseEvents = true ∧
    (freshTarget.run staleCloseEvents).world.targetHasActiveDrawingSession = false ∧
    (freshTarget.run staleCloseEvents).sessions.map (fun s => s.resource) =
      [none, some ⟨8⟩] ∧
    (freshTarget.run staleCloseEvents).openSessions = 1 ∧
    freshTarget.constructsOnlyWhenFlagClear
      (staleCloseEvents ++ [SessionEvent.construct ⟨9⟩ none none ⟨0, 0⟩]) = true ∧
    (freshTarget.run
      (staleCloseEvents ++ [SessionEvent.construct ⟨9⟩ none none ⟨0, 0⟩])).openSessions = 2 := by
  decide

/-! ### The stages of the slow path -/

/-- The opacity stage logs only `CreateEffect` calls, the one for the colour matrix
exactly when the opacity is below one, and leaves the device context state alone. -/
theorem MaybeApplyOpacityEffect_logged (self : DrawImageWorker) (w : World)
    (img : ID2D1Image) :
    ∃ new, (self.MaybeApplyOpacityEffect w img).2.2 = w.logged new ∧
      (∀ c ∈ new, c.isCreateEffect = true) ∧
      new.count (D2DCall.CreateEffect CLSID.D2D1ColorMatrix) =
        (if self.m_opacity ≥ 1 then 0 else 1) := by
  unfold DrawImageWorker.MaybeApplyOpacityEffect SetDpiCompensatedEffectInput ThrowIfFailed
  by_cases hop : self.m_opacity ≥ 1
  · exact ⟨[], by simp [hop, World.logged_nil], by simp, by simp [hop]⟩
  · by_cases hcm : w.d2d.createColorMatrixResult = HRESULT.S_OK
    · cases img with
      | bitmap b =>
        by_cases hd : w.d2d.createDpiCompensationResult = HRESULT.S_OK
        · refine ⟨[D2DCall.CreateEffect CLSID.D2D1ColorMatrix,
            D2DCall.CreateEffect CLSID.D2D1DpiCompensation], ?_, ?_, ?_⟩
          · simp [hop, hcm, hd, World.call, World.logged]
          · simp [D2DCall.isCreateEffect]
          · simp [hop]
        · refine ⟨[D2DCall.CreateEffect CLSID.D2D1ColorMatrix,
            D2DCall.CreateEffect CLSID.D2D1DpiCompensation], ?_, ?_, ?_⟩
          · simp [hop, hcm, hd, World.call, World.logged]
          · simp [D2DCall.isCreateEffect]
          · simp [hop]
      | image id =>
        refine ⟨[D2DCall.CreateEffect CLSID.D2D1ColorMatrix], ?_, ?_, ?_⟩
        · simp [hop, hcm, World.call, World.logged]
        · simp [D2DCall.isCreateEffect]
        · simp [hop]
      | opacityEffectOutput i d a =>
        refine ⟨[D2DCall.CreateEffect CLSID.D2D1ColorMatrix], ?_, ?_, ?_⟩
        · simp [hop, hcm, World.call, World.logged]
        · simp [D2DCall.isCreateEffect]
        · simp [hop]
      | borderEffectOutput i =>
        refine ⟨[D2DCall.CreateEffect CLSID.D2D1ColorMatrix], ?_, ?_, ?_⟩
        · simp [hop, hcm, World.call, World.logged]
        · simp [D2DCall.isCreateEffect]
        · simp [hop]
    · refine ⟨[D2DCall.CreateEffect CLSID.D2D1ColorMatrix], ?_, ?_, ?_⟩
      · simp [hop, hcm, World.call, World.logged]
      · simp [D2DCall.isCreateEffect]
      · simp [hop]

/-- The source-rectangle stage logs only `CreateEffect` calls, none for the colour
matrix, leaves the device context state alone, and changes no member of the worker
but `m_d2dSourceRect`. -/
theorem MaybeAdjustD2DSourceRect_logged (self : DrawImageWorker) (w : World)
    (img : ID2D1Image) :
    (∃ new, (self.MaybeAdjustD2DSourceRect w img).2.2.2 = w.logged new ∧
      (∀ c ∈ new, c.isCreateEffect = true) ∧
      new.count (D2DCall.CreateEffect CLSID.D2D1ColorMatrix) = 0) ∧
    (self.MaybeAdjustD2DSourceRect w img).2.1.m_opacity = self.m_opacity ∧
    (self.MaybeAdjustD2DSourceRect w img).2.1.m_sourceRect = self.m_sourceRect ∧
    (self.MaybeAdjustD2DSourceRect w img).2.1.m_offset = self.m_offset ∧
    (self.MaybeAdjustD2DSourceRect w img).2.1.m_interpolation = self.m_interpolation := by
  unfold DrawImageWorker.MaybeAdjustD2DSourceRect SetDpiCompensatedEffectInput ThrowIfFailed
  cases img with
  | bitmap b =>
    cases hr : self.m_d2dSourceRect with
    | none => exact ⟨⟨[], by simp [World.logged_nil], by simp, by simp⟩, by simp⟩
    | some r =>
      cases hs : GetBitmapSize w.d2d.unitMode b with
      | none => exact ⟨⟨[], by simp [hs, World.logged_nil], by simp, by simp⟩, by simp [hs]⟩
      | some size =>
        by_cases hb : w.d2d.createBorderResult = HRESULT.S_OK
        · by_cases hd : w.d2d.createDpiCompensationResult = HRESULT.S_OK
          · refine ⟨⟨[D2DCall.CreateEffect CLSID.D2D1Border,
              D2DCall.CreateEffect CLSID.D2D1DpiCompensation], ?_, ?_, ?_⟩, ?_⟩
            · simp [hs, hb, hd, World.call, World.logged]
            · simp [D2DCall.isCreateEffect]
            · decide
            · simp [hs, hb, hd, World.call]
          · refine ⟨⟨[D2DCall.CreateEffect CLSID.D2D1Border,
              D2DCall.CreateEffect CLSID.D2D1DpiCompensation], ?_, ?_, ?_⟩, ?_⟩
            · simp [hs, hb, hd, World.call, World.logged]
            · simp [D2DCall.isCreateEffect]
            · decide
            · simp [hs, hb, hd, World.call]
        · refine ⟨⟨[D2DCall.CreateEffect CLSID.D2D1Border], ?_, ?_, ?_⟩, ?_⟩
          · simp [hs, hb, World.call, World.logged]
          · simp [D2DCall.isCreateEffect]
          · decide
          · simp [hs, hb]
  | image id => exact ⟨⟨[], by simp [World.logged_nil], by simp, by simp⟩, by simp⟩
  | opacityEffectOutput i d a =>
    exact ⟨⟨[], by simp [World.logged_nil], by simp, by simp⟩, by simp⟩
  | borderEffectOutput i =>
    exact ⟨⟨[], by simp [World.logged_nil], by simp, by simp⟩, by simp⟩

theorem isSlowPathCall_of_isCreateEffect (i : D2D1_INTERPOLATION_MODE)
    (m : D2D1_COMPOSITE_MODE) (c : D2DCall) (h : c.isCreateEffect = true) :
    c.isSlowPathCall i m = true := by
  cases c <;> simp_all [D2DCall.isCreateEffect, D2DCall.isSlowPathCall]

theorem not_isDrawBitmap_of_isSlowPathCall (i : D2D1_INTERPOLATION_MODE)
    (m : D2D1_COMPOSITE_MODE) (c : D2DCall) (h : c.isSlowPathCall i m = true) :
    c.isDrawBitmap = false := by
  cases c <;> simp_all [D2DCall.isDrawBitmap, D2DCall.isSlowPathCall]

/-- The at-offset draw of the slow path logs only slow-path calls with the modes it
was given, among them the colour-matrix `CreateEffect` exactly when the opacity is
below one. -/
theorem DrawImageAtOffset_logged (self : DrawImageWorker) (w : World) (img : ID2D1Image)
    (offset : Vector2) (i : D2D1_INTERPOLATION_MODE) (m : D2D1_COMPOSITE_MODE) :
    ∃ new, (self.DrawImageAtOffset w img offset i m).2 = w.logged new ∧
      (∀ c ∈ new, c.isSlowPathCall i m = true) ∧
      new.count (D2DCall.CreateEffect CLSID.D2D1ColorMatrix) =
        (if self.m_opacity ≥ 1 then 0 else 1) := by
  obtain ⟨new, h1, h2, h3⟩ := MaybeApplyOpacityEffect_logged self w img
  unfold DrawImageWorker.DrawImageAtOffset
  rcases hr : self.MaybeApplyOpacityEffect w img with ⟨o, img1, w1⟩
  rw [hr] at h1
  simp only at h1
  subst h1
  cases o with
  | ok =>
    refine ⟨new ++ [D2DCall.DrawImage img1 (ToD2DPoint offset) self.GetD2DSourceRect i m],
      ?_, ?_, ?_⟩
    · simp [World.call_eq_logged, World.logged_logged]
    · intro c hc
      rcases List.mem_append.1 hc with hc | hc
      · exact isSlowPathCall_of_isCreateEffect i m c (h2 c hc)
      · simp at hc
        subst hc
        simp [D2DCall.isSlowPathCall]
    · rw [List.count_append, h3]
      simp
  | threw hr1 msg =>
    exact ⟨new, rfl, fun c hc => isSlowPathCall_of_isCreateEffect i m c (h2 c hc), h3⟩
  | assertFailed =>
    exact ⟨new, rfl, fun c hc => isSlowPathCall_of_isCreateEffect i m c (h2 c hc), h3⟩

/-- The to-rectangle draw of the slow path logs only slow-path calls with the modes
it was given and ends with the device context state it started from; the colour-matrix
`CreateEffect` is among them at most once, never when the opacity is at least one, and
exactly when the opacity is below one once the source-rectangle stage has succeeded. -/
theorem DrawImageToRect_logged (self : DrawImageWorker) (w : World) (img : ID2D1Image)
    (destinationRect : Rect) (i : D2D1_INTERPOLATION_MODE) (m : D2D1_COMPOSITE_MODE) :
    ∃ new, (self.DrawImageToRect w img destinationRect i m).2 = w.logged new ∧
      (∀ c ∈ new, c.isSlowPathCall i m = true) ∧
      new.count (D2DCall.CreateEffect CLSID.D2D1ColorMatrix) ≤ 1 ∧
      (self.m_opacity ≥ 1 → new.count (D2DCall.CreateEffect CLSID.D2D1ColorMatrix) = 0) ∧
      (self.m_sourceRect.isSome = true →
        (self.MaybeAdjustD2DSourceRect w img).1 = Outcome.ok →
        new.count (D2DCall.CreateEffect CLSID.D2D1ColorMatrix) =
          (if self.m_opacity ≥ 1 then 0 else 1)) := by
  unfold DrawImageWorker.DrawImageToRect
  cases hsr : self.m_sourceRect with
  | none => exact ⟨[], by simp [World.logged_nil], by simp, by simp, by simp, by simp⟩
  | some sr =>
    obtain ⟨⟨n1, h1, h2, h3⟩, hop, -, -, -⟩ := MaybeAdjustD2DSourceRect_logged self w img
    rcases ha : self.MaybeAdjustD2DSourceRect w img with ⟨o, self1, img1, w1⟩
    rw [ha] at h1 hop
    simp only at h1 hop
    subst h1
    have hc1 : ∀ c ∈ n1, c.isSlowPathCall i m = true :=
      fun c hc => isSlowPathCall_of_isCreateEffect i m c (h2 c hc)
    cases o with
    | threw hr1 msg =>
      exact ⟨n1, rfl, hc1, by omega, fun _ => h3, by simp⟩
    | assertFailed =>
      exact ⟨n1, rfl, hc1, by omega, fun _ => h3, by simp⟩
    | ok =>
      obtain ⟨n2, k1, k2, k3⟩ := MaybeApplyOpacityEffect_logged self1 (w.logged n1) img1
      rw [hop] at k3
      rcases hb : self1.MaybeApplyOpacityEffect (w.logged n1) img1 with ⟨o2, img2, w2⟩
      rw [hb] at k1
      simp only at k1
      subst k1
      simp only [hb]
      have hc2 : ∀ c ∈ n1 ++ n2, c.isSlowPathCall i m = true := by
        intro c hc
        rcases List.mem_append.1 hc with hc | hc
        · exact hc1 c hc
        · exact isSlowPathCall_of_isCreateEffect i m c (k2 c hc)
      have hcount : (n1 ++ n2).count (D2DCall.CreateEffect CLSID.D2D1ColorMatrix) =
          (if self.m_opacity ≥ 1 then 0 else 1) := by
        rw [List.count_append, h3, k3]
        simp
      have hle : (n1 ++ n2).count (D2DCall.CreateEffect CLSID.D2D1ColorMatrix) ≤ 1 := by
        rw [hcount]
        split <;> omega
      have hzero : self.m_opacity ≥ 1 →
          (n1 ++ n2).count (D2DCall.CreateEffect CLSID.D2D1ColorMatrix) = 0 := by
        intro h
        rw [hcount]
        simp [h]
      cases o2 with
      | threw hr1 msg =>
        exact ⟨n1 ++ n2, by simp [World.logged_logged], hc2, hle, hzero, fun _ _ => hcount⟩
      | assertFailed =>
        exact ⟨n1 ++ n2, by simp [World.logged_logged], hc2, hle, hzero, fun _ _ => hcount⟩
      | ok =>
        simp only
        cases hd : self1.m_d2dSourceRect with
        | none =>
          exact ⟨n1 ++ n2, by simp [World.logged_logged], hc2, hle, hzero,
            fun _ _ => hcount⟩
        | some r =>
          simp only
          by_cases hz : r.right - r.left = 0 ∨ r.bottom - r.top = 0
          · exact ⟨n1 ++ n2, by simp [hz, World.logged_logged], hc2, hle, hzero,
              fun _ _ => hcount⟩
          · have hcnt3 : ∀ t u : Matrix3x2, ∀ d : D2DCall, d.isDrawImage = true →
                ((n1 ++ n2) ++ [D2DCall.SetTransform t, d, D2DCall.SetTransform u]).count
                  (D2DCall.CreateEffect CLSID.D2D1ColorMatrix) =
                (n1 ++ n2).count (D2DCall.CreateEffect CLSID.D2D1ColorMatrix) := by
              intro t u d hdd
              rw [List.count_append]
              cases d <;> simp_all [D2DCall.isDrawImage]
            refine ⟨(n1 ++ n2) ++ [D2DCall.SetTransform
                (TemporaryTransform ((w.logged n1).logged n2).d2d.transform
                  ⟨destinationRect.X, destinationRect.Y⟩
                  ⟨destinationRect.Width / (r.right - r.left),
                    destinationRect.Height / (r.bottom - r.top)⟩),
              D2DCall.DrawImage img2 ⟨0, 0⟩ (some r) i m,
              D2DCall.SetTransform ((w.logged n1).logged n2).d2d.transform], ?_, ?_, ?_, ?_, ?_⟩
            · simp only [hz, if_false]
              rw [World.setTransform_restore, World.logged_logged, World.logged_logged,
                List.append_assoc]
            · intro c hc
              rcases List.mem_append.1 hc with hc | hc
              · exact hc2 c hc
              · simp at hc
                rcases hc with hc | hc | hc <;> subst hc <;> simp [D2DCall.isSlowPathCall]
            · rw [hcnt3 _ _ (D2DCall.DrawImage img2 ⟨0, 0⟩ (some r) i m) rfl]
              exact hle
            · intro h
              rw [hcnt3 _ _ (D2DCall.DrawImage img2 ⟨0, 0⟩ (some r) i m) rfl]
              exact hzero h
            · intro _ _
              rw [hcnt3 _ _ (D2DCall.DrawImage img2 ⟨0, 0⟩ (some r) i m) rfl]
              exact hcount

/-- The slow path logs only slow-path calls, drawing with the interpolation mode of
the worker and the composite mode it resolved, no `DrawBitmap` among them, and ends
with the device context state it started from; it calls the colour-matrix
`CreateEffect` at most once, never when the opacity is at least one, and exactly when
the opacity is below one once it has got as far as the opacity stage. -/
theorem DrawImageSlowPath_logged (self : DrawImageWorker) (w : World)
    (image : ICanvasImage) (composite : Option CanvasComposite) :
    ∃ new, (self.DrawImageSlowPath w image composite).2 = w.logged new ∧
      (∀ c ∈ new, c.isDrawBitmap = false) ∧
      (∀ mode, DrawImageWorker.d2dCompositeMode w composite = Except.ok mode →
        ∀ c ∈ new, c.isSlowPathCall self.m_interpolation.toD2D mode = true) ∧
      new.count (D2DCall.CreateEffect CLSID.D2D1ColorMatrix) ≤ 1 ∧
      (self.m_opacity ≥ 1 → new.count (D2DCall.CreateEffect CLSID.D2D1ColorMatrix) = 0) ∧
      (∀ img mode, image.GetD2DImage = Except.ok img →
        DrawImageWorker.d2dCompositeMode w composite = Except.ok mode →
        (self.m_offset.isSome = true ∨
          (self.m_destinationRect.isSome = true ∧ self.m_sourceRect.isSome = true ∧
            (self.MaybeAdjustD2DSourceRect w img).1 = Outcome.ok)) →
        new.count (D2DCall.CreateEffect CLSID.D2D1ColorMatrix) =
          (if self.m_opacity ≥ 1 then 0 else 1)) := by
  unfold DrawImageWorker.DrawImageSlowPath
  cases hi : image.GetD2DImage with
  | error hr =>
    exact ⟨[], by simp [World.logged_nil], by simp, by simp, by simp, by simp, by simp⟩
  | ok img =>
    cases hm : DrawImageWorker.d2dCompositeMode w composite with
    | error e =>
      exact ⟨[], by simp [World.logged_nil], by simp, by simp, by simp, by simp, by simp⟩
    | ok mode =>
      simp only
      cases ho : self.m_offset with
      | some offset =>
        obtain ⟨new, h1, h2, h3⟩ :=
          DrawImageAtOffset_logged self w img offset self.m_interpolation.toD2D mode
        refine ⟨new, h1, ?_, ?_, ?_, ?_, ?_⟩
        · exact fun c hc => not_isDrawBitmap_of_isSlowPathCall _ _ c (h2 c hc)
        · intro mode1 hm1
          cases hm1
          exact h2
        · rw [h3]
          split <;> omega
        · intro h
          rw [h3]
          simp [h]
        · intro img1 mode1 _ _ _
          exact h3
      | none =>
        cases hd : self.m_destinationRect with
        | none =>
          exact ⟨[], by simp [World.logged_nil], by simp, by simp, by simp, by simp,
            by simp⟩
        | some destinationRect =>
          obtain ⟨new, h1, h2, h3, h4, h5⟩ :=
            DrawImageToRect_logged self w img destinationRect self.m_interpolation.toD2D mode
          refine ⟨new, h1, ?_, ?_, h3, h4, ?_⟩
          · exact fun c hc => not_isDrawBitmap_of_isSlowPathCall _ _ c (h2 c hc)
          · intro mode1 hm1
            cases hm1
            exact h2
          · intro img1 mode1 hi1 _ hreach
            cases hi1
            rcases hreach with hreach | ⟨_, hs, ha⟩
            · simp at hreach
            · exact h5 hs ha

/-- The bitmap-blit path logs at most one call, a `DrawBitmap`, and leaves the device
context state alone. -/
theorem DrawBitmap_logged (self : DrawImageWorker) (w : World) (b : ICanvasBitmap)
    (perspective : Option Matrix4x4) :
    ∃ new, (self.DrawBitmap w b perspective).2 = w.logged new ∧
      (∀ c ∈ new, c.isDrawBitmap = true) ∧ new.length ≤ 1 ∧
      new.count (D2DCall.CreateEffect CLSID.D2D1ColorMatrix) = 0 := by
  unfold DrawImageWorker.DrawBitmap ThrowIfFailed
  by_cases hr : b.result = HRESULT.S_OK
  · cases hd : self.CalculateDestRect w b.d2dBitmap with
    | none => exact ⟨[], by simp [hr, World.logged_nil], by simp, by simp, by simp⟩
    | some d =>
      refine ⟨[D2DCall.DrawBitmap b.d2dBitmap d self.m_opacity self.m_interpolation.toD2D
        self.GetD2DSourceRect perspective], ?_, ?_, ?_, ?_⟩
      · simp [hr, World.call_eq_logged]
      · simp [D2DCall.isDrawBitmap]
      · simp
      · simp
  · exact ⟨[], by simp [hr, World.logged_nil], by simp, by simp, by simp⟩

/-! ### From the entry points to the worker -/

theorem Constructor_eq_ofArguments (device : ICanvasDevice) (offset : Option Vector2)
    (destinationRect sourceRect : Option Rect) (opacity : ℚ)
    (interpolation : CanvasImageInterpolation)
    (h : offset.isSome = true ∨ destinationRect.isSome = true) :
    DrawImageWorker.Constructor device offset destinationRect sourceRect opacity
        interpolation =
      some (DrawImageWorker.ofArguments device offset destinationRect sourceRect opacity
        interpolation) := by
  unfold DrawImageWorker.Constructor DrawImageWorker.ofArguments
  rcases h with h | h
  · cases offset <;> simp_all
  · cases destinationRect <;> simp_all

theorem GetDevice_open (s : CanvasDrawingSession) (w : World) (dc : ID2D1DeviceContext1)
    (hopen : s.resource = some dc) :
    ∃ device, s.GetDevice w = (Except.ok device, { s with m_owner := some device }) := by
  unfold CanvasDrawingSession.GetDevice CanvasDrawingSession.GetResource
  cases ho : s.m_owner with
  | some owner =>
    refine ⟨owner, ?_⟩
    simp only [Prod.mk.injEq, true_and]
    cases s
    simp_all
  | none => exact ⟨⟨w.d2d.device⟩, by simp [hopen]⟩

/-- On an open session, with an image and with an offset or a destination rectangle,
`DrawImageImpl` is `DrawImageWorker::DrawImage` of the worker built from its arguments;
the session changes at most in its owner reference. -/
theorem DrawImageImpl_open (s : CanvasDrawingSession) (w : World) (dc : ID2D1DeviceContext1)
    (hopen : s.resource = some dc) (img : ICanvasImage) (offset : Option Vector2)
    (destinationRect sourceRect : Option Rect) (opacity : ℚ)
    (interpolation : CanvasImageInterpolation) (composite : Option CanvasComposite)
    (h : offset.isSome = true ∨ destinationRect.isSome = true) :
    ∃ device,
      s.DrawImageImpl w (some img) offset destinationRect sourceRect opacity interpolation
          composite =
        ⟨((DrawImageWorker.ofArguments device offset destinationRect sourceRect opacity
            interpolation).DrawImage w img composite).1, none,
          { s with m_owner := some device },
          ((DrawImageWorker.ofArguments device offset destinationRect sourceRect opacity
            interpolation).DrawImage w img composite).2⟩ := by
  obtain ⟨device, hd⟩ := GetDevice_open s w dc hopen
  refine ⟨device, ?_⟩
  unfold CanvasDrawingSession.DrawImageImpl CanvasDrawingSession.GetResource
  simp only [hopen, hd]
  rw [Constructor_eq_ofArguments device offset destinationRect sourceRect opacity
    interpolation h]

/-- On an open session, with a bitmap and with an offset or a destination rectangle,
`DrawBitmapImpl` is `DrawImageWorker::DrawBitmap` of the worker built from its
arguments; the session changes at most in its owner reference. -/
theorem DrawBitmapImpl_open (s : CanvasDrawingSession) (w : World) (dc : ID2D1DeviceContext1)
    (hopen : s.resource = some dc) (bitmap : ICanvasBitmap) (offset : Option Vector2)
    (destinationRect sourceRect : Option Rect) (opacity : ℚ)
    (interpolation : CanvasImageInterpolation) (perspective : Option Matrix4x4)
    (h : offset.isSome = true ∨ destinationRect.isSome = true) :
    ∃ device,
      s.DrawBitmapImpl w (some bitmap) offset destinationRect sourceRect opacity
          interpolation perspective =
        ⟨((DrawImageWorker.ofArguments device offset destinationRect sourceRect opacity
            interpolation).DrawBitmap w bitmap perspective).1, none,
          { s with m_owner := some device },
          ((DrawImageWorker.ofArguments device offset destinationRect sourceRect opacity
            interpolation).DrawBitmap w bitmap perspective).2⟩ := by
  obtain ⟨device, hd⟩ := GetDevice_open s w dc hopen
  refine ⟨device, ?_⟩
  unfold CanvasDrawingSession.DrawBitmapImpl CanvasDrawingSession.GetResource
  simp only [hopen, hd]
  rw [Constructor_eq_ofArguments device offset destinationRect sourceRect opacity
    interpolation h]

/-- Whatever the session and the arguments, `DrawImageImpl` either fails before the
worker runs, leaving the world as it was, or is the worker's `DrawImage`. -/
theorem DrawImageImpl_cases (s : CanvasDrawingSession) (w : World)
    (image : Option ICanvasImage) (offset : Option Vector2)
    (destinationRect sourceRect : Option Rect) (opacity : ℚ)
    (interpolation : CanvasImageInterpolation) (composite : Option CanvasComposite) :
    ((s.DrawImageImpl w image offset destinationRect sourceRect opacity interpolation
        composite).world = w ∧
      (s.DrawImageImpl w image offset destinationRect sourceRect opacity interpolation
        composite).outcome ≠ Outcome.ok) ∨
    ∃ img device, image = some img ∧ s.resource.isSome = true ∧
      (s.DrawImageImpl w image offset destinationRect sourceRect opacity interpolation
        composite).outcome =
        ((DrawImageWorker.ofArguments device offset destinationRect sourceRect opacity
          interpolation).DrawImage w img composite).1 ∧
      (s.DrawImageImpl w image offset destinationRect sourceRect opacity interpolation
        composite).world =
        ((DrawImageWorker.ofArguments device offset destinationRect sourceRect opacity
          interpolation).DrawImage w img composite).2 := by
  cases hres : s.resource with
  | none =>
    left
    rw [DrawImageImpl_closed s w hres]
    exact ⟨rfl, by simp [Ret.closed]⟩
  | some dc =>
    cases image with
    | none =>
      left
      simp [CanvasDrawingSession.DrawImageImpl, CanvasDrawingSession.GetResource, hres]
    | some img =>
      by_cases h : offset.isSome = true ∨ destinationRect.isSome = true
      · right
        obtain ⟨device, hd⟩ := DrawImageImpl_open s w dc hres img offset destinationRect
          sourceRect opacity interpolation composite h
        exact ⟨img, device, rfl, rfl, by rw [hd], by rw [hd]⟩
      · left
        obtain ⟨device, hd⟩ := GetDevice_open s w dc hres
        have hc : DrawImageWorker.Constructor device offset destinationRect sourceRect
            opacity interpolation = none := by
          unfold DrawImageWorker.Constructor
          cases offset <;> cases destinationRect <;> simp_all
        unfold CanvasDrawingSession.DrawImageImpl CanvasDrawingSession.GetResource
        simp [hres, hd, hc]

/-- Whatever the session and the arguments, `DrawBitmapImpl` either fails before the
worker runs, leaving the world as it was, or is the worker's `DrawBitmap`. -/
theorem DrawBitmapImpl_cases (s : CanvasDrawingSession) (w : World)
    (bitmap : Option ICanvasBitmap) (offset : Option Vector2)
    (destinationRect sourceRect : Option Rect) (opacity : ℚ)
    (interpolation : CanvasImageInterpolation) (perspective : Option Matrix4x4) :
    ((s.DrawBitmapImpl w bitmap offset destinationRect sourceRect opacity interpolation
        perspective).world = w ∧
      (s.DrawBitmapImpl w bitmap offset destinationRect sourceRect opacity interpolation
        perspective).outcome ≠ Outcome.ok) ∨
    ∃ b device, bitmap = some b ∧ s.resource.isSome = true ∧
      (s.DrawBitmapImpl w bitmap offset destinationRect sourceRect opacity interpolation
        perspective).outcome =
        ((DrawImageWorker.ofArguments device offset destinationRect sourceRect opacity
          interpolation).DrawBitmap w b perspective).1 ∧
      (s.DrawBitmapImpl w bitmap offset destinationRect sourceRect opacity interpolation
        perspective).world =
        ((DrawImageWorker.ofArguments device offset destinationRect sourceRect opacity
          interpolation).DrawBitmap w b perspective).2 := by
  cases hres : s.resource with
  | none =>
    left
    rw [DrawBitmapImpl_closed s w hres]
    exact ⟨rfl, by simp [Ret.closed]⟩
  | some dc =>
    cases bitmap with
    | none =>
      left
      simp [CanvasDrawingSession.DrawBitmapImpl, CanvasDrawingSession.GetResource, hres]
    | some b =>
      by_cases h : offset.isSome = true ∨ destinationRect.isSome = true
      · right
        obtain ⟨device, hd⟩ := DrawBitmapImpl_open s w dc hres b offset destinationRect
          sourceRect opacity interpolation perspective h
        exact ⟨b, device, rfl, rfl, by rw [hd], by rw [hd]⟩
      · left
        obtain ⟨device, hd⟩ := GetDevice_open s w dc hres
        have hc : DrawImageWorker.Constructor device offset destinationRect sourceRect
            opacity interpolation = none := by
          unfold DrawImageWorker.Constructor
          cases offset <;> cases destinationRect <;> simp_all
        unfold CanvasDrawingSession.DrawBitmapImpl CanvasDrawingSession.GetResource
        simp [hres, hd, hc]

theorem DrawImage_of_takesBitmapPath (self : DrawImageWorker) (w : World)
    (image : ICanvasImage) (composite : Option CanvasComposite)
    (h : self.takesBitmapPath w image composite = true) :
    ∃ b, image = ICanvasImage.bitmap b ∧
      self.DrawImage w image composite = self.DrawBitmap w b none := by
  unfold DrawImageWorker.takesBitmapPath at h
  unfold DrawImageWorker.DrawImage
  cases image with
  | bitmap b =>
    refine ⟨b, rfl, ?_⟩
    simp only [ICanvasImage.MaybeAsBitmapInternal, Option.isSome_some, Bool.true_and] at h ⊢
    simp [h]
  | image i r => simp [ICanvasImage.MaybeAsBitmapInternal] at h

theorem DrawImage_of_not_takesBitmapPath (self : DrawImageWorker) (w : World)
    (image : ICanvasImage) (composite : Option CanvasComposite)
    (h : self.takesBitmapPath w image composite = false) :
    self.DrawImage w image composite = self.DrawImageSlowPath w image composite := by
  unfold DrawImageWorker.takesBitmapPath at h
  unfold DrawImageWorker.DrawImage
  cases image with
  | bitmap b =>
    simp only [ICanvasImage.MaybeAsBitmapInternal, Option.isSome_some, Bool.true_and] at h ⊢
    simp [h]
  | image i r => simp [ICanvasImage.MaybeAsBitmapInternal]

/-! ### The bitmap-blit path -/

/-- The fast-path condition of `DrawImage`, spelled out: the image is a bitmap, the
primitive blend is one of the three with a matching composite mode and the override,
if any, is that mode, and the interpolation is linear or nearest neighbour. -/
theorem takesBitmapPath_iff (self : DrawImageWorker) (w : World) (image : ICanvasImage)
    (composite : Option CanvasComposite) :
    self.takesBitmapPath w image composite = true ↔
      (∃ b, image = ICanvasImage.bitmap b) ∧
      ((w.d2d.primitiveBlend = D2D1_PRIMITIVE_BLEND.SOURCE_OVER ∧
          (composite = none ∨ composite = some CanvasComposite.SourceOver)) ∨
        (w.d2d.primitiveBlend = D2D1_PRIMITIVE_BLEND.COPY ∧
          (composite = none ∨ composite = some CanvasComposite.Copy)) ∨
        (w.d2d.primitiveBlend = D2D1_PRIMITIVE_BLEND.ADD ∧
          (composite = none ∨ composite = some CanvasComposite.Add))) ∧
      (self.m_interpolation = CanvasImageInterpolation.Linear ∨
        self.m_interpolation = CanvasImageInterpolation.NearestNeighbor) := by
  unfold DrawImageWorker.takesBitmapPath DrawImageWorker.IsValidDrawBitmapCompositeMode
    DrawImageWorker.IsValidDrawBitmapInterpolationMode
  cases image with
  | bitmap b =>
    cases hb : w.d2d.primitiveBlend <;> cases composite <;>
      simp [ICanvasImage.MaybeAsBitmapInternal]
  | image i r => simp [ICanvasImage.MaybeAsBitmapInternal]

/-- The destination rectangle `CalculateDestRect` computes for the worker built from
the arguments of a draw. -/
theorem CalculateDestRect_ofArguments (device : ICanvasDevice) (offset : Option Vector2)
    (destinationRect sourceRect : Option Rect) (opacity : ℚ)
    (interpolation : CanvasImageInterpolation) (w : World) (bitmap : ID2D1Bitmap) :
    (∀ D, destinationRect = some D →
      (DrawImageWorker.ofArguments device offset destinationRect sourceRect opacity
        interpolation).CalculateDestRect w bitmap = some (ToD2DRect D)) ∧
    (∀ O S, destinationRect = none → offset = some O → sourceRect = some S →
      (DrawImageWorker.ofArguments device offset destinationRect sourceRect opacity
        interpolation).CalculateDestRect w bitmap =
        some ⟨O.X, O.Y, O.X + S.Width, O.Y + S.Height⟩) ∧
    (∀ O, destinationRect = none → offset = some O → sourceRect = none →
      w.d2d.unitMode = D2D1_UNIT_MODE.DIPS →
      (DrawImageWorker.ofArguments device offset destinationRect sourceRect opacity
        interpolation).CalculateDestRect w bitmap =
        some ⟨O.X, O.Y, O.X + bitmap.size.width, O.Y + bitmap.size.height⟩) ∧
    (∀ O, destinationRect = none → offset = some O → sourceRect = none →
      w.d2d.unitMode = D2D1_UNIT_MODE.PIXELS →
      (DrawImageWorker.ofArguments device offset destinationRect sourceRect opacity
        interpolation).CalculateDestRect w bitmap =
        some ⟨O.X, O.Y, O.X + (bitmap.pixelWidth : ℚ), O.Y + (bitmap.pixelHeight : ℚ)⟩) := by
  unfold DrawImageWorker.CalculateDestRect DrawImageWorker.ofArguments GetBitmapSize
  refine ⟨?_, ?_, ?_, ?_⟩
  · intro D hD
    simp [hD]
  · intro O S hD hO hS
    simp [hD, hO, hS]
  · intro O hD hO hS hu
    simp [hD, hO, hS, hu]
  · intro O hD hO hS hu
    simp [hD, hO, hS, hu]

theorem CalculateDestRect_isSome (device : ICanvasDevice) (offset : Option Vector2)
    (destinationRect sourceRect : Option Rect) (opacity : ℚ)
    (interpolation : CanvasImageInterpolation) (w : World) (bitmap : ID2D1Bitmap)
    (harg : offset.isSome = true ∨ destinationRect.isSome = true)
    (hunit : w.d2d.unitMode = D2D1_UNIT_MODE.DIPS ∨ w.d2d.unitMode = D2D1_UNIT_MODE.PIXELS) :
    ∃ d, (DrawImageWorker.ofArguments device offset destinationRect sourceRect opacity
      interpolation).CalculateDestRect w bitmap = some d := by
  cases destinationRect with
  | some D =>
    exact ⟨_, (CalculateDestRect_ofArguments device offset (some D) sourceRect opacity
      interpolation w bitmap).1 D rfl⟩
  | none =>
    cases offset with
    | none => simp at harg
    | some O =>
      cases sourceRect with
      | some S =>
        exact ⟨_, (CalculateDestRect_ofArguments device (some O) none (some S) opacity
          interpolation w bitmap).2.1 O S rfl rfl rfl⟩
      | none =>
        rcases hunit with hu | hu
        · exact ⟨_, (CalculateDestRect_ofArguments device (some O) none none opacity
            interpolation w bitmap).2.2.1 O rfl rfl rfl hu⟩
        · exact ⟨_, (CalculateDestRect_ofArguments device (some O) none none opacity
            interpolation w bitmap).2.2.2 O rfl rfl rfl hu⟩

/-- The bitmap-blit path with a bitmap that can be realized and a destination
rectangle that can be computed: one `DrawBitmap`, everything passed through. -/
theorem DrawBitmap_eq (self : DrawImageWorker) (w : World) (b : ICanvasBitmap)
    (perspective : Option Matrix4x4) (d : D2D1_RECT_F) (hreal : b.result = HRESULT.S_OK)
    (hd : self.CalculateDestRect w b.d2dBitmap = some d) :
    self.DrawBitmap w b perspective =
      (Outcome.ok, w.call (D2DCall.DrawBitmap b.d2dBitmap d self.m_opacity
        self.m_interpolation.toD2D self.GetD2DSourceRect perspective)) := by
  unfold DrawImageWorker.DrawBitmap ThrowIfFailed
  simp [hreal, hd]

theorem GetD2DSourceRect_ofArguments (device : ICanvasDevice) (offset : Option Vector2)
    (destinationRect sourceRect : Option Rect) (opacity : ℚ)
    (interpolation : CanvasImageInterpolation) :
    (DrawImageWorker.ofArguments device offset destinationRect sourceRect opacity
      interpolation).GetD2DSourceRect = sourceRect.map ToD2DRect := by
  unfold DrawImageWorker.GetD2DSourceRect DrawImageWorker.ofArguments
  cases sourceRect <;> rfl

theorem World.callsSince_self (w : World) : w.callsSince w = [] := by
  simp [World.callsSince]

/-- C11: for a draw made through `DrawImageImpl` (which every image-typed entry point
calls, with an offset or a destination rectangle) on an open session, with a bitmap
that can be realized and the unit mode DIPs or pixels: the calls made on the device
context are exactly one `DrawBitmap` (so no `DrawImage`, no `CreateEffect`) if and only
if the source is a bitmap, the primitive blend is SourceOver, Copy or Add, the
composite override is absent or is the mode of that blend, and the interpolation is
Linear or NearestNeighbor; the draw then succeeds; otherwise no `DrawBitmap` is
issued at all. -/
theorem C11_fast_path_iff_eligible (s : CanvasDrawingSession) (w : World)
    (dc : ID2D1DeviceContext1) (hopen : s.resource = some dc)
    (image : Option ICanvasImage) (offset : Option Vector2)
    (destinationRect sourceRect : Option Rect) (opacity : ℚ)
    (interpolation : CanvasImageInterpolation) (composite : Option CanvasComposite)
    (harg : offset.isSome = true ∨ destinationRect.isSome = true)
    (hreal : ∀ b, image = some (ICanvasImage.bitmap b) → b.result = HRESULT.S_OK)
    (hunit : w.d2d.unitMode = D2D1_UNIT_MODE.DIPS ∨ w.d2d.unitMode = D2D1_UNIT_MODE.PIXELS) :
    ((∃ c, w.callsSince (s.DrawImageImpl w image offset destinationRect sourceRect opacity
          interpolation composite).world = [c] ∧ c.isDrawBitmap = true) ↔
      ((∃ b, image = some (ICanvasImage.bitmap b)) ∧
        ((w.d2d.primitiveBlend = D2D1_PRIMITIVE_BLEND.SOURCE_OVER ∧
            (composite = none ∨ composite = some CanvasComposite.SourceOver)) ∨
          (w.d2d.primitiveBlend = D2D1_PRIMITIVE_BLEND.COPY ∧
            (composite = none ∨ composite = some CanvasComposite.Copy)) ∨
          (w.d2d.primitiveBlend = D2D1_PRIMITIVE_BLEND.ADD ∧
            (composite = none ∨ composite = some CanvasComposite.Add))) ∧
        (interpolation = CanvasImageInterpolation.Linear ∨
          interpolation = CanvasImageInterpolation.NearestNeighbor))) ∧
    ((∃ c, w.callsSince (s.DrawImageImpl w image offset destinationRect sourceRect opacity
          interpolation composite).world = [c] ∧ c.isDrawBitmap = true) →
      (s.DrawImageImpl w image offset destinationRect sourceRect opacity interpolation
        composite).outcome = Outcome.ok) ∧
    ((¬ ∃ c, w.callsSince (s.DrawImageImpl w image offset destinationRect sourceRect opacity
          interpolation composite).world = [c] ∧ c.isDrawBitmap = true) →
      ∀ c ∈ w.callsSince (s.DrawImageImpl w image offset destinationRect sourceRect opacity
          interpolation composite).world, c.isDrawBitmap = false) := by
  cases image with
  | none =>
    have hw : (s.DrawImageImpl w none offset destinationRect sourceRect opacity
        interpolation composite).world = w := by
      simp [CanvasDrawingSession.DrawImageImpl, CanvasDrawingSession.GetResource, hopen]
    rw [hw, World.callsSince_self]
    simp
  | some img =>
    obtain ⟨device, hd⟩ := DrawImageImpl_open s w dc hopen img offset destinationRect
      sourceRect opacity interpolation composite harg
    rw [hd]
    simp only
    have hiff := takesBitmapPath_iff (DrawImageWorker.ofArguments device offset
      destinationRect sourceRect opacity interpolation) w img composite
    by_cases ht : (DrawImageWorker.ofArguments device offset destinationRect sourceRect
        opacity interpolation).takesBitmapPath w img composite = true
    · obtain ⟨b, hb, he⟩ := DrawImage_of_takesBitmapPath _ w img composite ht
      obtain ⟨d, hdest⟩ := CalculateDestRect_isSome device offset destinationRect sourceRect
        opacity interpolation w b.d2dBitmap harg hunit
      rw [he, DrawBitmap_eq _ w b none d (hreal b (by rw [hb])) hdest]
      simp only [World.call_eq_logged, World.callsSince_logged]
      have hex : ∃ c, [D2DCall.DrawBitmap b.d2dBitmap d
          (DrawImageWorker.ofArguments device offset destinationRect sourceRect opacity
            interpolation).m_opacity
          (DrawImageWorker.ofArguments device offset destinationRect sourceRect opacity
            interpolation).m_interpolation.toD2D
          (DrawImageWorker.ofArguments device offset destinationRect sourceRect opacity
            interpolation).GetD2DSourceRect none] = [c] ∧ c.isDrawBitmap = true :=
        ⟨_, rfl, rfl⟩
      refine ⟨⟨fun _ => ?_, fun _ => hex⟩, fun _ => trivial, fun h => absurd hex h⟩
      obtain ⟨h1, h2, h3⟩ := hiff.1 ht
      exact ⟨⟨b, by rw [hb]⟩, h2, h3⟩
    · have hf : (DrawImageWorker.ofArguments device offset destinationRect sourceRect
          opacity interpolation).takesBitmapPath w img composite = false := by
        simpa using ht
      rw [DrawImage_of_not_takesBitmapPath _ w img composite hf]
      obtain ⟨new, h1, h2, -⟩ := DrawImageSlowPath_logged (DrawImageWorker.ofArguments device
        offset destinationRect sourceRect opacity interpolation) w img composite
      rw [h1, World.callsSince_logged]
      have hno : ¬ ∃ c, new = [c] ∧ c.isDrawBitmap = true := by
        rintro ⟨c, hc, hcb⟩
        have := h2 c (by rw [hc]; simp)
        rw [this] at hcb
        exact Bool.false_ne_true hcb
      refine ⟨⟨fun h => absurd h hno, fun h => ?_⟩, fun h => absurd h hno, fun _ => h2⟩
      obtain ⟨⟨b, hb⟩, h2, h3⟩ := h
      exact absurd (hiff.2 ⟨⟨b, by simpa using hb⟩, h2, h3⟩) ht

/-- C11 at a concrete draw: `sampleSession` draws the realizable `sampleBitmap` to a
rectangle with the defaults (blend SourceOver, no override, Linear); the only call
made is one `DrawBitmap`. -/
theorem C11_fast_path_iff_eligible_witness :
    sampleSession.resource = some ⟨7⟩ ∧
    sampleBitmap.result = HRESULT.S_OK ∧
    sampleOpenWorld.d2d.unitMode = D2D1_UNIT_MODE.DIPS ∧
    ∃ c, sampleOpenWorld.callsSince (sampleSession.DrawImageImpl sampleOpenWorld
        (some (ICanvasImage.bitmap sampleBitmap)) none (some ⟨0, 0, 128, 128⟩)
        (some ⟨0, 0, 64, 64⟩) 1 CanvasImageInterpolation.Linear none).world = [c] ∧
      c.isDrawBitmap = true :=
  ⟨rfl, rfl, rfl,
    (C11_fast_path_iff_eligible sampleSession sampleOpenWorld ⟨7⟩ rfl
      (some (ICanvasImage.bitmap sampleBitmap)) none (some ⟨0, 0, 128, 128⟩)
      (some ⟨0, 0, 64, 64⟩) 1 CanvasImageInterpolation.Linear none (Or.inr rfl)
      (fun b hb => by cases hb; rfl) (Or.inl rfl)).1.2
      ⟨⟨sampleBitmap, rfl⟩, Or.inl ⟨rfl, Or.inl rfl⟩, Or.inl rfl⟩⟩

/-- C12, as stated, fails: the perspective entry point, called on `sampleSession` with
the interpolation mode Cubic, issues a `DrawBitmap` call, with the mode `CUBIC`. -/
theorem C12_perspective_draw_counterexample :
    CanvasImageInterpolation.Cubic ≠ CanvasImageInterpolation.Linear ∧
    CanvasImageInterpolation.Cubic ≠ CanvasImageInterpolation.NearestNeighbor ∧
    sampleOpenWorld.callsSince
      (sampleSession.DrawImageAtOffsetWithSourceRectAndOpacityAndInterpolationAndPerspective
        sampleOpenWorld (some sampleBitmap) ⟨0, 0⟩ ⟨0, 0, 64, 64⟩ 1
        CanvasImageInterpolation.Cubic ⟨[]⟩).world =
      [D2DCall.DrawBitmap sampleBitmap.d2dBitmap ⟨0, 0, 64, 64⟩ 1
        D2D1_INTERPOLATION_MODE.CUBIC (some ⟨0, 0, 64, 64⟩) (some ⟨[]⟩)] := by
  refine ⟨by decide, by decide, ?_⟩
  obtain ⟨device, hd⟩ := DrawBitmapImpl_open sampleSession sampleOpenWorld ⟨7⟩ rfl sampleBitmap
    (some ⟨0, 0⟩) none (some ⟨0, 0, 64, 64⟩) 1 CanvasImageInterpolation.Cubic (some ⟨[]⟩)
    (Or.inl rfl)
  unfold CanvasDrawingSession.DrawImageAtOffsetWithSourceRectAndOpacityAndInterpolationAndPerspective
  rw [hd, DrawBitmap_eq _ _ _ _ _ rfl
    ((CalculateDestRect_ofArguments device (some ⟨0, 0⟩) none (some ⟨0, 0, 64, 64⟩) 1
      CanvasImageInterpolation.Cubic sampleOpenWorld sampleBitmap.d2dBitmap).2.1
      ⟨0, 0⟩ ⟨0, 0, 64, 64⟩ rfl rfl rfl)]
  simp only [World.call_eq_logged, World.callsSince_logged, GetD2DSourceRect_ofArguments]
  simp [DrawImageWorker.ofArguments, CanvasImageInterpolation.toD2D, ToD2DRect]

/-- C12, amended: with an interpolation mode other than Linear and NearestNeighbor, a
draw through `DrawImageImpl` (every image-typed entry point), whatever the session and
the other arguments, issues no `DrawBitmap` call; a draw through `DrawBitmapImpl`
(the bitmap-typed entry points: `DrawImageToRect` and the perspective variants) on an
open session, with a bitmap that can be realized, succeeds with exactly one
`DrawBitmap` call, to which the requested interpolation mode is passed. -/
theorem C12_only_image_entry_points_avoid_DrawBitmap (s : CanvasDrawingSession) (w : World)
    (offset : Option Vector2) (destinationRect sourceRect : Option Rect) (opacity : ℚ)
    (interpolation : CanvasImageInterpolation)
    (hlinear : interpolation ≠ CanvasImageInterpolation.Linear)
    (hnearest : interpolation ≠ CanvasImageInterpolation.NearestNeighbor) :
    (∀ (image : Option ICanvasImage) (composite : Option CanvasComposite),
      ∀ c ∈ w.callsSince (s.DrawImageImpl w image offset destinationRect sourceRect opacity
        interpolation composite).world, c.isDrawBitmap = false) ∧
    (∀ (dc : ID2D1DeviceContext1) (b : ICanvasBitmap) (perspective : Option Matrix4x4),
      s.resource = some dc → b.result = HRESULT.S_OK →
      (offset.isSome = true ∨ destinationRect.isSome = true) →
      (w.d2d.unitMode = D2D1_UNIT_MODE.DIPS ∨ w.d2d.unitMode = D2D1_UNIT_MODE.PIXELS) →
      ∃ d, (s.DrawBitmapImpl w (some b) offset destinationRect sourceRect opacity
          interpolation perspective).outcome = Outcome.ok ∧
        w.callsSince (s.DrawBitmapImpl w (some b) offset destinationRect sourceRect opacity
          interpolation perspective).world =
          [D2DCall.DrawBitmap b.d2dBitmap d opacity interpolation.toD2D
            (sourceRect.map ToD2DRect) perspective]) := by
  refine ⟨?_, ?_⟩
  · intro image composite
    rcases DrawImageImpl_cases s w image offset destinationRect sourceRect opacity
      interpolation composite with ⟨hw, -⟩ | ⟨img, device, -, -, -, hw⟩
    · rw [hw, World.callsSince_self]
      simp
    · rw [hw]
      have hf : (DrawImageWorker.ofArguments device offset destinationRect sourceRect
          opacity interpolation).takesBitmapPath w img composite = false := by
        by_contra hne
        have ht : (DrawImageWorker.ofArguments device offset destinationRect sourceRect
            opacity interpolation).takesBitmapPath w img composite = true := by
          simpa using hne
        obtain ⟨-, -, h3⟩ := (takesBitmapPath_iff _ w img composite).1 ht
        rcases h3 with h3 | h3
        · exact hlinear h3
        · exact hnearest h3
      rw [DrawImage_of_not_takesBitmapPath _ w img composite hf]
      obtain ⟨new, h1, h2, -⟩ := DrawImageSlowPath_logged (DrawImageWorker.ofArguments device
        offset destinationRect sourceRect opacity interpolation) w img composite
      rw [h1, World.callsSince_logged]
      exact h2
  · intro dc b perspective hopen hreal harg hunit
    obtain ⟨device, hd⟩ := DrawBitmapImpl_open s w dc hopen b offset destinationRect
      sourceRect opacity interpolation perspective harg
    obtain ⟨d, hdest⟩ := CalculateDestRect_isSome device offset destinationRect sourceRect
      opacity interpolation w b.d2dBitmap harg hunit
    refine ⟨d, ?_, ?_⟩
    · rw [hd, DrawBitmap_eq _ w b perspective d hreal hdest]
    · rw [hd, DrawBitmap_eq _ w b perspective d hreal hdest]
      simp only [World.call_eq_logged, World.callsSince_logged,
        GetD2DSourceRect_ofArguments]
      rfl

/-- C12 amended, at a concrete draw: with the mode Cubic, `sampleSession` drawing
`sampleBitmap` through the image-typed `DrawImageImpl` issues no `DrawBitmap`. -/
theorem C12_only_image_entry_points_avoid_DrawBitmap_witness :
    CanvasImageInterpolation.Cubic ≠ CanvasImageInterpolation.Linear ∧
    CanvasImageInterpolation.Cubic ≠ CanvasImageInterpolation.NearestNeighbor ∧
    ∀ c ∈ sampleOpenWorld.callsSince (sampleSession.DrawImageImpl sampleOpenWorld
        (some (ICanvasImage.bitmap sampleBitmap)) (some ⟨0, 0⟩) none (some ⟨0, 0, 64, 64⟩) 1
        CanvasImageInterpolation.Cubic none).world, c.isDrawBitmap = false :=
  ⟨by decide, by decide,
    (C12_only_image_entry_points_avoid_DrawBitmap sampleSession sampleOpenWorld
      (some ⟨0, 0⟩) none (some ⟨0, 0, 64, 64⟩) 1 CanvasImageInterpolation.Cubic
      (by decide) (by decide)).1 (some (ICanvasImage.bitmap sampleBitmap)) none⟩

/-! ### The composite mode of the slow path -/

theorem DrawImageSlowPath_of_error (self : DrawImageWorker) (w : World)
    (image : ICanvasImage) (composite : Option CanvasComposite) (img : ID2D1Image)
    (failure : Outcome) (hreal : image.GetD2DImage = Except.ok img)
    (hmode : DrawImageWorker.d2dCompositeMode w composite = Except.error failure) :
    self.DrawImageSlowPath w image composite = (failure, w) := by
  unfold DrawImageWorker.DrawImageSlowPath
  simp [hreal, hmode]

theorem DrawImageSlowPath_at_offset_opaque (self : DrawImageWorker) (w : World)
    (image : ICanvasImage) (composite : Option CanvasComposite) (img : ID2D1Image)
    (mode : D2D1_COMPOSITE_MODE) (offset : Vector2)
    (hreal : image.GetD2DImage = Except.ok img)
    (hmode : DrawImageWorker.d2dCompositeMode w composite = Except.ok mode)
    (hoffset : self.m_offset = some offset) (hopacity : self.m_opacity ≥ 1) :
    self.DrawImageSlowPath w image composite =
      (Outcome.ok, w.call (D2DCall.DrawImage img (ToD2DPoint offset) self.GetD2DSourceRect
        self.m_interpolation.toD2D mode)) := by
  unfold DrawImageWorker.DrawImageSlowPath DrawImageWorker.DrawImageAtOffset
    DrawImageWorker.MaybeApplyOpacityEffect
  simp [hreal, hmode, hoffset, hopacity]

/-- C13: on the slow path, for an image that can be realized, the composite mode is
the override cast to the Direct2D enumeration when one is given, whatever the primitive
blend; without an override it is `SOURCE_OVER`, `SOURCE_COPY` or `PLUS` for the blends
SourceOver, Copy and Add, while for the blend Min the draw fails with `E_FAIL` and the
message `DrawImageMinBlendNotSupported`, and for any other blend value with
`E_UNEXPECTED`, both without a call on the device context.  The mode so resolved is the
one every `DrawImage` call of the slow path is given; for a draw at an offset with
opacity at least one that call is the only call made. -/
theorem C13_slow_path_composite_mode (self : DrawImageWorker) (w : World)
    (image : ICanvasImage) (composite : Option CanvasComposite) (img : ID2D1Image)
    (hreal : image.GetD2DImage = Except.ok img) :
    (∀ c, composite = some c →
      DrawImageWorker.d2dCompositeMode w composite = Except.ok c.toD2D) ∧
    (composite = none → w.d2d.primitiveBlend = D2D1_PRIMITIVE_BLEND.SOURCE_OVER →
      DrawImageWorker.d2dCompositeMode w composite =
        Except.ok D2D1_COMPOSITE_MODE.SOURCE_OVER) ∧
    (composite = none → w.d2d.primitiveBlend = D2D1_PRIMITIVE_BLEND.COPY →
      DrawImageWorker.d2dCompositeMode w composite =
        Except.ok D2D1_COMPOSITE_MODE.SOURCE_COPY) ∧
    (composite = none → w.d2d.primitiveBlend = D2D1_PRIMITIVE_BLEND.ADD →
      DrawImageWorker.d2dCompositeMode w composite = Except.ok D2D1_COMPOSITE_MODE.PLUS) ∧
    (composite = none → w.d2d.primitiveBlend = D2D1_PRIMITIVE_BLEND.MIN →
      self.DrawImageSlowPath w image composite =
        (Outcome.threw HRESULT.E_FAIL (some Strings.DrawImageMinBlendNotSupported), w)) ∧
    (composite = none → ∀ v, w.d2d.primitiveBlend = D2D1_PRIMITIVE_BLEND.other v →
      self.DrawImageSlowPath w image composite =
        (Outcome.threw HRESULT.E_UNEXPECTED none, w)) ∧
    (∀ mode, DrawImageWorker.d2dCompositeMode w composite = Except.ok mode →
      (∀ i o r im cm, D2DCall.DrawImage i o r im cm ∈
          w.callsSince (self.DrawImageSlowPath w image composite).2 → cm = mode) ∧
      (∀ offset, self.m_offset = some offset → self.m_opacity ≥ 1 →
        self.DrawImageSlowPath w image composite =
          (Outcome.ok, w.call (D2DCall.DrawImage img (ToD2DPoint offset)
            self.GetD2DSourceRect self.m_interpolation.toD2D mode)))) := by
  refine ⟨?_, ?_, ?_, ?_, ?_, ?_, ?_⟩
  · intro c hc
    simp [DrawImageWorker.d2dCompositeMode, hc]
  · intro hc hb
    simp [DrawImageWorker.d2dCompositeMode, hc,
      DrawImageWorker.GetCompositeModeFromPrimitiveBlend, hb]
  · intro hc hb
    simp [DrawImageWorker.d2dCompositeMode, hc,
      DrawImageWorker.GetCompositeModeFromPrimitiveBlend, hb]
  · intro hc hb
    simp [DrawImageWorker.d2dCompositeMode, hc,
      DrawImageWorker.GetCompositeModeFromPrimitiveBlend, hb]
  · intro hc hb
    exact DrawImageSlowPath_of_error self w image composite img _ hreal
      (by simp [DrawImageWorker.d2dCompositeMode, hc,
        DrawImageWorker.GetCompositeModeFromPrimitiveBlend, hb])
  · intro hc v hb
    exact DrawImageSlowPath_of_error self w image composite img _ hreal
      (by simp [DrawImageWorker.d2dCompositeMode, hc,
        DrawImageWorker.GetCompositeModeFromPrimitiveBlend, hb])
  · intro mode hmode
    refine ⟨?_, fun offset ho hop =>
      DrawImageSlowPath_at_offset_opaque self w image composite img mode offset hreal hmode
        ho hop⟩
    obtain ⟨new, h1, -, h3, -⟩ := DrawImageSlowPath_logged self w image composite
    rw [h1, World.callsSince_logged]
    intro i o r im cm hmem
    have := h3 mode hmode _ hmem
    simp [D2DCall.isSlowPathCall] at this
    exact this.2

/-- C13 at a concrete draw: with the blend Add and no override, the slow path draws a
realizable effect image at an offset with the composite mode `PLUS`. -/
theorem C13_slow_path_composite_mode_witness :
    sampleEffectImage.GetD2DImage = Except.ok (ID2D1Image.image 5) ∧
    addBlendWorld.d2d.primitiveBlend = D2D1_PRIMITIVE_BLEND.ADD ∧
    (DrawImageWorker.ofArguments ⟨1⟩ (some ⟨0, 0⟩) none none 1
        CanvasImageInterpolation.Linear).DrawImageSlowPath addBlendWorld sampleEffectImage
        none =
      (Outcome.ok, addBlendWorld.call (D2DCall.DrawImage (ID2D1Image.image 5)
        (ToD2DPoint ⟨0, 0⟩)
        (DrawImageWorker.ofArguments ⟨1⟩ (some ⟨0, 0⟩) none none 1
          CanvasImageInterpolation.Linear).GetD2DSourceRect
        (DrawImageWorker.ofArguments ⟨1⟩ (some ⟨0, 0⟩) none none 1
          CanvasImageInterpolation.Linear).m_interpolation.toD2D
        D2D1_COMPOSITE_MODE.PLUS)) :=
  ⟨rfl, rfl,
    ((C13_slow_path_composite_mode
      (DrawImageWorker.ofArguments ⟨1⟩ (some ⟨0, 0⟩) none none 1
        CanvasImageInterpolation.Linear) addBlendWorld sampleEffectImage none
      (ID2D1Image.image 5) rfl).2.2.2.2.2.2 D2D1_COMPOSITE_MODE.PLUS rfl).2 ⟨0, 0⟩ rfl
      (by simp [DrawImageWorker.ofArguments])⟩

/-! ### The primitive blend Min -/

/-- On an open session, with a bitmap that can be realized, an offset or a destination
rectangle, and the unit mode DIPs or pixels, `DrawBitmapImpl` succeeds with exactly one
`DrawBitmap` call, whose destination rectangle is the one `CalculateDestRect` computes;
the primitive blend is not looked at. -/
theorem DrawBitmapImpl_draws (s : CanvasDrawingSession) (w : World) (dc : ID2D1DeviceContext1)
    (hopen : s.resource = some dc) (b : ICanvasBitmap) (offset : Option Vector2)
    (destinationRect sourceRect : Option Rect) (opacity : ℚ)
    (interpolation : CanvasImageInterpolation) (perspective : Option Matrix4x4)
    (harg : offset.isSome = true ∨ destinationRect.isSome = true)
    (hreal : b.result = HRESULT.S_OK)
    (hunit : w.d2d.unitMode = D2D1_UNIT_MODE.DIPS ∨ w.d2d.unitMode = D2D1_UNIT_MODE.PIXELS) :
    ∃ d device,
      (DrawImageWorker.ofArguments device offset destinationRect sourceRect opacity
        interpolation).CalculateDestRect w b.d2dBitmap = some d ∧
      (s.DrawBitmapImpl w (some b) offset destinationRect sourceRect opacity interpolation
        perspective).outcome = Outcome.ok ∧
      w.callsSince (s.DrawBitmapImpl w (some b) offset destinationRect sourceRect opacity
        interpolation perspective).world =
        [D2DCall.DrawBitmap b.d2dBitmap d opacity interpolation.toD2D
          (sourceRect.map ToD2DRect) perspective] := by
  obtain ⟨device, hd⟩ := DrawBitmapImpl_open s w dc hopen b offset destinationRect
    sourceRect opacity interpolation perspective harg
  obtain ⟨d, hdest⟩ := CalculateDestRect_isSome device offset destinationRect sourceRect
    opacity interpolation w b.d2dBitmap harg hunit
  refine ⟨d, device, hdest, ?_, ?_⟩
  · rw [hd, DrawBitmap_eq _ w b perspective d hreal hdest]
  · rw [hd, DrawBitmap_eq _ w b perspective d hreal hdest]
    simp only [World.call_eq_logged, World.callsSince_logged, GetD2DSourceRect_ofArguments]
    rfl

/-- With the primitive blend Min and no composite override, `DrawImageWorker::DrawImage`
throws before any call on the device context: the error of realizing the image, or
`E_FAIL` with the message `DrawImageMinBlendNotSupported`. -/
theorem DrawImage_of_min_blend (self : DrawImageWorker) (w : World) (image : ICanvasImage)
    (hmin : w.d2d.primitiveBlend = D2D1_PRIMITIVE_BLEND.MIN) :
    self.DrawImage w image none =
      ((match image.GetD2DImage with
        | Except.error hr => Outcome.threw hr none
        | Except.ok _ =>
          Outcome.threw HRESULT.E_FAIL (some Strings.DrawImageMinBlendNotSupported)), w) := by
  have hf : self.takesBitmapPath w image none = false := by
    by_contra hne
    have ht : self.takesBitmapPath w image none = true := by simpa using hne
    obtain ⟨-, h2, -⟩ := (takesBitmapPath_iff self w image none).1 ht
    rw [hmin] at h2
    simp at h2
  rw [DrawImage_of_not_takesBitmapPath self w image none hf]
  unfold DrawImageWorker.DrawImageSlowPath
  cases hi : image.GetD2DImage with
  | error hr => rfl
  | ok img =>
    simp [DrawImageWorker.d2dCompositeMode,
      DrawImageWorker.GetCompositeModeFromPrimitiveBlend, hmin]

/-- C14, as stated, fails: with the primitive blend Min, `DrawImageToRect(bitmap, rect)`,
which has no composite parameter, succeeds and issues a `DrawBitmap` call. -/
theorem C14_min_blend_bitmap_draw_counterexample :
    minBlendWorld.d2d.primitiveBlend = D2D1_PRIMITIVE_BLEND.MIN ∧
    (sampleSession.DrawImageToRect minBlendWorld (some sampleBitmap)
      ⟨0, 0, 128, 128⟩).outcome = Outcome.ok ∧
    minBlendWorld.callsSince (sampleSession.DrawImageToRect minBlendWorld (some sampleBitmap)
      ⟨0, 0, 128, 128⟩).world =
      [D2DCall.DrawBitmap sampleBitmap.d2dBitmap ⟨0, 0, 128, 128⟩ 1
        D2D1_INTERPOLATION_MODE.LINEAR none none] := by
  refine ⟨rfl, ?_, ?_⟩
  · obtain ⟨d, device, -, h, -⟩ := DrawBitmapImpl_draws sampleSession minBlendWorld ⟨7⟩ rfl
      sampleBitmap none (some ⟨0, 0, 128, 128⟩) none DefaultDrawImageOpacity
      DefaultDrawImageInterpolation none (Or.inr rfl) rfl (Or.inl rfl)
    exact h
  · obtain ⟨d, device, hdest, -, h⟩ := DrawBitmapImpl_draws sampleSession minBlendWorld ⟨7⟩
      rfl sampleBitmap none (some ⟨0, 0, 128, 128⟩) none DefaultDrawImageOpacity
      DefaultDrawImageInterpolation none (Or.inr rfl) rfl (Or.inl rfl)
    rw [(CalculateDestRect_ofArguments device none (some ⟨0, 0, 128, 128⟩) none
      DefaultDrawImageOpacity DefaultDrawImageInterpolation minBlendWorld
      sampleBitmap.d2dBitmap).1 ⟨0, 0, 128, 128⟩ rfl] at hdest
    unfold CanvasDrawingSession.DrawImageToRect
    rw [h, ← Option.some.inj hdest]
    simp [DefaultDrawImageOpacity, DefaultDrawImageInterpolation,
      CanvasImageInterpolation.toD2D, ToD2DRect]

/-- C14, amended: with the primitive blend Min, a draw through `DrawImageImpl` without
a composite override (every image-typed entry point without a composite parameter)
never succeeds and makes no call on the device context, whatever the session and the
arguments; on an open session, with an image that can be realized and an offset or a
destination rectangle, it throws `E_FAIL` with the message
`DrawImageMinBlendNotSupported`.  A draw through `DrawBitmapImpl` (the bitmap-typed
entry points), on an open session with a bitmap that can be realized, succeeds with
exactly one `DrawBitmap` call: the backend applies the primitive blend itself. -/
theorem C14_min_blend_rejected_by_image_entry_points (s : CanvasDrawingSession) (w : World)
    (offset : Option Vector2) (destinationRect sourceRect : Option Rect) (opacity : ℚ)
    (interpolation : CanvasImageInterpolation)
    (hmin : w.d2d.primitiveBlend = D2D1_PRIMITIVE_BLEND.MIN) :
    (∀ image : Option ICanvasImage,
      (s.DrawImageImpl w image offset destinationRect sourceRect opacity interpolation
        none).world = w ∧
      (s.DrawImageImpl w image offset destinationRect sourceRect opacity interpolation
        none).outcome ≠ Outcome.ok) ∧
    (∀ (dc : ID2D1DeviceContext1) (image : ICanvasImage) (d2dImage : ID2D1Image),
      s.resource = some dc → image.GetD2DImage = Except.ok d2dImage →
      (offset.isSome = true ∨ destinationRect.isSome = true) →
      (s.DrawImageImpl w (some image) offset destinationRect sourceRect opacity interpolation
        none).outcome =
        Outcome.threw HRESULT.E_FAIL (some Strings.DrawImageMinBlendNotSupported)) ∧
    (∀ (dc : ID2D1DeviceContext1) (b : ICanvasBitmap) (perspective : Option Matrix4x4),
      s.resource = some dc → b.result = HRESULT.S_OK →
      (offset.isSome = true ∨ destinationRect.isSome = true) →
      (w.d2d.unitMode = D2D1_UNIT_MODE.DIPS ∨ w.d2d.unitMode = D2D1_UNIT_MODE.PIXELS) →
      ∃ d, (s.DrawBitmapImpl w (some b) offset destinationRect sourceRect opacity
          interpolation perspective).outcome = Outcome.ok ∧
        w.callsSince (s.DrawBitmapImpl w (some b) offset destinationRect sourceRect opacity
          interpolation perspective).world =
          [D2DCall.DrawBitmap b.d2dBitmap d opacity interpolation.toD2D
            (sourceRect.map ToD2DRect) perspective]) := by
  refine ⟨?_, ?_, ?_⟩
  · intro image
    rcases DrawImageImpl_cases s w image offset destinationRect sourceRect opacity
      interpolation none with h | ⟨img, device, -, -, ho, hw⟩
    · exact h
    · rw [ho, hw, DrawImage_of_min_blend _ w img hmin]
      refine ⟨rfl, ?_⟩
      cases img.GetD2DImage <;> simp
  · intro dc image d2dImage hopen hreal harg
    obtain ⟨device, hd⟩ := DrawImageImpl_open s w dc hopen image offset destinationRect
      sourceRect opacity interpolation none harg
    rw [hd, DrawImage_of_min_blend _ w image hmin, hreal]
  · intro dc b perspective hopen hreal harg hunit
    obtain ⟨d, device, -, h1, h2⟩ := DrawBitmapImpl_draws s w dc hopen b offset
      destinationRect sourceRect opacity interpolation perspective harg hreal hunit
    exact ⟨d, h1, h2⟩

/-- C14 amended, at a concrete draw: with the blend Min, `sampleSession` drawing the
realizable `sampleEffectImage` at an offset throws `E_FAIL` with the message
`DrawImageMinBlendNotSupported`. -/
theorem C14_min_blend_rejected_by_image_entry_points_witness :
    minBlendWorld.d2d.primitiveBlend = D2D1_PRIMITIVE_BLEND.MIN ∧
    sampleSession.resource = some ⟨7⟩ ∧
    sampleEffectImage.GetD2DImage = Except.ok (ID2D1Image.image 5) ∧
    (sampleSession.DrawImageImpl minBlendWorld (some sampleEffectImage) (some ⟨0, 0⟩) none
      none 1 CanvasImageInterpolation.Linear none).outcome =
      Outcome.threw HRESULT.E_FAIL (some Strings.DrawImageMinBlendNotSupported) :=
  ⟨rfl, rfl, rfl,
    (C14_min_blend_rejected_by_image_entry_points sampleSession minBlendWorld (some ⟨0, 0⟩)
      none none 1 CanvasImageInterpolation.Linear rfl).2.1 ⟨7⟩ sampleEffectImage
      (ID2D1Image.image 5) rfl rfl (Or.inl rfl)⟩

/-! ### The opacity effect -/

/-- What `DrawImageWorker::DrawImage` logs, as far as the color-matrix (opacity) effect
goes. -/
theorem DrawImage_logged (self : DrawImageWorker) (w : World) (image : ICanvasImage)
    (composite : Option CanvasComposite) :
    ∃ new, (self.DrawImage w image composite).2 = w.logged new ∧
      new.count (D2DCall.CreateEffect CLSID.D2D1ColorMatrix) ≤ 1 ∧
      (self.m_opacity ≥ 1 → new.count (D2DCall.CreateEffect CLSID.D2D1ColorMatrix) = 0) ∧
      (self.takesBitmapPath w image composite = true →
        new.count (D2DCall.CreateEffect CLSID.D2D1ColorMatrix) = 0) ∧
      (self.takesBitmapPath w image composite = false →
        ∀ img mode, image.GetD2DImage = Except.ok img →
        DrawImageWorker.d2dCompositeMode w composite = Except.ok mode →
        (self.m_offset.isSome = true ∨
          (self.m_destinationRect.isSome = true ∧ self.m_sourceRect.isSome = true ∧
            (self.MaybeAdjustD2DSourceRect w img).1 = Outcome.ok)) →
        new.count (D2DCall.CreateEffect CLSID.D2D1ColorMatrix) =
          (if self.m_opacity ≥ 1 then 0 else 1)) := by
  by_cases ht : self.takesBitmapPath w image composite = true
  · obtain ⟨b, -, he⟩ := DrawImage_of_takesBitmapPath self w image composite ht
    obtain ⟨new, h1, -, -, h4⟩ := DrawBitmap_logged self w b none
    refine ⟨new, by rw [he, h1], by omega, fun _ => h4, fun _ => h4, fun hf => ?_⟩
    rw [ht] at hf
    exact absurd hf (by decide)
  · have hf : self.takesBitmapPath w image composite = false := by simpa using ht
    obtain ⟨new, h1, -, -, h4, h5, h6⟩ := DrawImageSlowPath_logged self w image composite
    refine ⟨new, by rw [DrawImage_of_not_takesBitmapPath self w image composite hf, h1],
      h4, h5, fun h => absurd h ht, fun _ => h6⟩

/-- C15, as stated, fails: with the primitive blend Min and no composite override, a
draw of an effect image (which takes the slow path) with opacity one half throws while
resolving the composite mode, before the opacity stage: no effect is created. -/
theorem C15_opacity_without_effect_counterexample :
    sampleEffectImage.MaybeAsBitmapInternal = none ∧
    (sampleSession.DrawImageAtOffsetWithSourceRectAndOpacity minBlendWorld
      (some sampleEffectImage) ⟨0, 0⟩ ⟨0, 0, 64, 64⟩ (1 / 2)).outcome =
      Outcome.threw HRESULT.E_FAIL (some Strings.DrawImageMinBlendNotSupported) ∧
    (minBlendWorld.callsSince (sampleSession.DrawImageAtOffsetWithSourceRectAndOpacity
      minBlendWorld (some sampleEffectImage) ⟨0, 0⟩ ⟨0, 0, 64, 64⟩ (1 / 2)).world).count
      (D2DCall.CreateEffect CLSID.D2D1ColorMatrix) = 0 := by
  obtain ⟨device, hd⟩ := DrawImageImpl_open sampleSession minBlendWorld ⟨7⟩ rfl
    sampleEffectImage (some ⟨0, 0⟩) none (some ⟨0, 0, 64, 64⟩) (1 / 2)
    DefaultDrawImageInterpolation none (Or.inl rfl)
  unfold CanvasDrawingSession.DrawImageAtOffsetWithSourceRectAndOpacity
  rw [hd, DrawImage_of_min_blend _ minBlendWorld sampleEffectImage rfl]
  refine ⟨rfl, rfl, ?_⟩
  simp [World.callsSince_self]

/-- C15, amended: a draw by the worker creates the color-matrix (opacity) effect at
most once; never when the opacity is at least one, never on the fast path, never in
`DrawBitmap`; and exactly once when the opacity is below one and the draw takes the
slow path and gets as far as the opacity stage, that is: the image is realized, the
composite mode is resolved (an override is given, or the primitive blend is SourceOver,
Copy or Add), and, for a draw to a rectangle, the source rectangle is there and its
adjustment succeeds.  The two bounds hold for every call of `DrawImageImpl` and
`DrawBitmapImpl`, whatever the session and the arguments. -/
theorem C15_opacity_effect_created_at_most_once (self : DrawImageWorker) (w : World)
    (image : ICanvasImage) (composite : Option CanvasComposite) :
    (w.callsSince (self.DrawImage w image composite).2).count
      (D2DCall.CreateEffect CLSID.D2D1ColorMatrix) ≤ 1 ∧
    (self.m_opacity ≥ 1 →
      (w.callsSince (self.DrawImage w image composite).2).count
        (D2DCall.CreateEffect CLSID.D2D1ColorMatrix) = 0) ∧
    (self.takesBitmapPath w image composite = true →
      (w.callsSince (self.DrawImage w image composite).2).count
        (D2DCall.CreateEffect CLSID.D2D1ColorMatrix) = 0) ∧
    (∀ (b : ICanvasBitmap) (perspective : Option Matrix4x4),
      (w.callsSince (self.DrawBitmap w b perspective).2).count
        (D2DCall.CreateEffect CLSID.D2D1ColorMatrix) = 0) ∧
    (self.takesBitmapPath w image composite = false → self.m_opacity < 1 →
      ∀ img mode, image.GetD2DImage = Except.ok img →
      DrawImageWorker.d2dCompositeMode w composite = Except.ok mode →
      (self.m_offset.isSome = true ∨
        (self.m_destinationRect.isSome = true ∧ self.m_sourceRect.isSome = true ∧
          (self.MaybeAdjustD2DSourceRect w img).1 = Outcome.ok)) →
      (w.callsSince (self.DrawImage w image composite).2).count
        (D2DCall.CreateEffect CLSID.D2D1ColorMatrix) = 1) ∧
    (∀ (s : CanvasDrawingSession) (source : Option ICanvasImage) (offset : Option Vector2)
      (destinationRect sourceRect : Option Rect) (opacity : ℚ)
      (interpolation : CanvasImageInterpolation),
      (w.callsSince (s.DrawImageImpl w source offset destinationRect sourceRect opacity
        interpolation composite).world).count
          (D2DCall.CreateEffect CLSID.D2D1ColorMatrix) ≤ 1 ∧
      (opacity ≥ 1 →
        (w.callsSince (s.DrawImageImpl w source offset destinationRect sourceRect opacity
          interpolation composite).world).count
            (D2DCall.CreateEffect CLSID.D2D1ColorMatrix) = 0)) ∧
    (∀ (s : CanvasDrawingSession) (bitmap : Option ICanvasBitmap) (offset : Option Vector2)
      (destinationRect sourceRect : Option Rect) (opacity : ℚ)
      (interpolation : CanvasImageInterpolation) (perspective : Option Matrix4x4),
      (w.callsSince (s.DrawBitmapImpl w bitmap offset destinationRect sourceRect opacity
        interpolation perspective).world).count
          (D2DCall.CreateEffect CLSID.D2D1ColorMatrix) = 0) := by
  refine ⟨?_, ?_, ?_, ?_, ?_, ?_, ?_⟩
  · obtain ⟨new, h1, h2, -⟩ := DrawImage_logged self w image composite
    rw [h1, World.callsSince_logged]
    exact h2
  · intro hop
    obtain ⟨new, h1, -, h3, -⟩ := DrawImage_logged self w image composite
    rw [h1, World.callsSince_logged]
    exact h3 hop
  · intro ht
    obtain ⟨new, h1, -, -, h4, -⟩ := DrawImage_logged self w image composite
    rw [h1, World.callsSince_logged]
    exact h4 ht
  · intro b perspective
    obtain ⟨new, h1, -, -, h4⟩ := DrawBitmap_logged self w b perspective
    rw [h1, World.callsSince_logged]
    exact h4
  · intro hf hop img mode hreal hmode hreach
    obtain ⟨new, h1, -, -, -, h5⟩ := DrawImage_logged self w image composite
    rw [h1, World.callsSince_logged, h5 hf img mode hreal hmode hreach]
    simp [not_le.2 hop]
  · intro s source offset destinationRect sourceRect opacity interpolation
    rcases DrawImageImpl_cases s w source offset destinationRect sourceRect opacity
      interpolation composite with ⟨hw, -⟩ | ⟨img, device, -, -, -, hw⟩
    · rw [hw, World.callsSince_self]
      simp
    · obtain ⟨new, h1, h2, h3, -⟩ := DrawImage_logged (DrawImageWorker.ofArguments device
        offset destinationRect sourceRect opacity interpolation) w img composite
      rw [hw, h1, World.callsSince_logged]
      exact ⟨h2, h3⟩
  · intro s bitmap offset destinationRect sourceRect opacity interpolation perspective
    rcases DrawBitmapImpl_cases s w bitmap offset destinationRect sourceRect opacity
      interpolation perspective with ⟨hw, -⟩ | ⟨b, device, -, -, -, hw⟩
    · rw [hw, World.callsSince_self]
      simp
    · obtain ⟨new, h1, -, -, h4⟩ := DrawBitmap_logged (DrawImageWorker.ofArguments device
        offset destinationRect sourceRect opacity interpolation) w b perspective
      rw [hw, h1, World.callsSince_logged]
      exact h4

/-- C15 amended, at a concrete draw: with the blend SourceOver, the worker drawing the
realizable `sampleEffectImage` at an offset with opacity one half creates the
color-matrix effect exactly once. -/
theorem C15_opacity_effect_created_at_most_once_witness :
    (DrawImageWorker.ofArguments ⟨1⟩ (some ⟨0, 0⟩) none none (1 / 2)
      CanvasImageInterpolation.Linear).takesBitmapPath sampleOpenWorld sampleEffectImage
      none = false ∧
    (sampleOpenWorld.callsSince ((DrawImageWorker.ofArguments ⟨1⟩ (some ⟨0, 0⟩) none none
      (1 / 2) CanvasImageInterpolation.Linear).DrawImage sampleOpenWorld sampleEffectImage
      none).2).count (D2DCall.CreateEffect CLSID.D2D1ColorMatrix) = 1 :=
  ⟨rfl,
    (C15_opacity_effect_created_at_most_once
      (DrawImageWorker.ofArguments ⟨1⟩ (some ⟨0, 0⟩) none none (1 / 2)
        CanvasImageInterpolation.Linear) sampleOpenWorld sampleEffectImage none).2.2.2.2.1
      rfl (by simp [DrawImageWorker.ofArguments]; norm_num) (ID2D1Image.image 5)
      D2D1_COMPOSITE_MODE.SOURCE_OVER rfl rfl (Or.inl rfl)⟩

/-! ### The source rectangle of zero size -/

/-- The method `DrawImageToRect` on an image that is not a bitmap, when the source
rectangle has zero width or height: after the opacity stage, nothing more happens. -/
theorem DrawImageToRect_of_zero_size (self : DrawImageWorker) (w : World) (img : ID2D1Image)
    (destinationRect : Rect) (i : D2D1_INTERPOLATION_MODE) (m : D2D1_COMPOSITE_MODE)
    (S : Rect) (r : D2D1_RECT_F) (hS : self.m_sourceRect = some S)
    (hr : self.m_d2dSourceRect = some r) (himg : img.isBitmap = false)
    (hzero : r.right - r.left = 0 ∨ r.bottom - r.top = 0)
    (hcm : self.m_opacity ≥ 1 ∨ w.d2d.createColorMatrixResult = HRESULT.S_OK) :
    self.DrawImageToRect w img destinationRect i m =
      (Outcome.ok, if self.m_opacity ≥ 1 then w
        else w.call (D2DCall.CreateEffect CLSID.D2D1ColorMatrix)) := by
  unfold DrawImageWorker.DrawImageToRect DrawImageWorker.MaybeAdjustD2DSourceRect
    DrawImageWorker.MaybeApplyOpacityEffect ThrowIfFailed
  by_cases hop : 1 ≤ self.m_opacity
  · cases img <;> simp [ID2D1Image.isBitmap] at himg <;> simp [hS, hr, hzero, hop]
  · rcases hcm with hcm | hcm
    · exact absurd hcm hop
    · cases img <;> simp [ID2D1Image.isBitmap] at himg <;> simp [hS, hr, hzero, hcm, hop]

/-- The method `DrawImageToRect` on a bitmap, when the source rectangle clamped to the
bitmap has zero width or height: after the border and opacity stages, nothing more
happens. -/
theorem DrawImageToRect_of_zero_size_bitmap (self : DrawImageWorker) (w : World)
    (b : ID2D1Bitmap) (destinationRect : Rect) (i : D2D1_INTERPOLATION_MODE)
    (m : D2D1_COMPOSITE_MODE) (S : Rect) (r : D2D1_RECT_F) (size : D2D1_SIZE_F)
    (hS : self.m_sourceRect = some S) (hr : self.m_d2dSourceRect = some r)
    (hsize : GetBitmapSize w.d2d.unitMode b = some size)
    (hzero : min r.right size.width - max r.left 0 = 0 ∨
      min r.bottom size.height - max r.top 0 = 0)
    (hborder : w.d2d.createBorderResult = HRESULT.S_OK)
    (hdpi : w.d2d.createDpiCompensationResult = HRESULT.S_OK)
    (hcm : self.m_opacity ≥ 1 ∨ w.d2d.createColorMatrixResult = HRESULT.S_OK) :
    self.DrawImageToRect w (ID2D1Image.bitmap b) destinationRect i m =
      (Outcome.ok, if self.m_opacity ≥ 1 then
          w.logged [D2DCall.CreateEffect CLSID.D2D1Border,
            D2DCall.CreateEffect CLSID.D2D1DpiCompensation]
        else
          w.logged [D2DCall.CreateEffect CLSID.D2D1Border,
            D2DCall.CreateEffect CLSID.D2D1DpiCompensation,
            D2DCall.CreateEffect CLSID.D2D1ColorMatrix]) := by
  unfold DrawImageWorker.DrawImageToRect DrawImageWorker.MaybeAdjustD2DSourceRect
    DrawImageWorker.MaybeApplyOpacityEffect SetDpiCompensatedEffectInput ThrowIfFailed
  by_cases hop : 1 ≤ self.m_opacity
  · simp [hS, hr, hsize, hborder, hdpi, hzero, hop, World.call, World.logged]
  · rcases hcm with hcm | hcm
    · exact absurd hcm hop
    · simp [hS, hr, hsize, hborder, hdpi, hcm, hzero, hop, World.call, World.logged]

theorem DrawImageSlowPath_to_rect (self : DrawImageWorker) (w : World)
    (image : ICanvasImage) (composite : Option CanvasComposite) (img : ID2D1Image)
    (mode : D2D1_COMPOSITE_MODE) (destinationRect : Rect)
    (hreal : image.GetD2DImage = Except.ok img)
    (hmode : DrawImageWorker.d2dCompositeMode w composite = Except.ok mode)
    (hoffset : self.m_offset = none) (hdest : self.m_destinationRect = some destinationRect) :
    self.DrawImageSlowPath w image composite =
      self.DrawImageToRect w img destinationRect self.m_interpolation.toD2D mode := by
  unfold DrawImageWorker.DrawImageSlowPath
  simp [hreal, hmode, hoffset, hdest]

/-- C16, as stated, fails: on the fast path, a draw of a bitmap to a destination
rectangle with a source rectangle of width zero issues a `DrawBitmap` call. -/
theorem C16_zero_width_source_fast_path_counterexample :
    (⟨0, 0, 0, 10⟩ : Rect).Width = 0 ∧
    sampleOpenWorld.callsSince (sampleSession.DrawImageToRectWithSourceRect sampleOpenWorld
      (some (ICanvasImage.bitmap sampleBitmap)) ⟨0, 0, 128, 128⟩ ⟨0, 0, 0, 10⟩).world =
      [D2DCall.DrawBitmap sampleBitmap.d2dBitmap ⟨0, 0, 128, 128⟩ 1
        D2D1_INTERPOLATION_MODE.LINEAR (some ⟨0, 0, 0, 10⟩) none] := by
  refine ⟨rfl, ?_⟩
  obtain ⟨device, hd⟩ := DrawImageImpl_open sampleSession sampleOpenWorld ⟨7⟩ rfl
    (ICanvasImage.bitmap sampleBitmap) none (some ⟨0, 0, 128, 128⟩) (some ⟨0, 0, 0, 10⟩)
    DefaultDrawImageOpacity DefaultDrawImageInterpolation none (Or.inr rfl)
  obtain ⟨b, hb, he⟩ := DrawImage_of_takesBitmapPath
    (DrawImageWorker.ofArguments device none (some ⟨0, 0, 128, 128⟩) (some ⟨0, 0, 0, 10⟩)
      DefaultDrawImageOpacity DefaultDrawImageInterpolation) sampleOpenWorld
    (ICanvasImage.bitmap sampleBitmap) none rfl
  cases hb
  unfold CanvasDrawingSession.DrawImageToRectWithSourceRect
  rw [hd, he, DrawBitmap_eq _ _ _ _ _ rfl
    ((CalculateDestRect_ofArguments device none (some ⟨0, 0, 128, 128⟩)
      (some ⟨0, 0, 0, 10⟩) DefaultDrawImageOpacity DefaultDrawImageInterpolation
      sampleOpenWorld sampleBitmap.d2dBitmap).1 ⟨0, 0, 128, 128⟩ rfl)]
  simp only [World.call_eq_logged, World.callsSince_logged, GetD2DSourceRect_ofArguments]
  simp [DrawImageWorker.ofArguments, DefaultDrawImageOpacity, DefaultDrawImageInterpolation,
    CanvasImageInterpolation.toD2D, ToD2DRect]

/-- C16, amended: on the slow path, for a draw to a destination rectangle of an image
that has been realized, with the composite mode resolved and the opacity effect, if
needed, created without error: when the image is not a bitmap and the requested source
rectangle has width zero or height zero, or when the image is a bitmap, the border
effect is created without error, and the source rectangle clamped to the bitmap
(left and top raised to zero, right and bottom lowered to the size of the bitmap) has
width zero or height zero, the draw succeeds and the only calls made create effects:
no `DrawImage`, no `DrawBitmap`, no `SetTransform`. -/
theorem C16_zero_size_source_is_noop_on_slow_path (device : ICanvasDevice)
    (destinationRect sourceRect : Rect) (opacity : ℚ)
    (interpolation : CanvasImageInterpolation) (w : World) (image : ICanvasImage)
    (composite : Option CanvasComposite) (img : ID2D1Image) (mode : D2D1_COMPOSITE_MODE)
    (hreal : image.GetD2DImage = Except.ok img)
    (hmode : DrawImageWorker.d2dCompositeMode w composite = Except.ok mode)
    (hcm : opacity ≥ 1 ∨ w.d2d.createColorMatrixResult = HRESULT.S_OK) :
    (img.isBitmap = false → (sourceRect.Width = 0 ∨ sourceRect.Height = 0) →
      ((DrawImageWorker.ofArguments device none (some destinationRect) (some sourceRect)
        opacity interpolation).DrawImageSlowPath w image composite).1 = Outcome.ok ∧
      ∀ c ∈ w.callsSince ((DrawImageWorker.ofArguments device none (some destinationRect)
        (some sourceRect) opacity interpolation).DrawImageSlowPath w image composite).2,
        c.isCreateEffect = true) ∧
    (∀ (b : ID2D1Bitmap) (size : D2D1_SIZE_F), img = ID2D1Image.bitmap b →
      GetBitmapSize w.d2d.unitMode b = some size →
      w.d2d.createBorderResult = HRESULT.S_OK →
      w.d2d.createDpiCompensationResult = HRESULT.S_OK →
      (min (sourceRect.X + sourceRect.Width) size.width - max sourceRect.X 0 = 0 ∨
        min (sourceRect.Y + sourceRect.Height) size.height - max sourceRect.Y 0 = 0) →
      ((DrawImageWorker.ofArguments device none (some destinationRect) (some sourceRect)
        opacity interpolation).DrawImageSlowPath w image composite).1 = Outcome.ok ∧
      ∀ c ∈ w.callsSince ((DrawImageWorker.ofArguments device none (some destinationRect)
        (some sourceRect) opacity interpolation).DrawImageSlowPath w image composite).2,
        c.isCreateEffect = true) := by
  refine ⟨?_, ?_⟩
  · intro himg hzero
    rw [DrawImageSlowPath_to_rect _ w image composite img mode destinationRect hreal hmode
        rfl rfl,
      DrawImageToRect_of_zero_size _ w img destinationRect _ mode sourceRect
        (ToD2DRect sourceRect) rfl rfl himg (by simpa [ToD2DRect] using hzero) hcm]
    refine ⟨rfl, ?_⟩
    simp only
    split
    · simp [World.callsSince_self]
    · simp [World.call_eq_logged, World.callsSince_logged, D2DCall.isCreateEffect]
  · intro b size himg hsize hborder hdpi hzero
    subst himg
    rw [DrawImageSlowPath_to_rect _ w image composite _ mode destinationRect hreal hmode
        rfl rfl,
      DrawImageToRect_of_zero_size_bitmap _ w b destinationRect _ mode sourceRect
        (ToD2DRect sourceRect) size rfl rfl hsize (by simpa [ToD2DRect] using hzero)
        hborder hdpi hcm]
    refine ⟨rfl, ?_⟩
    simp only
    split <;> simp [World.callsSince_logged, D2DCall.isCreateEffect]

/-- C16 amended, at a concrete draw: the worker drawing the realizable
`sampleEffectImage` to a rectangle from a source rectangle of width zero succeeds and
makes no call other than effect creation. -/
theorem C16_zero_size_source_is_noop_on_slow_path_witness :
    sampleEffectImage.GetD2DImage = Except.ok (ID2D1Image.image 5) ∧
    DrawImageWorker.d2dCompositeMode sampleOpenWorld none =
      Except.ok D2D1_COMPOSITE_MODE.SOURCE_OVER ∧
    (⟨0, 0, 0, 10⟩ : Rect).Width = 0 ∧
    ((DrawImageWorker.ofArguments ⟨1⟩ none (some ⟨0, 0, 128, 128⟩) (some ⟨0, 0, 0, 10⟩) 1
      CanvasImageInterpolation.Linear).DrawImageSlowPath sampleOpenWorld sampleEffectImage
      none).1 = Outcome.ok ∧
    ∀ c ∈ sampleOpenWorld.callsSince ((DrawImageWorker.ofArguments ⟨1⟩ none
      (some ⟨0, 0, 128, 128⟩) (some ⟨0, 0, 0, 10⟩) 1
      CanvasImageInterpolation.Linear).DrawImageSlowPath sampleOpenWorld sampleEffectImage
      none).2, c.isCreateEffect = true :=
  ⟨rfl, rfl, rfl,
    (C16_zero_size_source_is_noop_on_slow_path ⟨1⟩ ⟨0, 0, 128, 128⟩ ⟨0, 0, 0, 10⟩ 1
      CanvasImageInterpolation.Linear sampleOpenWorld sampleEffectImage none
      (ID2D1Image.image 5) D2D1_COMPOSITE_MODE.SOURCE_OVER rfl rfl
      (Or.inl (le_refl 1))).1 rfl (Or.inl rfl)⟩

/-! ### The transform property -/

/-- C17: on an open session, in the unit mode DIPs or pixels, `put_Transform` of a
matrix succeeds, and `get_Transform` right after it (same session offset, unit mode and
DPI) succeeds and returns that matrix, all six components equal: the adjusted offset
added to the translation on the way in is the value subtracted on the way out. -/
theorem C17_put_get_Transform_round_trip (s : CanvasDrawingSession) (w : World)
    (dc : ID2D1DeviceContext1) (M : Matrix3x2) (hopen : s.resource = some dc)
    (hunit : w.d2d.unitMode = D2D1_UNIT_MODE.DIPS ∨ w.d2d.unitMode = D2D1_UNIT_MODE.PIXELS) :
    (s.put_Transform w M).outcome = Outcome.ok ∧
    ((s.put_Transform w M).self.get_Transform (s.put_Transform w M).world
      Pointer.valid).outcome = Outcome.ok ∧
    ((s.put_Transform w M).self.get_Transform (s.put_Transform w M).world
      Pointer.valid).value = some M := by
  unfold CanvasDrawingSession.put_Transform CanvasDrawingSession.get_Transform SetTransform
    GetTransform GetOffsetInCorrectUnits CanvasDrawingSession.GetResource World.SetTransform
  rcases hunit with hu | hu
  · simp [hopen, hu, World.call]
  · simp [hopen, hu, World.call]

/-- C17 at a concrete session: on `sampleSession`, setting and then getting the
transform with components 1 to 6 gives it back. -/
theorem C17_put_get_Transform_round_trip_witness :
    sampleSession.resource = some ⟨7⟩ ∧
    sampleOpenWorld.d2d.unitMode = D2D1_UNIT_MODE.DIPS ∧
    ((sampleSession.put_Transform sampleOpenWorld ⟨1, 2, 3, 4, 5, 6⟩).self.get_Transform
      (sampleSession.put_Transform sampleOpenWorld ⟨1, 2, 3, 4, 5, 6⟩).world
      Pointer.valid).value = some ⟨1, 2, 3, 4, 5, 6⟩ :=
  ⟨rfl, rfl,
    (C17_put_get_Transform_round_trip sampleSession sampleOpenWorld ⟨7⟩ ⟨1, 2, 3, 4, 5, 6⟩
      rfl (Or.inl rfl)).2.2⟩

/-! ### The arguments of the bitmap blit -/

theorem CalculateDestRect_device (device device1 : ICanvasDevice) (offset : Option Vector2)
    (destinationRect sourceRect : Option Rect) (opacity : ℚ)
    (interpolation : CanvasImageInterpolation) (w : World) (bitmap : ID2D1Bitmap) :
    (DrawImageWorker.ofArguments device offset destinationRect sourceRect opacity
      interpolation).CalculateDestRect w bitmap =
    (DrawImageWorker.ofArguments device1 offset destinationRect sourceRect opacity
      interpolation).CalculateDestRect w bitmap := rfl

/-- C18: on an open session, with a bitmap that can be realized, an offset or a
destination rectangle, and the unit mode DIPs or pixels, there is one rectangle, namely
the destination rectangle when one is given, else the rectangle at the offset with the
size of the source rectangle when one is given, else with the size of the bitmap in the
unit mode (its DIP size in DIPs, its pixel size in pixels), such that every fast-path
draw succeeds with exactly one call on the device context, a `DrawBitmap` to that
rectangle with the opacity, the interpolation mode, the source rectangle (null when
absent, not clamped) and the perspective as given: through `DrawBitmapImpl` always,
with the perspective of the call; through `DrawImageImpl` when the primitive blend,
the composite override and the interpolation mode allow the fast path, with no
perspective. -/
theorem C18_fast_path_draw_bitmap_arguments (s : CanvasDrawingSession) (w : World)
    (dc : ID2D1DeviceContext1) (b : ICanvasBitmap) (offset : Option Vector2)
    (destinationRect sourceRect : Option Rect) (opacity : ℚ)
    (interpolation : CanvasImageInterpolation)
    (hopen : s.resource = some dc) (hreal : b.result = HRESULT.S_OK)
    (harg : offset.isSome = true ∨ destinationRect.isSome = true)
    (hunit : w.d2d.unitMode = D2D1_UNIT_MODE.DIPS ∨ w.d2d.unitMode = D2D1_UNIT_MODE.PIXELS) :
    ∃ d : D2D1_RECT_F,
      (∀ D, destinationRect = some D → d = ToD2DRect D) ∧
      (∀ O S, destinationRect = none → offset = some O → sourceRect = some S →
        d = ⟨O.X, O.Y, O.X + S.Width, O.Y + S.Height⟩) ∧
      (∀ O, destinationRect = none → offset = some O → sourceRect = none →
        w.d2d.unitMode = D2D1_UNIT_MODE.DIPS →
        d = ⟨O.X, O.Y, O.X + b.d2dBitmap.size.width, O.Y + b.d2dBitmap.size.height⟩) ∧
      (∀ O, destinationRect = none → offset = some O → sourceRect = none →
        w.d2d.unitMode = D2D1_UNIT_MODE.PIXELS →
        d = ⟨O.X, O.Y, O.X + (b.d2dBitmap.pixelWidth : ℚ),
          O.Y + (b.d2dBitmap.pixelHeight : ℚ)⟩) ∧
      (∀ perspective : Option Matrix4x4,
        (s.DrawBitmapImpl w (some b) offset destinationRect sourceRect opacity interpolation
          perspective).outcome = Outcome.ok ∧
        w.callsSince (s.DrawBitmapImpl w (some b) offset destinationRect sourceRect opacity
          interpolation perspective).world =
          [D2DCall.DrawBitmap b.d2dBitmap d opacity interpolation.toD2D
            (sourceRect.map ToD2DRect) perspective]) ∧
      (∀ composite : Option CanvasComposite,
        ((w.d2d.primitiveBlend = D2D1_PRIMITIVE_BLEND.SOURCE_OVER ∧
            (composite = none ∨ composite = some CanvasComposite.SourceOver)) ∨
          (w.d2d.primitiveBlend = D2D1_PRIMITIVE_BLEND.COPY ∧
            (composite = none ∨ composite = some CanvasComposite.Copy)) ∨
          (w.d2d.primitiveBlend = D2D1_PRIMITIVE_BLEND.ADD ∧
            (composite = none ∨ composite = some CanvasComposite.Add))) →
        (interpolation = CanvasImageInterpolation.Linear ∨
          interpolation = CanvasImageInterpolation.NearestNeighbor) →
        (s.DrawImageImpl w (some (ICanvasImage.bitmap b)) offset destinationRect sourceRect
          opacity interpolation composite).outcome = Outcome.ok ∧
        w.callsSince (s.DrawImageImpl w (some (ICanvasImage.bitmap b)) offset
          destinationRect sourceRect opacity interpolation composite).world =
          [D2DCall.DrawBitmap b.d2dBitmap d opacity interpolation.toD2D
            (sourceRect.map ToD2DRect) none]) := by
  obtain ⟨d, hdest⟩ := CalculateDestRect_isSome ⟨0⟩ offset destinationRect sourceRect
    opacity interpolation w b.d2dBitmap harg hunit
  have htable := CalculateDestRect_ofArguments ⟨0⟩ offset destinationRect sourceRect
    opacity interpolation w b.d2dBitmap
  refine ⟨d, ?_, ?_, ?_, ?_, ?_, ?_⟩
  · intro D hD
    exact Option.some.inj (hdest.symm.trans (htable.1 D hD))
  · intro O S hD hO hS
    exact Option.some.inj (hdest.symm.trans (htable.2.1 O S hD hO hS))
  · intro O hD hO hS hu
    exact Option.some.inj (hdest.symm.trans (htable.2.2.1 O hD hO hS hu))
  · intro O hD hO hS hu
    exact Option.some.inj (hdest.symm.trans (htable.2.2.2 O hD hO hS hu))
  · intro perspective
    obtain ⟨device, hd⟩ := DrawBitmapImpl_open s w dc hopen b offset destinationRect
      sourceRect opacity interpolation perspective harg
    have hdest1 := (CalculateDestRect_device device ⟨0⟩ offset destinationRect sourceRect
      opacity interpolation w b.d2dBitmap).trans hdest
    rw [hd, DrawBitmap_eq _ w b perspective d hreal hdest1]
    simp only [World.call_eq_logged, World.callsSince_logged, GetD2DSourceRect_ofArguments]
    exact ⟨trivial, rfl⟩
  · intro composite hblend hinterp
    obtain ⟨device, hd⟩ := DrawImageImpl_open s w dc hopen (ICanvasImage.bitmap b) offset
      destinationRect sourceRect opacity interpolation composite harg
    have hdest1 := (CalculateDestRect_device device ⟨0⟩ offset destinationRect sourceRect
      opacity interpolation w b.d2dBitmap).trans hdest
    obtain ⟨b1, hb, he⟩ := DrawImage_of_takesBitmapPath
      (DrawImageWorker.ofArguments device offset destinationRect sourceRect opacity
        interpolation) w (ICanvasImage.bitmap b) composite
      ((takesBitmapPath_iff _ w _ composite).2 ⟨⟨b, rfl⟩, hblend, hinterp⟩)
    cases hb
    rw [hd, he, DrawBitmap_eq _ w b none d hreal hdest1]
    simp only [World.call_eq_logged, World.callsSince_logged, GetD2DSourceRect_ofArguments]
    exact ⟨trivial, rfl⟩

/-- C18 at the draw the specification names: `DrawImageToRect` of a realizable 64 by 64
bitmap to the rectangle at the origin of size 128 by 128 is one `DrawBitmap` to
(0, 0, 128, 128) with opacity 1, Linear, no source rectangle and no perspective. -/
theorem C18_fast_path_draw_bitmap_arguments_witness :
    sampleSession.resource = some ⟨7⟩ ∧ sampleBitmap.result = HRESULT.S_OK ∧
    sampleOpenWorld.d2d.unitMode = D2D1_UNIT_MODE.DIPS ∧
    ∃ d : D2D1_RECT_F, d = ToD2DRect ⟨0, 0, 128, 128⟩ ∧
      (sampleSession.DrawImageToRect sampleOpenWorld (some sampleBitmap)
        ⟨0, 0, 128, 128⟩).outcome = Outcome.ok ∧
      sampleOpenWorld.callsSince (sampleSession.DrawImageToRect sampleOpenWorld
        (some sampleBitmap) ⟨0, 0, 128, 128⟩).world =
        [D2DCall.DrawBitmap sampleBitmap.d2dBitmap d 1 D2D1_INTERPOLATION_MODE.LINEAR none
          none] :=
  ⟨rfl, rfl, rfl,
    (C18_fast_path_draw_bitmap_arguments sampleSession sampleOpenWorld ⟨7⟩ sampleBitmap none
      (some ⟨0, 0, 128, 128⟩) none 1 CanvasImageInterpolation.Linear rfl rfl (Or.inr rfl)
      (Or.inl rfl)).elim
      fun d h => ⟨d, h.1 _ rfl, (h.2.2.2.2.1 none).1, (h.2.2.2.2.1 none).2⟩⟩

/-! ### The temporary transform -/

/-- The method `DrawImageToRect` on an image that is not a bitmap, at opacity one or
more, when the source rectangle has a width and a height: the temporary transform is
set, the image is drawn at the origin, the transform that was current is set again. -/
theorem DrawImageToRect_draws (self : DrawImageWorker) (w : World) (img : ID2D1Image)
    (destinationRect : Rect) (i : D2D1_INTERPOLATION_MODE) (m : D2D1_COMPOSITE_MODE)
    (S : Rect) (r : D2D1_RECT_F) (hS : self.m_sourceRect = some S)
    (hr : self.m_d2dSourceRect = some r) (himg : img.isBitmap = false)
    (hop : self.m_opacity ≥ 1) (hwidth : r.right - r.left ≠ 0)
    (hheight : r.bottom - r.top ≠ 0) :
    self.DrawImageToRect w img destinationRect i m =
      (Outcome.ok, w.logged [D2DCall.SetTransform (TemporaryTransform w.d2d.transform
          ⟨destinationRect.X, destinationRect.Y⟩
          ⟨destinationRect.Width / (r.right - r.left),
            destinationRect.Height / (r.bottom - r.top)⟩),
        D2DCall.DrawImage img ⟨0, 0⟩ (some r) i m,
        D2DCall.SetTransform w.d2d.transform]) := by
  have hop1 : 1 ≤ self.m_opacity := hop
  unfold DrawImageWorker.DrawImageToRect DrawImageWorker.MaybeAdjustD2DSourceRect
    DrawImageWorker.MaybeApplyOpacityEffect
  cases img <;> simp [ID2D1Image.isBitmap] at himg <;>
    simp [hS, hr, hop1, hwidth, hheight, World.setTransform_restore]

/-- C19: a slow-path draw to a destination rectangle leaves the transform of the device
context as it found it, whatever the image, the rectangles and the results of the
effect creations, so on every exit path (the draw, the no-op for a source rectangle of
zero size, each failure); the same holds for the whole slow path and for every call of
`DrawImageImpl`.  On the path that draws (shown for an image that is not a bitmap, at
opacity one or more, with a source rectangle that has a width and a height) the calls
are: set the temporary transform, draw the image, set the former transform again. -/
theorem C19_slow_path_to_rect_restores_transform (self : DrawImageWorker) (w : World)
    (img : ID2D1Image) (destinationRect : Rect) (i : D2D1_INTERPOLATION_MODE)
    (m : D2D1_COMPOSITE_MODE) :
    (self.DrawImageToRect w img destinationRect i m).2.d2d.transform = w.d2d.transform ∧
    (∀ (image : ICanvasImage) (composite : Option CanvasComposite),
      (self.DrawImageSlowPath w image composite).2.d2d.transform = w.d2d.transform) ∧
    (∀ (s : CanvasDrawingSession) (image : Option ICanvasImage) (offset : Option Vector2)
      (destination sourceRect : Option Rect) (opacity : ℚ)
      (interpolation : CanvasImageInterpolation) (composite : Option CanvasComposite),
      (s.DrawImageImpl w image offset destination sourceRect opacity interpolation
        composite).world.d2d.transform = w.d2d.transform) ∧
    (∀ (S : Rect) (r : D2D1_RECT_F), self.m_sourceRect = some S →
      self.m_d2dSourceRect = some r → img.isBitmap = false → self.m_opacity ≥ 1 →
      r.right - r.left ≠ 0 → r.bottom - r.top ≠ 0 →
      w.callsSince (self.DrawImageToRect w img destinationRect i m).2 =
        [D2DCall.SetTransform (TemporaryTransform w.d2d.transform
            ⟨destinationRect.X, destinationRect.Y⟩
            ⟨destinationRect.Width / (r.right - r.left),
              destinationRect.Height / (r.bottom - r.top)⟩),
          D2DCall.DrawImage img ⟨0, 0⟩ (some r) i m,
          D2DCall.SetTransform w.d2d.transform]) := by
  refine ⟨?_, ?_, ?_, ?_⟩
  · obtain ⟨new, h1, -⟩ := DrawImageToRect_logged self w img destinationRect i m
    rw [h1, World.logged_d2d]
  · intro image composite
    obtain ⟨new, h1, -⟩ := DrawImageSlowPath_logged self w image composite
    rw [h1, World.logged_d2d]
  · intro s image offset destination sourceRect opacity interpolation composite
    rcases DrawImageImpl_cases s w image offset destination sourceRect opacity
      interpolation composite with ⟨hw, -⟩ | ⟨img1, device, -, -, -, hw⟩
    · rw [hw]
    · obtain ⟨new, h1, -⟩ := DrawImage_logged (DrawImageWorker.ofArguments device offset
        destination sourceRect opacity interpolation) w img1 composite
      rw [hw, h1, World.logged_d2d]
  · intro S r hS hr himg hop hwidth hheight
    rw [DrawImageToRect_draws self w img destinationRect i m S r hS hr himg hop hwidth
      hheight, World.callsSince_logged]

/-- C19 at a concrete draw: the worker drawing an effect image from the source
rectangle (0, 0, 64, 64) to a destination rectangle sets the temporary transform,
draws, and sets the former transform again. -/
theorem C19_slow_path_to_rect_restores_transform_witness :
    sampleOpenWorld.callsSince ((DrawImageWorker.ofArguments ⟨1⟩ none
      (some ⟨0, 0, 128, 128⟩) (some ⟨0, 0, 64, 64⟩) 1
      CanvasImageInterpolation.Linear).DrawImageToRect sampleOpenWorld (ID2D1Image.image 5)
      ⟨0, 0, 128, 128⟩ D2D1_INTERPOLATION_MODE.LINEAR D2D1_COMPOSITE_MODE.SOURCE_OVER).2 =
      [D2DCall.SetTransform (TemporaryTransform sampleOpenWorld.d2d.transform ⟨0, 0⟩
          ⟨128 / (64 - 0), 128 / (64 - 0)⟩),
        D2DCall.DrawImage (ID2D1Image.image 5) ⟨0, 0⟩ (some ⟨0, 0, 64, 64⟩)
          D2D1_INTERPOLATION_MODE.LINEAR D2D1_COMPOSITE_MODE.SOURCE_OVER,
        D2DCall.SetTransform sampleOpenWorld.d2d.transform] :=
  (C19_slow_path_to_rect_restores_transform
    (DrawImageWorker.ofArguments ⟨1⟩ none (some ⟨0, 0, 128, 128⟩) (some ⟨0, 0, 64, 64⟩) 1
      CanvasImageInterpolation.Linear) sampleOpenWorld (ID2D1Image.image 5)
    ⟨0, 0, 128, 128⟩ D2D1_INTERPOLATION_MODE.LINEAR D2D1_COMPOSITE_MODE.SOURCE_OVER).2.2.2
    ⟨0, 0, 64, 64⟩ ⟨0, 0, 64, 64⟩ rfl (by simp [DrawImageWorker.ofArguments, ToD2DRect]) rfl
    (by simp [DrawImageWorker.ofArguments]) (by norm_num) (by norm_num)

/-! ### The primitive a layer push issues -/

/-- A successful `CreateLayerImpl` logs one call: the axis-aligned clip when the
condition of the code holds, else the layer. -/
theorem CreateLayer_world (s : CanvasDrawingSession) (w : World) (a : LayerRequest)
    (hok : (s.CreateLayer w a).outcome = Outcome.ok) :
    (s.CreateLayer w a).world =
      w.call (if (a.clipRectangle.isSome && a.opacityBrush.isNone && a.clipGeometry.isNone &&
          a.opacity == 1 && a.options == CanvasLayerOptions.None &&
          TransformIsAxisPreserving w.d2d) = true then
        D2DCall.PushAxisAlignedClip
          (match a.clipRectangle with
            | some r => ToD2DRect r
            | none => InfiniteRect) w.d2d.antialiasMode
      else
        D2DCall.PushLayer
          { contentBounds := match a.clipRectangle with
              | some r => ToD2DRect r
              | none => InfiniteRect
            geometricMask := a.clipGeometry.map fun g => g.d2dGeometry
            maskAntialiasMode := w.d2d.antialiasMode
            maskTransform := match a.geometryTransform with
              | some m => m
              | none => Matrix3x2.Identity
            opacity := a.opacity
            opacityBrush := a.opacityBrush.map fun b => b.d2dBrush
            layerOptions := a.options }) ∧
    (s.CreateLayer w a).value =
      some ⟨preIncrement s.m_nextLayerId,
        a.clipRectangle.isSome && a.opacityBrush.isNone && a.clipGeometry.isNone &&
          a.opacity == 1 && a.options == CanvasLayerOptions.None &&
          TransformIsAxisPreserving w.d2d⟩ := by
  obtain ⟨op, br, cr, cg, gt, opts, lp⟩ := a
  simp only [CanvasDrawingSession.CreateLayer, CanvasDrawingSession.CreateLayerImpl,
    CanvasDrawingSession.GetResource, Ret.closed, CanvasDrawingSession.ToD2DBrush,
    GetWrappedResource] at hok ⊢
  cases lp
  · simp at hok
  · cases hres : s.resource with
    | none => simp [hres] at hok
    | some dc =>
      simp only [hres] at hok ⊢
      cases br with
      | none =>
        cases cg with
        | none => simp
        | some g =>
          by_cases hg : g.result = HRESULT.S_OK
          · simp [hg, Except.map]
          · simp [hg, Except.map] at hok
      | some b =>
        by_cases hb : b.result = HRESULT.S_OK
        · cases cg with
          | none => simp [hb]
          | some g =>
            by_cases hg : g.result = HRESULT.S_OK
            · simp [hb, hg, Except.map]
            · simp [hb, hg, Except.map] at hok
        · simp [hb] at hok

/-- C20: a successful layer push makes exactly one call on the device context.  It is
`PushAxisAlignedClip`, with the clip rectangle and the current antialias mode, when a
clip rectangle is given, there is no opacity brush and no clip geometry, the opacity is
exactly one, the options are None and the current transform has both off-diagonal
components zero; in every other case it is `PushLayer`, with the clip rectangle (the
infinite rectangle when none is given), the geometry, the current antialias mode, the
geometry transform (the identity when none is given), the opacity, the brush and the
options.  The handle returned records which of the two was pushed. -/
theorem C20_layer_push_primitive (s : CanvasDrawingSession) (w : World) (a : LayerRequest)
    (hok : (s.CreateLayer w a).outcome = Outcome.ok) :
    (∀ r, a.clipRectangle = some r → a.opacityBrush = none → a.clipGeometry = none →
      a.opacity = 1 → a.options = CanvasLayerOptions.None →
      w.d2d.transform.M12 = 0 → w.d2d.transform.M21 = 0 →
      w.callsSince (s.CreateLayer w a).world =
        [D2DCall.PushAxisAlignedClip (ToD2DRect r) w.d2d.antialiasMode] ∧
      ∃ id, (s.CreateLayer w a).value = some ⟨id, true⟩) ∧
    (¬ (a.clipRectangle.isSome = true ∧ a.opacityBrush = none ∧ a.clipGeometry = none ∧
        a.opacity = 1 ∧ a.options = CanvasLayerOptions.None ∧
        w.d2d.transform.M12 = 0 ∧ w.d2d.transform.M21 = 0) →
      w.callsSince (s.CreateLayer w a).world =
        [D2DCall.PushLayer
          { contentBounds := match a.clipRectangle with
              | some r => ToD2DRect r
              | none => InfiniteRect
            geometricMask := a.clipGeometry.map fun g => g.d2dGeometry
            maskAntialiasMode := w.d2d.antialiasMode
            maskTransform := match a.geometryTransform with
              | some m => m
              | none => Matrix3x2.Identity
            opacity := a.opacity
            opacityBrush := a.opacityBrush.map fun b => b.d2dBrush
            layerOptions := a.options }] ∧
      ∃ id, (s.CreateLayer w a).value = some ⟨id, false⟩) := by
  obtain ⟨hw, hv⟩ := CreateLayer_world s w a hok
  refine ⟨?_, ?_⟩
  · intro r hr hb hg hop hopt h12 h21
    have hc : (a.clipRectangle.isSome && a.opacityBrush.isNone && a.clipGeometry.isNone &&
        a.opacity == 1 && a.options == CanvasLayerOptions.None &&
        TransformIsAxisPreserving w.d2d) = true := by
      simp [hr, hb, hg, hop, hopt, TransformIsAxisPreserving, h12, h21]
    rw [hw, hv, hc, if_pos rfl, World.call_eq_logged, World.callsSince_logged, hr]
    exact ⟨rfl, _, rfl⟩
  · intro hn
    have hc : (a.clipRectangle.isSome && a.opacityBrush.isNone && a.clipGeometry.isNone &&
        a.opacity == 1 && a.options == CanvasLayerOptions.None &&
        TransformIsAxisPreserving w.d2d) = false := by
      by_contra hne
      apply hn
      simpa [TransformIsAxisPreserving, and_assoc] using hne
    rw [hw, hv, hc, if_neg (by decide), World.call_eq_logged, World.callsSince_logged]
    exact ⟨rfl, _, rfl⟩

/-- C20 at a concrete push: on `sampleSession`, whose transform is the identity, a
layer with a clip rectangle, opacity one and nothing else is pushed as an axis-aligned
clip. -/
theorem C20_layer_push_primitive_witness :
    (sampleSession.CreateLayer sampleOpenWorld
      ⟨1, none, some ⟨0, 0, 10, 10⟩, none, none, CanvasLayerOptions.None,
        Pointer.valid⟩).outcome = Outcome.ok ∧
    sampleOpenWorld.callsSince (sampleSession.CreateLayer sampleOpenWorld
      ⟨1, none, some ⟨0, 0, 10, 10⟩, none, none, CanvasLayerOptions.None,
        Pointer.valid⟩).world =
      [D2DCall.PushAxisAlignedClip (ToD2DRect ⟨0, 0, 10, 10⟩)
        sampleOpenWorld.d2d.antialiasMode] :=
  ⟨rfl,
    ((C20_layer_push_primitive sampleSession sampleOpenWorld
      ⟨1, none, some ⟨0, 0, 10, 10⟩, none, none, CanvasLayerOptions.None, Pointer.valid⟩
      rfl).1 ⟨0, 0, 10, 10⟩ rfl rfl rfl rfl rfl rfl rfl).1⟩

/-! ### The source rectangle of a draw to a rectangle -/

/-- The method `DrawImageToRect` on a bitmap, when the effects are created without
error: the border effect (with its DPI compensation) and, below opacity one, the
color-matrix effect are created, and then, unless the source rectangle clamped to the
bitmap has zero width or height, the temporary transform computed from the clamped
rectangle is set, the image is drawn from the clamped rectangle, and the former
transform is set again. -/
theorem DrawImageToRect_bitmap_eq (self : DrawImageWorker) (w : World) (b : ID2D1Bitmap)
    (destinationRect : Rect) (i : D2D1_INTERPOLATION_MODE) (m : D2D1_COMPOSITE_MODE)
    (S : Rect) (r : D2D1_RECT_F) (size : D2D1_SIZE_F)
    (hS : self.m_sourceRect = some S) (hr : self.m_d2dSourceRect = some r)
    (hsize : GetBitmapSize w.d2d.unitMode b = some size)
    (hborder : w.d2d.createBorderResult = HRESULT.S_OK)
    (hdpi : w.d2d.createDpiCompensationResult = HRESULT.S_OK)
    (hcm : self.m_opacity ≥ 1 ∨ w.d2d.createColorMatrixResult = HRESULT.S_OK) :
    self.DrawImageToRect w (ID2D1Image.bitmap b) destinationRect i m =
      (Outcome.ok,
        if min r.right size.width - max r.left 0 = 0 ∨
            min r.bottom size.height - max r.top 0 = 0 then
          w.logged ([D2DCall.CreateEffect CLSID.D2D1Border,
            D2DCall.CreateEffect CLSID.D2D1DpiCompensation] ++
            (if 1 ≤ self.m_opacity then []
              else [D2DCall.CreateEffect CLSID.D2D1ColorMatrix]))
        else
          w.logged ([D2DCall.CreateEffect CLSID.D2D1Border,
            D2DCall.CreateEffect CLSID.D2D1DpiCompensation] ++
            (if 1 ≤ self.m_opacity then []
              else [D2DCall.CreateEffect CLSID.D2D1ColorMatrix]) ++
            [D2DCall.SetTransform (TemporaryTransform w.d2d.transform
                ⟨destinationRect.X, destinationRect.Y⟩
                ⟨destinationRect.Width / (min r.right size.width - max r.left 0),
                  destinationRect.Height / (min r.bottom size.height - max r.top 0)⟩),
              D2DCall.DrawImage
                (if 1 ≤ self.m_opacity then ID2D1Image.borderEffectOutput b
                  else ID2D1Image.opacityEffectOutput (ID2D1Image.borderEffectOutput b)
                    false self.m_opacity)
                ⟨0, 0⟩
                (some ⟨max r.left 0, max r.top 0, min r.right size.width,
                  min r.bottom size.height⟩) i m,
              D2DCall.SetTransform w.d2d.transform])) := by
  unfold DrawImageWorker.DrawImageToRect DrawImageWorker.MaybeAdjustD2DSourceRect
    DrawImageWorker.MaybeApplyOpacityEffect SetDpiCompensatedEffectInput ThrowIfFailed
  by_cases hz : min r.right size.width - max r.left 0 = 0 ∨
      min r.bottom size.height - max r.top 0 = 0
  · by_cases hop : 1 ≤ self.m_opacity
    · simp [hS, hr, hsize, hborder, hdpi, hz, hop, World.call, World.logged]
    · rcases hcm with hcm | hcm
      · exact absurd hcm hop
      · simp [hS, hr, hsize, hborder, hdpi, hcm, hz, hop, World.call, World.logged]
  · by_cases hop : 1 ≤ self.m_opacity
    · simp [hS, hr, hsize, hborder, hdpi, hz, hop, World.call, World.logged,
        World.SetTransform]
      cases hd : w.d2d
      simp_all
    · rcases hcm with hcm | hcm
      · exact absurd hcm hop
      · simp [hS, hr, hsize, hborder, hdpi, hcm, hz, hop, World.call, World.logged,
          World.SetTransform]
        cases hd : w.d2d
        simp_all

/-- The method `DrawImageToRect` on an image that is not a bitmap, when the opacity
effect, if needed, is created without error: the source rectangle is used as it is. -/
theorem DrawImageToRect_image_eq (self : DrawImageWorker) (w : World) (img : ID2D1Image)
    (destinationRect : Rect) (i : D2D1_INTERPOLATION_MODE) (m : D2D1_COMPOSITE_MODE)
    (S : Rect) (r : D2D1_RECT_F)
    (hS : self.m_sourceRect = some S) (hr : self.m_d2dSourceRect = some r)
    (himg : img.isBitmap = false)
    (hcm : self.m_opacity ≥ 1 ∨ w.d2d.createColorMatrixResult = HRESULT.S_OK) :
    self.DrawImageToRect w img destinationRect i m =
      (Outcome.ok,
        if r.right - r.left = 0 ∨ r.bottom - r.top = 0 then
          w.logged (if 1 ≤ self.m_opacity then []
            else [D2DCall.CreateEffect CLSID.D2D1ColorMatrix])
        else
          w.logged ((if 1 ≤ self.m_opacity then []
              else [D2DCall.CreateEffect CLSID.D2D1ColorMatrix]) ++
            [D2DCall.SetTransform (TemporaryTransform w.d2d.transform
                ⟨destinationRect.X, destinationRect.Y⟩
                ⟨destinationRect.Width / (r.right - r.left),
                  destinationRect.Height / (r.bottom - r.top)⟩),
              D2DCall.DrawImage
                (if 1 ≤ self.m_opacity then img
                  else ID2D1Image.opacityEffectOutput img false self.m_opacity)
                ⟨0, 0⟩ (some r) i m,
              D2DCall.SetTransform w.d2d.transform])) := by
  unfold DrawImageWorker.DrawImageToRect DrawImageWorker.MaybeAdjustD2DSourceRect
    DrawImageWorker.MaybeApplyOpacityEffect ThrowIfFailed
  by_cases hz : r.right - r.left = 0 ∨ r.bottom - r.top = 0
  · by_cases hop : 1 ≤ self.m_opacity
    · cases img <;> simp [ID2D1Image.isBitmap] at himg <;>
        simp [hS, hr, hz, hop, World.call, World.logged]
    · rcases hcm with hcm | hcm
      · exact absurd hcm hop
      · cases img <;> simp [ID2D1Image.isBitmap] at himg <;>
          simp [hS, hr, hz, hop, hcm, World.call, World.logged]
  · by_cases hop : 1 ≤ self.m_opacity
    · cases img <;> simp [ID2D1Image.isBitmap] at himg <;>
        simp [hS, hr, hz, hop, World.call, World.logged, World.SetTransform]
    · rcases hcm with hcm | hcm
      · exact absurd hcm hop
      · cases img <;> simp [ID2D1Image.isBitmap] at himg <;>
          (simp [hS, hr, hz, hop, hcm, World.call, World.logged, World.SetTransform]
           cases hd : w.d2d
           simp_all)

/-- C21: in a slow-path draw to a destination rectangle (`DrawImageToRect`) with the
source rectangle (l, t, r, b), when the effects are created without error: for a bitmap
of size (w, h) in the current unit mode, the rectangle (max l 0, max t 0, min r w,
min b h) is the one whose width and height are tested for zero (then nothing but
effect creation is called), from which the scale of the temporary transform is
computed, and which is passed to the `DrawImage` call; for an image that is not a
bitmap the source rectangle itself plays these three parts. -/
theorem C21_source_rect_clamped_to_bitmap (self : DrawImageWorker) (w : World)
    (destinationRect : Rect) (i : D2D1_INTERPOLATION_MODE) (m : D2D1_COMPOSITE_MODE)
    (S : Rect) (r : D2D1_RECT_F)
    (hS : self.m_sourceRect = some S) (hr : self.m_d2dSourceRect = some r)
    (hcm : self.m_opacity ≥ 1 ∨ w.d2d.createColorMatrixResult = HRESULT.S_OK) :
    (∀ (b : ID2D1Bitmap) (size : D2D1_SIZE_F),
      GetBitmapSize w.d2d.unitMode b = some size →
      w.d2d.createBorderResult = HRESULT.S_OK →
      w.d2d.createDpiCompensationResult = HRESULT.S_OK →
      ((min r.right size.width - max r.left 0 = 0 ∨
          min r.bottom size.height - max r.top 0 = 0) →
        ∀ c ∈ w.callsSince
          (self.DrawImageToRect w (ID2D1Image.bitmap b) destinationRect i m).2,
          c.isCreateEffect = true) ∧
      (¬ (min r.right size.width - max r.left 0 = 0 ∨
          min r.bottom size.height - max r.top 0 = 0) →
        ∃ effects drawn, (∀ c ∈ effects, c.isCreateEffect = true) ∧
          w.callsSince
            (self.DrawImageToRect w (ID2D1Image.bitmap b) destinationRect i m).2 =
          effects ++
            [D2DCall.SetTransform (TemporaryTransform w.d2d.transform
                ⟨destinationRect.X, destinationRect.Y⟩
                ⟨destinationRect.Width / (min r.right size.width - max r.left 0),
                  destinationRect.Height / (min r.bottom size.height - max r.top 0)⟩),
              D2DCall.DrawImage drawn ⟨0, 0⟩
                (some ⟨max r.left 0, max r.top 0, min r.right size.width,
                  min r.bottom size.height⟩) i m,
              D2DCall.SetTransform w.d2d.transform])) ∧
    (∀ img : ID2D1Image, img.isBitmap = false →
      ((r.right - r.left = 0 ∨ r.bottom - r.top = 0) →
        ∀ c ∈ w.callsSince (self.DrawImageToRect w img destinationRect i m).2,
          c.isCreateEffect = true) ∧
      (¬ (r.right - r.left = 0 ∨ r.bottom - r.top = 0) →
        ∃ effects drawn, (∀ c ∈ effects, c.isCreateEffect = true) ∧
          w.callsSince (self.DrawImageToRect w img destinationRect i m).2 =
          effects ++
            [D2DCall.SetTransform (TemporaryTransform w.d2d.transform
                ⟨destinationRect.X, destinationRect.Y⟩
                ⟨destinationRect.Width / (r.right - r.left),
                  destinationRect.Height / (r.bottom - r.top)⟩),
              D2DCall.DrawImage drawn ⟨0, 0⟩ (some r) i m,
              D2DCall.SetTransform w.d2d.transform])) := by
  refine ⟨?_, ?_⟩
  · intro b size hsize hborder hdpi
    rw [DrawImageToRect_bitmap_eq self w b destinationRect i m S r size hS hr hsize hborder
      hdpi hcm]
    refine ⟨fun hz => ?_, fun hz => ?_⟩
    · rw [if_pos hz, World.callsSince_logged]
      by_cases hop : 1 ≤ self.m_opacity <;> simp [hop, D2DCall.isCreateEffect]
    · rw [if_neg hz, World.callsSince_logged]
      refine ⟨_, _, ?_, rfl⟩
      by_cases hop : 1 ≤ self.m_opacity <;> simp [hop, D2DCall.isCreateEffect]
  · intro img himg
    rw [DrawImageToRect_image_eq self w img destinationRect i m S r hS hr himg hcm]
    refine ⟨fun hz => ?_, fun hz => ?_⟩
    · rw [if_pos hz, World.callsSince_logged]
      by_cases hop : 1 ≤ self.m_opacity <;> simp [hop, D2DCall.isCreateEffect]
    · rw [if_neg hz, World.callsSince_logged]
      refine ⟨_, _, ?_, rfl⟩
      by_cases hop : 1 ≤ self.m_opacity <;> simp [hop, D2DCall.isCreateEffect]

/-- C21 at a concrete draw: the 64 by 64 `sampleBitmap` drawn to a rectangle from the
source rectangle (-10, -10, 90, 90) is drawn from the clamped rectangle, which also
gives the scale. -/
theorem C21_source_rect_clamped_to_bitmap_witness :
    ∃ effects drawn, (∀ c ∈ effects, c.isCreateEffect = true) ∧
      sampleOpenWorld.callsSince ((DrawImageWorker.ofArguments ⟨1⟩ none
        (some ⟨0, 0, 128, 128⟩) (some ⟨-10, -10, 100, 100⟩) 1
        CanvasImageInterpolation.Cubic).DrawImageToRect sampleOpenWorld
        (ID2D1Image.bitmap sampleBitmap.d2dBitmap) ⟨0, 0, 128, 128⟩
        D2D1_INTERPOLATION_MODE.CUBIC D2D1_COMPOSITE_MODE.SOURCE_OVER).2 =
      effects ++
        [D2DCall.SetTransform (TemporaryTransform sampleOpenWorld.d2d.transform ⟨0, 0⟩
            ⟨128 / (min 90 64 - max (-10) 0), 128 / (min 90 64 - max (-10) 0)⟩),
          D2DCall.DrawImage drawn ⟨0, 0⟩
            (some ⟨max (-10) 0, max (-10) 0, min 90 64, min 90 64⟩)
            D2D1_INTERPOLATION_MODE.CUBIC D2D1_COMPOSITE_MODE.SOURCE_OVER,
          D2DCall.SetTransform sampleOpenWorld.d2d.transform] :=
  ((C21_source_rect_clamped_to_bitmap
    (DrawImageWorker.ofArguments ⟨1⟩ none (some ⟨0, 0, 128, 128⟩)
      (some ⟨-10, -10, 100, 100⟩) 1 CanvasImageInterpolation.Cubic) sampleOpenWorld
    ⟨0, 0, 128, 128⟩ D2D1_INTERPOLATION_MODE.CUBIC D2D1_COMPOSITE_MODE.SOURCE_OVER
    ⟨-10, -10, 100, 100⟩ ⟨-10, -10, 90, 90⟩ rfl
    (by simp [DrawImageWorker.ofArguments, ToD2DRect]; norm_num)
    (Or.inl (by simp [DrawImageWorker.ofArguments]))).1 sampleBitmap.d2dBitmap ⟨64, 64⟩ rfl
    rfl rfl).2 (by norm_num)

/-! ### The source rectangle of a draw at an offset -/

/-- C22, as stated, fails: the 64 by 64 `sampleBitmap`, drawn on the slow path (Cubic)
at an offset from the source rectangle (-10, -10, 90, 90), is drawn by one `DrawImage`
call that is given that very rectangle, not the rectangle clamped to the bitmap. -/
theorem C22_offset_draw_not_clamped_counterexample :
    sampleOpenWorld.callsSince
      (sampleSession.DrawImageAtOffsetWithSourceRectAndOpacityAndInterpolation
        sampleOpenWorld (some (ICanvasImage.bitmap sampleBitmap)) ⟨0, 0⟩
        ⟨-10, -10, 100, 100⟩ 1 CanvasImageInterpolation.Cubic).world =
      [D2DCall.DrawImage (ID2D1Image.bitmap sampleBitmap.d2dBitmap) ⟨0, 0⟩
        (some ⟨-10, -10, 90, 90⟩) D2D1_INTERPOLATION_MODE.CUBIC
        D2D1_COMPOSITE_MODE.SOURCE_OVER] ∧
    (⟨-10, -10, 90, 90⟩ : D2D1_RECT_F) ≠
      ⟨max (-10) 0, max (-10) 0, min 90 sampleBitmap.d2dBitmap.size.width,
        min 90 sampleBitmap.d2dBitmap.size.height⟩ := by
  refine ⟨?_, ?_⟩
  · obtain ⟨device, hd⟩ := DrawImageImpl_open sampleSession sampleOpenWorld ⟨7⟩ rfl
      (ICanvasImage.bitmap sampleBitmap) (some ⟨0, 0⟩) none (some ⟨-10, -10, 100, 100⟩) 1
      CanvasImageInterpolation.Cubic none (Or.inl rfl)
    unfold CanvasDrawingSession.DrawImageAtOffsetWithSourceRectAndOpacityAndInterpolation
    rw [hd, DrawImage_of_not_takesBitmapPath
        (DrawImageWorker.ofArguments device (some ⟨0, 0⟩) none (some ⟨-10, -10, 100, 100⟩) 1
          CanvasImageInterpolation.Cubic) sampleOpenWorld (ICanvasImage.bitmap sampleBitmap)
        none rfl,
      DrawImageSlowPath_at_offset_opaque _ sampleOpenWorld (ICanvasImage.bitmap sampleBitmap)
        none (ID2D1Image.bitmap sampleBitmap.d2dBitmap) D2D1_COMPOSITE_MODE.SOURCE_OVER
        ⟨0, 0⟩ rfl rfl rfl (by simp [DrawImageWorker.ofArguments])]
    simp only [World.call_eq_logged, World.callsSince_logged, GetD2DSourceRect_ofArguments]
    simp [DrawImageWorker.ofArguments, CanvasImageInterpolation.toD2D, ToD2DRect,
      ToD2DPoint]
    norm_num
  · simp [sampleBitmap]

/-- C22, amended: a slow-path draw at an offset (`DrawImageAtOffset`) with a source
rectangle, whatever the image (a bitmap or not), when the opacity effect is created
without error if it is needed: the draw succeeds, the last call is the one `DrawImage`,
at the offset and with the requested source rectangle unchanged; the calls before it
only create the opacity effect (none at opacity one or more, and the image is then
drawn as it is); no border effect is created. -/
theorem C22_offset_draw_passes_source_rect_unchanged (device : ICanvasDevice)
    (offset : Vector2) (sourceRect : Rect) (opacity : ℚ)
    (interpolation : CanvasImageInterpolation) (w : World) (img : ID2D1Image)
    (i : D2D1_INTERPOLATION_MODE) (m : D2D1_COMPOSITE_MODE)
    (heffect : opacity ≥ 1 ∨ (w.d2d.createColorMatrixResult = HRESULT.S_OK ∧
      w.d2d.createDpiCompensationResult = HRESULT.S_OK)) :
    ((DrawImageWorker.ofArguments device (some offset) none (some sourceRect) opacity
      interpolation).DrawImageAtOffset w img offset i m).1 = Outcome.ok ∧
    ∃ effects drawn,
      (∀ c ∈ effects, c.isCreateEffect = true ∧ c ≠ D2DCall.CreateEffect CLSID.D2D1Border) ∧
      (opacity ≥ 1 → effects = [] ∧ drawn = img) ∧
      w.callsSince ((DrawImageWorker.ofArguments device (some offset) none (some sourceRect)
        opacity interpolation).DrawImageAtOffset w img offset i m).2 =
        effects ++ [D2DCall.DrawImage drawn (ToD2DPoint offset) (some (ToD2DRect sourceRect))
          i m] := by
  have hsrc := GetD2DSourceRect_ofArguments device (some offset) none (some sourceRect)
    opacity interpolation
  have hopacity : (DrawImageWorker.ofArguments device (some offset) none (some sourceRect)
    opacity interpolation).m_opacity = opacity := rfl
  unfold DrawImageWorker.DrawImageAtOffset DrawImageWorker.MaybeApplyOpacityEffect
    SetDpiCompensatedEffectInput ThrowIfFailed
  rw [hsrc, hopacity]
  by_cases hop : 1 ≤ opacity
  · refine ⟨by simp [hop], [], img, by simp, fun _ => ⟨rfl, rfl⟩, ?_⟩
    simp [hop, World.call_eq_logged, World.callsSince_logged]
  · rcases heffect with h | ⟨hcm, hdpi⟩
    · exact absurd h hop
    · cases img with
      | bitmap b =>
        have hdpi1 : (w.call (D2DCall.CreateEffect
          CLSID.D2D1ColorMatrix)).d2d.createDpiCompensationResult = HRESULT.S_OK := hdpi
        refine ⟨by simp [hop, hcm, hdpi1], [D2DCall.CreateEffect CLSID.D2D1ColorMatrix,
          D2DCall.CreateEffect CLSID.D2D1DpiCompensation],
          ID2D1Image.opacityEffectOutput (ID2D1Image.bitmap b) true opacity,
          by simp [D2DCall.isCreateEffect],
          fun h => absurd h hop, ?_⟩
        simp [hop, hcm, hdpi, World.call_eq_logged, World.logged_d2d, World.logged_logged,
          World.callsSince_logged]
      | image n =>
        refine ⟨by simp [hop, hcm], [D2DCall.CreateEffect CLSID.D2D1ColorMatrix],
          ID2D1Image.opacityEffectOutput (ID2D1Image.image n) false opacity,
          by simp [D2DCall.isCreateEffect], fun h => absurd h hop, ?_⟩
        simp [hop, hcm, World.call_eq_logged, World.logged_logged, World.callsSince_logged]
      | opacityEffectOutput a b c =>
        refine ⟨by simp [hop, hcm], [D2DCall.CreateEffect CLSID.D2D1ColorMatrix],
          ID2D1Image.opacityEffectOutput (ID2D1Image.opacityEffectOutput a b c) false opacity,
          by simp [D2DCall.isCreateEffect], fun h => absurd h hop, ?_⟩
        simp [hop, hcm, World.call_eq_logged, World.logged_logged, World.callsSince_logged]
      | borderEffectOutput a =>
        refine ⟨by simp [hop, hcm], [D2DCall.CreateEffect CLSID.D2D1ColorMatrix],
          ID2D1Image.opacityEffectOutput (ID2D1Image.borderEffectOutput a) false opacity,
          by simp [D2DCall.isCreateEffect], fun h => absurd h hop, ?_⟩
        simp [hop, hcm, World.call_eq_logged, World.logged_logged, World.callsSince_logged]

/-- C22 amended, at a concrete draw: the worker drawing `sampleBitmap` at the origin
from the source rectangle (-10, -10, 90, 90) passes that rectangle to `DrawImage`. -/
theorem C22_offset_draw_passes_source_rect_unchanged_witness :
    ∃ effects drawn,
      (∀ c ∈ effects, c.isCreateEffect = true ∧ c ≠ D2DCall.CreateEffect CLSID.D2D1Border) ∧
      ((1 : ℚ) ≥ 1 → effects = [] ∧ drawn = ID2D1Image.bitmap sampleBitmap.d2dBitmap) ∧
      sampleOpenWorld.callsSince ((DrawImageWorker.ofArguments ⟨1⟩ (some ⟨0, 0⟩) none
        (some ⟨-10, -10, 100, 100⟩) 1 CanvasImageInterpolation.Cubic).DrawImageAtOffset
        sampleOpenWorld (ID2D1Image.bitmap sampleBitmap.d2dBitmap) ⟨0, 0⟩
        D2D1_INTERPOLATION_MODE.CUBIC D2D1_COMPOSITE_MODE.SOURCE_OVER).2 =
        effects ++ [D2DCall.DrawImage drawn (ToD2DPoint ⟨0, 0⟩)
          (some (ToD2DRect ⟨-10, -10, 100, 100⟩)) D2D1_INTERPOLATION_MODE.CUBIC
          D2D1_COMPOSITE_MODE.SOURCE_OVER] :=
  (C22_offset_draw_passes_source_rect_unchanged ⟨1⟩ ⟨0, 0⟩ ⟨-10, -10, 100, 100⟩ 1
    CanvasImageInterpolation.Cubic sampleOpenWorld (ID2D1Image.bitmap sampleBitmap.d2dBitmap)
    D2D1_INTERPOLATION_MODE.CUBIC D2D1_COMPOSITE_MODE.SOURCE_OVER (Or.inl (le_refl 1))).2

/-! ### Sequences of pushes and closes -/

theorem CreateLayer_failed (s : CanvasDrawingSession) (w : World) (a : LayerRequest)
    (hne : (s.CreateLayer w a).outcome ≠ Outcome.ok) :
    (s.CreateLayer w a).self = s ∧ (s.CreateLayer w a).world = w ∧
    (s.CreateLayer w a).value = none := by
  obtain ⟨op, br, cr, cg, gt, opts, lp⟩ := a
  simp only [CanvasDrawingSession.CreateLayer, CanvasDrawingSession.CreateLayerImpl,
    CanvasDrawingSession.GetResource, Ret.closed, CanvasDrawingSession.ToD2DBrush,
    GetWrappedResource] at hne ⊢
  cases lp
  · simp
  · cases hres : s.resource with
    | none => simp
    | some dc =>
      simp only [hres] at hne ⊢
      cases br with
      | none =>
        cases cg with
        | none => simp at hne
        | some g =>
          by_cases hg : g.result = HRESULT.S_OK
          · simp [hg, Except.map] at hne
          · simp [hg, Except.map]
      | some b =>
        by_cases hb : b.result = HRESULT.S_OK
        · cases cg with
          | none => simp [hb] at hne
          | some g =>
            by_cases hg : g.result = HRESULT.S_OK
            · simp [hb, hg, Except.map] at hne
            · simp [hb, hg, Except.map]
        · simp [hb]

/-- A push either fails and changes nothing, or succeeds: the counter is incremented,
the new id goes on the stack and into the handle, and one push primitive of the
handle's kind is logged. -/
theorem CreateLayer_cases (s : CanvasDrawingSession) (w : World) (a : LayerRequest) :
    ((s.CreateLayer w a).outcome ≠ Outcome.ok ∧ (s.CreateLayer w a).self = s ∧
      (s.CreateLayer w a).world = w ∧ (s.CreateLayer w a).value = none) ∨
    ((s.CreateLayer w a).outcome = Outcome.ok ∧
      (s.CreateLayer w a).self =
        { s with m_nextLayerId := preIncrement s.m_nextLayerId
                 m_activeLayerIds := s.m_activeLayerIds ++ [preIncrement s.m_nextLayerId] } ∧
      ∃ kind call, (s.CreateLayer w a).value = some ⟨preIncrement s.m_nextLayerId, kind⟩ ∧
        (s.CreateLayer w a).world = w.call call ∧ call.pushKind = some kind) := by
  by_cases hok : (s.CreateLayer w a).outcome = Outcome.ok
  · right
    obtain ⟨-, hself, -⟩ := CreateLayerImpl_ok s w a hok
    obtain ⟨hw, hv⟩ := CreateLayer_world s w a hok
    refine ⟨hok, hself, _, _, hv, hw, ?_⟩
    split <;> simp_all [D2DCall.pushKind]
  · left
    exact ⟨hok, CreateLayer_failed s w a hok⟩

/-- Closing a handle either fails and changes nothing, or succeeds: the handle's id
was on top of the stack and is removed, and one pop primitive of the handle's kind is
logged. -/
theorem closeAction_step (s : CanvasDrawingSession) (w : World) (h : CanvasActiveLayer) :
    (∃ o, o ≠ Outcome.ok ∧ h.closeAction (some s) w = (o, some s, w)) ∨
    (s.m_activeLayerIds = s.m_activeLayerIds.dropLast ++ [h.layerId] ∧
      ∃ call, call.popKind = some h.isAxisAlignedClip ∧ call.pushKind = none ∧
        h.closeAction (some s) w =
          (Outcome.ok, some { s with m_activeLayerIds := s.m_activeLayerIds.dropLast },
            w.call call)) := by
  rcases Option.eq_none_or_eq_some s.resource with hres | ⟨dc, hres⟩
  · left
    refine ⟨Outcome.threw HRESULT.RO_E_CLOSED none, by simp, ?_⟩
    simp [CanvasActiveLayer.closeAction, CanvasDrawingSession.PopLayer,
      CanvasDrawingSession.GetResource, hres, Ret.closed]
  · rcases closeAction_cases s w dc hres h with ⟨-, h2, h3⟩ | ⟨-, -, h2⟩ | ⟨-, h2⟩
    · right
      refine ⟨h3, _, ?_, ?_, h2⟩
      · cases h.isAxisAlignedClip <;> rfl
      · cases h.isAxisAlignedClip <;> rfl
    · left
      exact ⟨_, by simp, h2⟩
    · left
      exact ⟨_, by simp, h2⟩

theorem Close_keeps_layers (s : CanvasDrawingSession) (w : World) :
    (s.Close w).self.m_activeLayerIds = s.m_activeLayerIds ∧
    (s.Close w).self.m_nextLayerId = s.m_nextLayerId ∧
    (s.Close w).world.backendCalls = w.backendCalls := by
  unfold CanvasDrawingSession.Close CanvasDrawingSession.ReleaseResource
    CanvasDrawingSession.MaybeGetResource CanvasDrawingSession.resetCachedMembers
    ThrowIfFailed
  simp only
  repeat' split
  all_goals exact ⟨rfl, rfl, rfl⟩

theorem preIncrement_of_lt (n : Int) (h : n < 2147483647) : preIncrement n = n + 1 := by
  unfold preIncrement
  split <;> omega

/-- One event keeps the facts about the ids: the counter moves up by at most one, the
stack stays strictly increasing with ids between 1 and the counter, and so do the ids
of the handles issued. -/
theorem LayerState.step_ids (t : LayerState) (e : LayerEvent)
    (hmax : t.session.m_nextLayerId < 2147483647)
    (hstack : t.session.m_activeLayerIds.Pairwise (fun a b => a < b))
    (hrange : ∀ id ∈ t.session.m_activeLayerIds, 1 ≤ id ∧ id ≤ t.session.m_nextLayerId)
    (hhandles : (t.handles.map CanvasActiveLayer.layerId).Pairwise (fun a b => a < b))
    (hhrange : ∀ h ∈ t.handles, 1 ≤ h.layerId ∧ h.layerId ≤ t.session.m_nextLayerId)
    (hzero : 0 ≤ t.session.m_nextLayerId) :
    t.session.m_nextLayerId ≤ (t.step e).session.m_nextLayerId ∧
    (t.step e).session.m_nextLayerId ≤ t.session.m_nextLayerId + 1 ∧
    (t.step e).session.m_activeLayerIds.Pairwise (fun a b => a < b) ∧
    (∀ id ∈ (t.step e).session.m_activeLayerIds,
      1 ≤ id ∧ id ≤ (t.step e).session.m_nextLayerId) ∧
    ((t.step e).handles.map CanvasActiveLayer.layerId).Pairwise (fun a b => a < b) ∧
    (∀ h ∈ (t.step e).handles, 1 ≤ h.layerId ∧ h.layerId ≤ (t.step e).session.m_nextLayerId) := by
  cases e with
  | push request =>
    simp only [LayerState.step]
    rcases CreateLayer_cases t.session t.world request with
      ⟨-, hs, -, hv⟩ | ⟨-, hs, kind, call, hv, -, -⟩
    · rw [hs, hv]
      simp only [Option.toList, List.append_nil]
      exact ⟨le_refl _, by omega, hstack, hrange, hhandles, hhrange⟩
    · rw [hs, hv, preIncrement_of_lt _ hmax]
      simp only [Option.toList, List.map_append, List.map_cons, List.map_nil]
      refine ⟨by omega, le_refl _, ?_, ?_, ?_, ?_⟩
      · rw [List.pairwise_append]
        refine ⟨hstack, List.pairwise_singleton _ _, ?_⟩
        intro a ha b hb
        have := (hrange a ha).2
        simp at hb
        omega
      · intro id hid
        simp at hid
        rcases hid with hid | hid
        · have := hrange id hid
          omega
        · omega
      · rw [List.pairwise_append]
        refine ⟨hhandles, List.pairwise_singleton _ _, ?_⟩
        intro a ha b hb
        simp at ha hb
        obtain ⟨h0, hh0, rfl⟩ := ha
        have := (hhrange h0 hh0).2
        omega
      · intro h hh
        simp at hh
        rcases hh with hh | hh
        · have := hhrange h hh
          omega
        · subst hh
          simp
          omega
  | closeHandle k =>
    simp only [LayerState.step]
    cases hk : t.handles[k]? with
    | none =>
      simp only
      exact ⟨le_refl _, by omega, hstack, hrange, hhandles, hhrange⟩
    | some handle =>
      simp only
      rcases closeAction_step t.session t.world handle with ⟨o, -, hc⟩ | ⟨hl, call, -, -, hc⟩
      · rw [hc]
        simp only
        exact ⟨le_refl _, by omega, hstack, hrange, hhandles, hhrange⟩
      · rw [hc]
        simp only
        rw [hl] at hstack
        refine ⟨le_refl _, by omega, (List.pairwise_append.1 hstack).1, ?_, hhandles, hhrange⟩
        intro id hid
        exact hrange id (by rw [hl]; exact List.mem_append_left _ hid)
  | close =>
    simp only [LayerState.step]
    obtain ⟨h1, h2, -⟩ := Close_keeps_layers t.session t.world
    rw [h1, h2]
    exact ⟨le_refl _, by omega, hstack, hrange, hhandles, hhrange⟩

theorem LayerState.run_cons (t : LayerState) (e : LayerEvent) (events : List LayerEvent) :
    t.run (e :: events) = (t.step e).run events := rfl

/-- A sequence of events, short enough for the counter not to overflow, keeps the
facts about the ids. -/
theorem LayerState.run_ids (events : List LayerEvent) :
    ∀ t : LayerState,
    t.session.m_nextLayerId + (events.length : Int) ≤ 2147483647 →
    t.session.m_activeLayerIds.Pairwise (fun a b => a < b) →
    (∀ id ∈ t.session.m_activeLayerIds, 1 ≤ id ∧ id ≤ t.session.m_nextLayerId) →
    (t.handles.map CanvasActiveLayer.layerId).Pairwise (fun a b => a < b) →
    (∀ h ∈ t.handles, 1 ≤ h.layerId ∧ h.layerId ≤ t.session.m_nextLayerId) →
    0 ≤ t.session.m_nextLayerId →
    t.session.m_nextLayerId ≤ (t.run events).session.m_nextLayerId ∧
    (t.run events).session.m_nextLayerId ≤ t.session.m_nextLayerId + (events.length : Int) ∧
    (t.run events).session.m_activeLayerIds.Pairwise (fun a b => a < b) ∧
    (∀ id ∈ (t.run events).session.m_activeLayerIds,
      1 ≤ id ∧ id ≤ (t.run events).session.m_nextLayerId) ∧
    ((t.run events).handles.map CanvasActiveLayer.layerId).Pairwise (fun a b => a < b) ∧
    (∀ h ∈ (t.run events).handles,
      1 ≤ h.layerId ∧ h.layerId ≤ (t.run events).session.m_nextLayerId) := by
  induction events with
  | nil =>
    intro t _ hstack hrange hhandles hhrange _
    exact ⟨le_refl _, by simp [LayerState.run], hstack, hrange, hhandles, hhrange⟩
  | cons e events ih =>
    intro t hbound hstack hrange hhandles hhrange hzero
    simp only [List.length_cons, Nat.cast_add, Nat.cast_one] at hbound ⊢
    obtain ⟨h1, h2, h3, h4, h5, h6⟩ := LayerState.step_ids t e (by omega) hstack hrange
      hhandles hhrange hzero
    obtain ⟨k1, k2, k3, k4, k5, k6⟩ := ih (t.step e) (by omega) h3 h4 h5 h6 (by omega)
    rw [LayerState.run_cons]
    exact ⟨by omega, by omega, k3, k4, k5, k6⟩

theorem unmatchedPushes_append_one (calls : List D2DCall) (c : D2DCall) :
    unmatchedPushes (calls ++ [c]) = nestingStep (unmatchedPushes calls) c := by
  simp [unmatchedPushes, List.foldl_append]

/-- Two handles issued with the same id are the same handle. -/
theorem handle_eq_of_layerId (handles : List CanvasActiveLayer)
    (hp : (handles.map CanvasActiveLayer.layerId).Pairwise (fun a b => a < b))
    (a b : CanvasActiveLayer) (ha : a ∈ handles) (hb : b ∈ handles)
    (h : a.layerId = b.layerId) : a = b :=
  List.inj_on_of_nodup_map (hp.imp (fun hlt => ne_of_lt hlt)) ha hb h

/-- One event keeps the correspondence between the open-id stack, the handles that
are open, and the pushes of the call log not yet matched by a pop. -/
theorem LayerState.step_nesting (t : LayerState) (e : LayerEvent) (base : List D2DCall)
    (hhandles : (t.handles.map CanvasActiveLayer.layerId).Pairwise (fun a b => a < b))
    (hinv : ∃ (opened : List CanvasActiveLayer) (calls : List D2DCall),
      opened.map CanvasActiveLayer.layerId = t.session.m_activeLayerIds ∧
      (∀ h ∈ opened, h ∈ t.handles) ∧ t.world.backendCalls = base ++ calls ∧
      unmatchedPushes calls = some (opened.map CanvasActiveLayer.isAxisAlignedClip)) :
    ∃ (opened : List CanvasActiveLayer) (calls : List D2DCall),
      opened.map CanvasActiveLayer.layerId = (t.step e).session.m_activeLayerIds ∧
      (∀ h ∈ opened, h ∈ (t.step e).handles) ∧
      (t.step e).world.backendCalls = base ++ calls ∧
      unmatchedPushes calls = some (opened.map CanvasActiveLayer.isAxisAlignedClip) := by
  obtain ⟨opened, calls, hmap, hmem, hcalls, hun⟩ := hinv
  cases e with
  | push request =>
    simp only [LayerState.step]
    rcases CreateLayer_cases t.session t.world request with
      ⟨-, hs, hw, hv⟩ | ⟨-, hs, kind, call, hv, hw, hkind⟩
    · rw [hs, hw, hv]
      exact ⟨opened, calls, hmap, by simpa using hmem, hcalls, hun⟩
    · rw [hs, hw, hv]
      refine ⟨opened ++ [⟨preIncrement t.session.m_nextLayerId, kind⟩], calls ++ [call],
        by simp [hmap], ?_, ?_, ?_⟩
      · intro h hh
        simp at hh ⊢
        rcases hh with hh | hh
        · exact Or.inl (hmem h hh)
        · exact Or.inr hh
      · simp [World.call, hcalls]
      · rw [unmatchedPushes_append_one, hun]
        simp [nestingStep, hkind]
  | closeHandle k =>
    simp only [LayerState.step]
    cases hk : t.handles[k]? with
    | none =>
      simp only
      exact ⟨opened, calls, hmap, hmem, hcalls, hun⟩
    | some handle =>
      simp only
      rcases closeAction_step t.session t.world handle with
        ⟨o, -, hc⟩ | ⟨hl, call, hpop, hpush, hc⟩
      · rw [hc]
        simp only
        exact ⟨opened, calls, hmap, hmem, hcalls, hun⟩
      · rw [hc]
        simp only
        rcases List.eq_nil_or_concat opened with hnil | ⟨l, o, hlo⟩
        · rw [hnil, hl] at hmap
          simp at hmap
        · rw [List.concat_eq_append] at hlo
          subst hlo
          rw [hl, List.map_append, List.map_cons, List.map_nil] at hmap
          obtain ⟨hl1, hl2⟩ := List.append_inj' hmap rfl
          have hid : o.layerId = handle.layerId := by simpa using hl2
          have ho : o = handle := handle_eq_of_layerId t.handles hhandles o handle
            (hmem o (by simp)) (List.getElem?_mem hk) hid
          refine ⟨l, calls ++ [call], hl1, fun h hh => hmem h (by simp [hh]), ?_, ?_⟩
          · simp [World.call, hcalls]
          · rw [unmatchedPushes_append_one, hun]
            simp [nestingStep, hpush, hpop, ho]
  | close =>
    simp only [LayerState.step]
    obtain ⟨h1, -, h3⟩ := Close_keeps_layers t.session t.world
    rw [h1, h3]
    exact ⟨opened, calls, hmap, hmem, hcalls, hun⟩

/-- A sequence of events, short enough for the counter not to overflow, keeps the
correspondence between the stack, the open handles and the unmatched pushes. -/
theorem LayerState.run_nesting (events : List LayerEvent) (base : List D2DCall) :
    ∀ t : LayerState,
    t.session.m_nextLayerId + (events.length : Int) ≤ 2147483647 →
    t.session.m_activeLayerIds.Pairwise (fun a b => a < b) →
    (∀ id ∈ t.session.m_activeLayerIds, 1 ≤ id ∧ id ≤ t.session.m_nextLayerId) →
    (t.handles.map CanvasActiveLayer.layerId).Pairwise (fun a b => a < b) →
    (∀ h ∈ t.handles, 1 ≤ h.layerId ∧ h.layerId ≤ t.session.m_nextLayerId) →
    0 ≤ t.session.m_nextLayerId →
    (∃ (opened : List CanvasActiveLayer) (calls : List D2DCall),
      opened.map CanvasActiveLayer.layerId = t.session.m_activeLayerIds ∧
      (∀ h ∈ opened, h ∈ t.handles) ∧ t.world.backendCalls = base ++ calls ∧
      unmatchedPushes calls = some (opened.map CanvasActiveLayer.isAxisAlignedClip)) →
    ∃ (opened : List CanvasActiveLayer) (calls : List D2DCall),
      opened.map CanvasActiveLayer.layerId = (t.run events).session.m_activeLayerIds ∧
      (∀ h ∈ opened, h ∈ (t.run events).handles) ∧
      (t.run events).world.backendCalls = base ++ calls ∧
      unmatchedPushes calls = some (opened.map CanvasActiveLayer.isAxisAlignedClip) := by
  induction events with
  | nil =>
    intro t _ _ _ _ _ _ hinv
    exact hinv
  | cons e events ih =>
    intro t hbound hstack hrange hhandles hhrange hzero hinv
    simp only [List.length_cons, Nat.cast_add, Nat.cast_one] at hbound
    obtain ⟨h1, h2, h3, h4, h5, h6⟩ := LayerState.step_ids t e (by omega) hstack hrange
      hhandles hhrange hzero
    rw [LayerState.run_cons]
    exact ih (t.step e) (by omega) h3 h4 h5 h6 (by omega)
      (LayerState.step_nesting t e base hhandles hinv)

/-- C24: in the state a new session reaches by any sequence of layer pushes, handle
closes and `Close` calls (short enough for the `int` counter not to overflow), the
push and pop primitives issued since its construction are well nested by kind, and the
pushes not yet matched by a pop are, oldest first, those of the handles whose ids are
on the open-id stack, bottom to top, each of the kind its handle records; so their
number is the length of the stack.  From that state, a successful push issues exactly
one push primitive, of the kind recorded in the handle it returns, and a successful
close of a handle issues exactly one pop primitive, of the handle's kind, the handle
being the one of the most recent unmatched push. -/
theorem C24_pushes_and_pops_nested_by_kind (deviceContext : ID2D1DeviceContext1)
    (adapter : Option ICanvasDrawingSessionAdapter) (owner : Option ICanvasDevice)
    (flag : Bool) (offset : D2D1_POINT_2F) (w : World) (events : List LayerEvent)
    (hbound : events.length ≤ 2147483647) :
    ∃ opened : List CanvasActiveLayer,
      opened.map CanvasActiveLayer.layerId =
        ((LayerState.start deviceContext adapter owner flag offset w).run
          events).session.m_activeLayerIds ∧
      (∀ h ∈ opened, h ∈ ((LayerState.start deviceContext adapter owner flag offset w).run
        events).handles) ∧
      unmatchedPushes ((LayerState.start deviceContext adapter owner flag offset
          w).world.callsSince
        ((LayerState.start deviceContext adapter owner flag offset w).run events).world) =
        some (opened.map CanvasActiveLayer.isAxisAlignedClip) ∧
      (opened.map CanvasActiveLayer.isAxisAlignedClip).length =
        ((LayerState.start deviceContext adapter owner flag offset w).run
          events).session.m_activeLayerIds.length ∧
      (∀ request : LayerRequest,
        (((LayerState.start deviceContext adapter owner flag offset w).run
          events).session.CreateLayer
          ((LayerState.start deviceContext adapter owner flag offset w).run events).world
          request).outcome = Outcome.ok →
        ∃ handle call,
          (((LayerState.start deviceContext adapter owner flag offset w).run
            events).session.CreateLayer
            ((LayerState.start deviceContext adapter owner flag offset w).run events).world
            request).value = some handle ∧
          ((LayerState.start deviceContext adapter owner flag offset w).run
            events).world.callsSince
            (((LayerState.start deviceContext adapter owner flag offset w).run
              events).session.CreateLayer
              ((LayerState.start deviceContext adapter owner flag offset w).run events).world
              request).world = [call] ∧
          call.pushKind = some handle.isAxisAlignedClip) ∧
      (∀ (k : Nat) (handle : CanvasActiveLayer),
        ((LayerState.start deviceContext adapter owner flag offset w).run
          events).handles[k]? = some handle →
        (handle.closeAction
          (some ((LayerState.start deviceContext adapter owner flag offset w).run
            events).session)
          ((LayerState.start deviceContext adapter owner flag offset w).run
            events).world).1 = Outcome.ok →
        opened.getLast? = some handle ∧
        ∃ call,
          ((LayerState.start deviceContext adapter owner flag offset w).run
            events).world.callsSince
            (handle.closeAction
              (some ((LayerState.start deviceContext adapter owner flag offset w).run
                events).session)
              ((LayerState.start deviceContext adapter owner flag offset w).run
                events).world).2.2 = [call] ∧
          call.popKind = some handle.isAxisAlignedClip) := by
  have hstart : (LayerState.start deviceContext adapter owner flag offset w).session.m_nextLayerId
      = 0 ∧
      (LayerState.start deviceContext adapter owner flag offset w).session.m_activeLayerIds
      = [] ∧
      (LayerState.start deviceContext adapter owner flag offset w).handles = [] := by
    unfold LayerState.start CanvasDrawingSession.Constructor
    cases flag <;> simp
  obtain ⟨hc, hs, hh⟩ := hstart
  generalize hstartEq : LayerState.start deviceContext adapter owner flag offset w = t0 at *
  obtain ⟨-, -, -, -, k5, -⟩ := LayerState.run_ids events t0
    (by rw [hc]; omega) (by rw [hs]; exact List.Pairwise.nil) (by rw [hs]; simp)
    (by rw [hh]; exact List.Pairwise.nil) (by rw [hh]; simp) (by rw [hc])
  obtain ⟨opened, calls, hmap, hmem, hcalls, hun⟩ := LayerState.run_nesting events
    t0.world.backendCalls t0
    (by rw [hc]; omega) (by rw [hs]; exact List.Pairwise.nil) (by rw [hs]; simp)
    (by rw [hh]; exact List.Pairwise.nil) (by rw [hh]; simp) (by rw [hc])
    ⟨[], [], by rw [hs]; rfl, by simp, by simp, rfl⟩
  generalize t0.run events = t at *
  refine ⟨opened, hmap, hmem, ?_, ?_, ?_, ?_⟩
  · have : t0.world.callsSince t.world = calls := by
      simp [World.callsSince, hcalls]
    rw [this, hun]
  · rw [← hmap]
    simp
  · intro request hok
    rcases CreateLayer_cases t.session t.world request with
      ⟨hne, -⟩ | ⟨-, -, kind, call, hv, hw, hkind⟩
    · exact absurd hok hne
    · exact ⟨_, call, hv, by rw [hw, World.call_eq_logged, World.callsSince_logged], hkind⟩
  · intro k handle hk hok
    rcases closeAction_step t.session t.world handle with
      ⟨o, hne, hcl⟩ | ⟨hl, call, hpop, -, hcl⟩
    · rw [hcl] at hok
      exact absurd hok hne
    · rw [hcl]
      refine ⟨?_, call, by simp [World.call_eq_logged, World.callsSince_logged], hpop⟩
      rcases List.eq_nil_or_concat opened with hnil | ⟨l, o, hlo⟩
      · rw [hnil, hl] at hmap
        simp at hmap
      · rw [List.concat_eq_append] at hlo
        subst hlo
        rw [hl, List.map_append, List.map_cons, List.map_nil] at hmap
        obtain ⟨-, hl2⟩ := List.append_inj' hmap rfl
        have hid : o.layerId = handle.layerId := by simpa using hl2
        have ho : o = handle := handle_eq_of_layerId t.handles k5 o handle
          (hmem o (by simp)) (List.getElem?_mem hk) hid
        simp [ho]

/-- C24 at a concrete sequence: after the first three events of `sampleLayerEvents`
(two pushes and a close attempted out of order) the calls made since the construction
are well nested, the unmatched pushes being those of the open handles. -/
theorem C24_pushes_and_pops_nested_by_kind_witness :
    (sampleLayerEvents.take 3).length ≤ 2147483647 ∧
    ∃ opened : List CanvasActiveLayer,
      opened.map CanvasActiveLayer.layerId =
        ((LayerState.start ⟨7⟩ (some sampleAdapter) (some ⟨1⟩) true ⟨0, 0⟩ sampleWorld).run
          (sampleLayerEvents.take 3)).session.m_activeLayerIds ∧
      unmatchedPushes ((LayerState.start ⟨7⟩ (some sampleAdapter) (some ⟨1⟩) true ⟨0, 0⟩
          sampleWorld).world.callsSince
        ((LayerState.start ⟨7⟩ (some sampleAdapter) (some ⟨1⟩) true ⟨0, 0⟩ sampleWorld).run
          (sampleLayerEvents.take 3)).world) =
        some (opened.map CanvasActiveLayer.isAxisAlignedClip) :=
  ⟨by decide,
    (C24_pushes_and_pops_nested_by_kind ⟨7⟩ (some sampleAdapter) (some ⟨1⟩) true ⟨0, 0⟩
      sampleWorld (sampleLayerEvents.take 3) (by decide)).elim
      fun opened h => ⟨opened, h.1, h.2.2.1⟩⟩

/-! ### The border effect -/

/-- The opacity stage logs no creation of a border effect. -/
theorem MaybeApplyOpacityEffect_border (self : DrawImageWorker) (w : World)
    (img : ID2D1Image) :
    ∃ new, (self.MaybeApplyOpacityEffect w img).2.2 = w.logged new ∧
      new.count (D2DCall.CreateEffect CLSID.D2D1Border) = 0 := by
  unfold DrawImageWorker.MaybeApplyOpacityEffect SetDpiCompensatedEffectInput ThrowIfFailed
  by_cases hop : 1 ≤ self.m_opacity
  · exact ⟨[], by simp [hop, World.logged_nil], rfl⟩
  · by_cases hcm : w.d2d.createColorMatrixResult = HRESULT.S_OK
    · cases img with
      | bitmap b =>
        by_cases hdpi : w.d2d.createDpiCompensationResult = HRESULT.S_OK
        · exact ⟨[D2DCall.CreateEffect CLSID.D2D1ColorMatrix,
            D2DCall.CreateEffect CLSID.D2D1DpiCompensation],
            by simp [hop, hcm, hdpi, World.call, World.logged], by decide⟩
        · exact ⟨[D2DCall.CreateEffect CLSID.D2D1ColorMatrix,
            D2DCall.CreateEffect CLSID.D2D1DpiCompensation],
            by simp [hop, hcm, hdpi, World.call, World.logged], by decide⟩
      | image n =>
        exact ⟨[D2DCall.CreateEffect CLSID.D2D1ColorMatrix],
          by simp [hop, hcm, World.call, World.logged], by decide⟩
      | opacityEffectOutput a b c =>
        exact ⟨[D2DCall.CreateEffect CLSID.D2D1ColorMatrix],
          by simp [hop, hcm, World.call, World.logged], by decide⟩
      | borderEffectOutput a =>
        exact ⟨[D2DCall.CreateEffect CLSID.D2D1ColorMatrix],
          by simp [hop, hcm, World.call, World.logged], by decide⟩
    · exact ⟨[D2DCall.CreateEffect CLSID.D2D1ColorMatrix],
        by simp [hop, hcm, World.call, World.logged], by decide⟩

/-- The source-rectangle stage creates the border effect for a bitmap, once, and
never for another image. -/
theorem MaybeAdjustD2DSourceRect_border (self : DrawImageWorker) (w : World)
    (img : ID2D1Image) :
    ∃ new, (self.MaybeAdjustD2DSourceRect w img).2.2.2 = w.logged new ∧
      (img.isBitmap = false → new.count (D2DCall.CreateEffect CLSID.D2D1Border) = 0) ∧
      (∀ b r size, img = ID2D1Image.bitmap b → self.m_d2dSourceRect = some r →
        GetBitmapSize w.d2d.unitMode b = some size →
        new.count (D2DCall.CreateEffect CLSID.D2D1Border) = 1) := by
  unfold DrawImageWorker.MaybeAdjustD2DSourceRect SetDpiCompensatedEffectInput ThrowIfFailed
  cases img with
  | bitmap b =>
    cases hr : self.m_d2dSourceRect with
    | none => exact ⟨[], by simp [World.logged_nil], by simp, by simp⟩
    | some r =>
      cases hs : GetBitmapSize w.d2d.unitMode b with
      | none =>
        refine ⟨[], by simp [hs, World.logged_nil], by simp [ID2D1Image.isBitmap], ?_⟩
        intro b1 r1 size hb _ hsize
        cases hb
        rw [hs] at hsize
        cases hsize
      | some size =>
        by_cases hb : w.d2d.createBorderResult = HRESULT.S_OK
        · by_cases hdpi : w.d2d.createDpiCompensationResult = HRESULT.S_OK
          · exact ⟨[D2DCall.CreateEffect CLSID.D2D1Border,
              D2DCall.CreateEffect CLSID.D2D1DpiCompensation],
              by simp [hs, hb, hdpi, World.call, World.logged],
              by simp [ID2D1Image.isBitmap], fun _ _ _ _ _ _ => by decide⟩
          · exact ⟨[D2DCall.CreateEffect CLSID.D2D1Border,
              D2DCall.CreateEffect CLSID.D2D1DpiCompensation],
              by simp [hs, hb, hdpi, World.call, World.logged],
              by simp [ID2D1Image.isBitmap], fun _ _ _ _ _ _ => by decide⟩
        · exact ⟨[D2DCall.CreateEffect CLSID.D2D1Border],
            by simp [hs, hb, World.call, World.logged],
            by simp [ID2D1Image.isBitmap], fun _ _ _ _ _ _ => by decide⟩
  | image n => exact ⟨[], by simp [World.logged_nil], by simp, by simp⟩
  | opacityEffectOutput a b c => exact ⟨[], by simp [World.logged_nil], by simp, by simp⟩
  | borderEffectOutput a => exact ⟨[], by simp [World.logged_nil], by simp, by simp⟩

/-- How often `DrawImageToRect` creates the border effect: never for an image that is
not a bitmap; once for a bitmap, when there is a source rectangle and the unit mode
gives the bitmap a size. -/
theorem DrawImageToRect_border (self : DrawImageWorker) (w : World) (img : ID2D1Image)
    (destinationRect : Rect) (i : D2D1_INTERPOLATION_MODE) (m : D2D1_COMPOSITE_MODE) :
    ∃ new, (self.DrawImageToRect w img destinationRect i m).2 = w.logged new ∧
      (img.isBitmap = false → new.count (D2DCall.CreateEffect CLSID.D2D1Border) = 0) ∧
      (∀ b S r size, img = ID2D1Image.bitmap b → self.m_sourceRect = some S →
        self.m_d2dSourceRect = some r → GetBitmapSize w.d2d.unitMode b = some size →
        new.count (D2DCall.CreateEffect CLSID.D2D1Border) = 1) := by
  unfold DrawImageWorker.DrawImageToRect
  cases hsr : self.m_sourceRect with
  | none => exact ⟨[], by simp [World.logged_nil], by simp, by simp⟩
  | some sr =>
    obtain ⟨n1, h1, h2, h3⟩ := MaybeAdjustD2DSourceRect_border self w img
    have h3a : ∀ b S r size, img = ID2D1Image.bitmap b → some sr = some S →
        self.m_d2dSourceRect = some r → GetBitmapSize w.d2d.unitMode b = some size →
        n1.count (D2DCall.CreateEffect CLSID.D2D1Border) = 1 :=
      fun b _ r size hb _ hr hs => h3 b r size hb hr hs
    rcases ha : self.MaybeAdjustD2DSourceRect w img with ⟨o, self1, img1, w1⟩
    rw [ha] at h1
    simp only at h1
    subst h1
    cases o with
    | threw hr1 msg => exact ⟨n1, rfl, h2, h3a⟩
    | assertFailed => exact ⟨n1, rfl, h2, h3a⟩
    | ok =>
      obtain ⟨n2, k1, k2⟩ := MaybeApplyOpacityEffect_border self1 (w.logged n1) img1
      rcases hb : self1.MaybeApplyOpacityEffect (w.logged n1) img1 with ⟨o2, img2, w2⟩
      rw [hb] at k1
      simp only at k1
      subst k1
      simp only [hb]
      have hcount : (n1 ++ n2).count (D2DCall.CreateEffect CLSID.D2D1Border) =
          n1.count (D2DCall.CreateEffect CLSID.D2D1Border) := by
        rw [List.count_append, k2]
        rfl
      have hboth : ∀ new : List D2DCall,
          new.count (D2DCall.CreateEffect CLSID.D2D1Border) =
            n1.count (D2DCall.CreateEffect CLSID.D2D1Border) →
          (img.isBitmap = false → new.count (D2DCall.CreateEffect CLSID.D2D1Border) = 0) ∧
          (∀ b S r size, img = ID2D1Image.bitmap b → some sr = some S →
            self.m_d2dSourceRect = some r → GetBitmapSize w.d2d.unitMode b = some size →
            new.count (D2DCall.CreateEffect CLSID.D2D1Border) = 1) :=
        fun new hnew => ⟨fun h => by rw [hnew]; exact h2 h,
          fun b S r size hb hS hr hs => by rw [hnew]; exact h3a b S r size hb hS hr hs⟩
      cases o2 with
      | threw hr1 msg =>
        exact ⟨n1 ++ n2, by simp [World.logged_logged], hboth _ hcount⟩
      | assertFailed =>
        exact ⟨n1 ++ n2, by simp [World.logged_logged], hboth _ hcount⟩
      | ok =>
        simp only
        cases hd : self1.m_d2dSourceRect with
        | none => exact ⟨n1 ++ n2, by simp [World.logged_logged], hboth _ hcount⟩
        | some r =>
          simp only
          by_cases hz : r.right - r.left = 0 ∨ r.bottom - r.top = 0
          · exact ⟨n1 ++ n2, by simp [hz, World.logged_logged], hboth _ hcount⟩
          · refine ⟨(n1 ++ n2) ++ [D2DCall.SetTransform
                (TemporaryTransform ((w.logged n1).logged n2).d2d.transform
                  ⟨destinationRect.X, destinationRect.Y⟩
                  ⟨destinationRect.Width / (r.right - r.left),
                    destinationRect.Height / (r.bottom - r.top)⟩),
              D2DCall.DrawImage img2 ⟨0, 0⟩ (some r) i m,
              D2DCall.SetTransform ((w.logged n1).logged n2).d2d.transform], ?_,
              hboth _ ?_⟩
            · simp only [hz, if_false]
              rw [World.setTransform_restore, World.logged_logged, World.logged_logged,
                List.append_assoc]
            · rw [List.count_append, hcount]
              simp

/-- C25: a slow-path draw to a destination rectangle (`DrawImageToRect`, with its
source rectangle) calls the creation of the border effect exactly once when the image
is a bitmap (the unit mode being DIPs or pixels, so that the bitmap has a size), whatever
the source rectangle is (changed by the clamp or not, of zero size or not) and however
the later stages end, and never when the image is not a bitmap.  When the effects are
created without error, the border effect is created first, followed by the DPI
compensation that feeds it the bitmap, and what is drawn afterwards, if anything, is
the output of the border effect over that bitmap (behind the opacity effect, below
opacity one). -/
theorem C25_border_effect_iff_bitmap (self : DrawImageWorker) (w : World)
    (img : ID2D1Image) (destinationRect : Rect) (i : D2D1_INTERPOLATION_MODE)
    (m : D2D1_COMPOSITE_MODE) (S : Rect) (r : D2D1_RECT_F)
    (hS : self.m_sourceRect = some S) (hr : self.m_d2dSourceRect = some r) :
    (img.isBitmap = false →
      (w.callsSince (self.DrawImageToRect w img destinationRect i m).2).count
        (D2DCall.CreateEffect CLSID.D2D1Border) = 0) ∧
    (∀ b size, img = ID2D1Image.bitmap b → GetBitmapSize w.d2d.unitMode b = some size →
      (w.callsSince (self.DrawImageToRect w img destinationRect i m).2).count
        (D2DCall.CreateEffect CLSID.D2D1Border) = 1) ∧
    (∀ b size, img = ID2D1Image.bitmap b → GetBitmapSize w.d2d.unitMode b = some size →
      w.d2d.createBorderResult = HRESULT.S_OK →
      w.d2d.createDpiCompensationResult = HRESULT.S_OK →
      (self.m_opacity ≥ 1 ∨ w.d2d.createColorMatrixResult = HRESULT.S_OK) →
      ∃ rest, w.callsSince (self.DrawImageToRect w img destinationRect i m).2 =
          [D2DCall.CreateEffect CLSID.D2D1Border,
            D2DCall.CreateEffect CLSID.D2D1DpiCompensation] ++ rest ∧
        ∀ drawn offset source interpolation composite,
          D2DCall.DrawImage drawn offset source interpolation composite ∈ rest →
          drawn = ID2D1Image.borderEffectOutput b ∨
          drawn = ID2D1Image.opacityEffectOutput (ID2D1Image.borderEffectOutput b) false
            self.m_opacity) := by
  obtain ⟨new, h1, h2, h3⟩ := DrawImageToRect_border self w img destinationRect i m
  refine ⟨?_, ?_, ?_⟩
  · intro himg
    rw [h1, World.callsSince_logged]
    exact h2 himg
  · intro b size hb hsize
    rw [h1, World.callsSince_logged]
    exact h3 b S r size hb hS hr hsize
  · intro b size hb hsize hborder hdpi hcm
    subst hb
    rw [DrawImageToRect_bitmap_eq self w b destinationRect i m S r size hS hr hsize hborder
      hdpi hcm]
    simp only
    split
    · rw [World.callsSince_logged]
      refine ⟨_, rfl, ?_⟩
      intro drawn offset source interpolation composite hmem
      split at hmem <;> simp at hmem
    · rw [World.callsSince_logged, List.append_assoc]
      refine ⟨_, rfl, ?_⟩
      intro drawn offset source interpolation composite hmem
      by_cases hop : 1 ≤ self.m_opacity
      · simp [hop] at hmem
        exact Or.inl hmem.1
      · simp [hop] at hmem
        exact Or.inr hmem.1

/-- C25 at a concrete draw: `sampleBitmap` drawn to a rectangle from a source rectangle
of width zero (so nothing is drawn) still has the border effect created once. -/
theorem C25_border_effect_iff_bitmap_witness :
    (sampleOpenWorld.callsSince ((DrawImageWorker.ofArguments ⟨1⟩ none
      (some ⟨0, 0, 128, 128⟩) (some ⟨0, 0, 0, 10⟩) 1
      CanvasImageInterpolation.Cubic).DrawImageToRect sampleOpenWorld
      (ID2D1Image.bitmap sampleBitmap.d2dBitmap) ⟨0, 0, 128, 128⟩
      D2D1_INTERPOLATION_MODE.CUBIC D2D1_COMPOSITE_MODE.SOURCE_OVER).2).count
      (D2DCall.CreateEffect CLSID.D2D1Border) = 1 :=
  (C25_border_effect_iff_bitmap
    (DrawImageWorker.ofArguments ⟨1⟩ none (some ⟨0, 0, 128, 128⟩) (some ⟨0, 0, 0, 10⟩) 1
      CanvasImageInterpolation.Cubic) sampleOpenWorld
    (ID2D1Image.bitmap sampleBitmap.d2dBitmap) ⟨0, 0, 128, 128⟩
    D2D1_INTERPOLATION_MODE.CUBIC D2D1_COMPOSITE_MODE.SOURCE_OVER ⟨0, 0, 0, 10⟩
    (ToD2DRect ⟨0, 0, 0, 10⟩) rfl rfl).2.1 sampleBitmap.d2dBitmap ⟨64, 64⟩ rfl rfl

/-! ### The temporary transform maps the source rectangle onto the destination -/

/-- The temporary transform is the scale followed by the translation, in front of the
transform that was current. -/
theorem TemporaryTransform_eq (previous : Matrix3x2) (offset scale : Vector2) :
    TemporaryTransform previous offset scale =
      (⟨scale.X, 0, 0, scale.Y, offset.X, offset.Y⟩ : Matrix3x2).mul previous := by
  simp [TemporaryTransform, Matrix3x2.mul]

theorem transformPoint_mul (a b : Matrix3x2) (p : D2D1_POINT_2F) :
    (a.mul b).transformPoint p = b.transformPoint (a.transformPoint p) := by
  simp only [Matrix3x2.transformPoint, Matrix3x2.mul, D2D1_POINT_2F.mk.injEq]
  constructor <;> ring

/-- C26: in a slow-path draw to a destination rectangle D (`DrawImageToRect`), let
the rectangle used be the source rectangle, clamped to the bitmap when the image is a
bitmap, and let it have a width sw and a height sh that are not zero (the effects
being created without error).  Then the transform set for the draw is the local
transform, the scale (D.Width / sw, D.Height / sh) followed by the translation
(D.X, D.Y), in front of the transform that was current; the local transform maps (0, 0)
to (D.X, D.Y) and (sw, sh) to (D.X + D.Width, D.Y + D.Height); the `DrawImage` call is
made at (0, 0) with the rectangle used; and the two divisions are by sw and sh, which
are not zero. -/
theorem C26_temporary_transform_maps_source_onto_destination (self : DrawImageWorker)
    (w : World) (img : ID2D1Image) (destinationRect : Rect) (i : D2D1_INTERPOLATION_MODE)
    (m : D2D1_COMPOSITE_MODE) (S : Rect) (r used : D2D1_RECT_F)
    (hS : self.m_sourceRect = some S) (hr : self.m_d2dSourceRect = some r)
    (hcm : self.m_opacity ≥ 1 ∨ w.d2d.createColorMatrixResult = HRESULT.S_OK)
    (hused : (img.isBitmap = false ∧ used = r) ∨
      (∃ b size, img = ID2D1Image.bitmap b ∧ GetBitmapSize w.d2d.unitMode b = some size ∧
        w.d2d.createBorderResult = HRESULT.S_OK ∧
        w.d2d.createDpiCompensationResult = HRESULT.S_OK ∧
        used = ⟨max r.left 0, max r.top 0, min r.right size.width,
          min r.bottom size.height⟩))
    (hwidth : used.right - used.left ≠ 0) (hheight : used.bottom - used.top ≠ 0) :
    (∃ effects drawn, (∀ c ∈ effects, c.isCreateEffect = true) ∧
      w.callsSince (self.DrawImageToRect w img destinationRect i m).2 =
        effects ++
          [D2DCall.SetTransform
              ((⟨destinationRect.Width / (used.right - used.left), 0, 0,
                destinationRect.Height / (used.bottom - used.top),
                destinationRect.X, destinationRect.Y⟩ : Matrix3x2).mul w.d2d.transform),
            D2DCall.DrawImage drawn ⟨0, 0⟩ (some used) i m,
            D2DCall.SetTransform w.d2d.transform]) ∧
    (⟨destinationRect.Width / (used.right - used.left), 0, 0,
      destinationRect.Height / (used.bottom - used.top),
      destinationRect.X, destinationRect.Y⟩ : Matrix3x2).transformPoint ⟨0, 0⟩ =
      ⟨destinationRect.X, destinationRect.Y⟩ ∧
    (⟨destinationRect.Width / (used.right - used.left), 0, 0,
      destinationRect.Height / (used.bottom - used.top),
      destinationRect.X, destinationRect.Y⟩ : Matrix3x2).transformPoint
        ⟨used.right - used.left, used.bottom - used.top⟩ =
      ⟨destinationRect.X + destinationRect.Width,
        destinationRect.Y + destinationRect.Height⟩ ∧
    (∀ p : D2D1_POINT_2F,
      ((⟨destinationRect.Width / (used.right - used.left), 0, 0,
        destinationRect.Height / (used.bottom - used.top),
        destinationRect.X, destinationRect.Y⟩ : Matrix3x2).mul
          w.d2d.transform).transformPoint p =
        w.d2d.transform.transformPoint
          ((⟨destinationRect.Width / (used.right - used.left), 0, 0,
            destinationRect.Height / (used.bottom - used.top),
            destinationRect.X, destinationRect.Y⟩ : Matrix3x2).transformPoint p)) := by
  refine ⟨?_, ?_, ?_, fun p => transformPoint_mul _ _ p⟩
  · rcases hused with ⟨himg, hu⟩ | ⟨b, size, hb, hsize, hborder, hdpi, hu⟩
    · subst hu
      rw [DrawImageToRect_image_eq self w img destinationRect i m S used hS hr himg hcm,
        if_neg (by simp [hwidth, hheight]), World.callsSince_logged, TemporaryTransform_eq]
      refine ⟨_, _, ?_, rfl⟩
      by_cases hop : 1 ≤ self.m_opacity <;> simp [hop, D2DCall.isCreateEffect]
    · subst hb
      subst hu
      rw [DrawImageToRect_bitmap_eq self w b destinationRect i m S r size hS hr hsize hborder
        hdpi hcm, if_neg (by simpa using And.intro hwidth hheight), World.callsSince_logged,
        TemporaryTransform_eq]
      refine ⟨_, _, ?_, rfl⟩
      by_cases hop : 1 ≤ self.m_opacity <;> simp [hop, D2DCall.isCreateEffect]
  · simp [Matrix3x2.transformPoint]
  · simp only [Matrix3x2.transformPoint, D2D1_POINT_2F.mk.injEq]
    constructor
    · field_simp
      ring
    · field_simp
      ring

/-- C26 at a concrete draw: an effect image drawn from (0, 0, 64, 64) to the rectangle
at (10, 20) of size 128 by 128; the local transform maps the corner (64, 64) of the
source to the corner (138, 148) of the destination. -/
theorem C26_temporary_transform_maps_source_onto_destination_witness :
    (⟨0, 0, 64, 64⟩ : D2D1_RECT_F).right - (⟨0, 0, 64, 64⟩ : D2D1_RECT_F).left ≠ 0 ∧
    (⟨0, 0, 64, 64⟩ : D2D1_RECT_F).bottom - (⟨0, 0, 64, 64⟩ : D2D1_RECT_F).top ≠ 0 ∧
    (⟨(⟨10, 20, 128, 128⟩ : Rect).Width /
        ((⟨0, 0, 64, 64⟩ : D2D1_RECT_F).right - (⟨0, 0, 64, 64⟩ : D2D1_RECT_F).left), 0, 0,
      (⟨10, 20, 128, 128⟩ : Rect).Height /
        ((⟨0, 0, 64, 64⟩ : D2D1_RECT_F).bottom - (⟨0, 0, 64, 64⟩ : D2D1_RECT_F).top),
      (⟨10, 20, 128, 128⟩ : Rect).X, (⟨10, 20, 128, 128⟩ : Rect).Y⟩ :
        Matrix3x2).transformPoint
        ⟨(⟨0, 0, 64, 64⟩ : D2D1_RECT_F).right - (⟨0, 0, 64, 64⟩ : D2D1_RECT_F).left,
          (⟨0, 0, 64, 64⟩ : D2D1_RECT_F).bottom - (⟨0, 0, 64, 64⟩ : D2D1_RECT_F).top⟩ =
      ⟨(⟨10, 20, 128, 128⟩ : Rect).X + (⟨10, 20, 128, 128⟩ : Rect).Width,
        (⟨10, 20, 128, 128⟩ : Rect).Y + (⟨10, 20, 128, 128⟩ : Rect).Height⟩ :=
  ⟨by norm_num, by norm_num,
    (C26_temporary_transform_maps_source_onto_destination
      (DrawImageWorker.ofArguments ⟨1⟩ none (some ⟨10, 20, 128, 128⟩) (some ⟨0, 0, 64, 64⟩) 1
        CanvasImageInterpolation.Linear) sampleOpenWorld (ID2D1Image.image 5)
      ⟨10, 20, 128, 128⟩ D2D1_INTERPOLATION_MODE.LINEAR D2D1_COMPOSITE_MODE.SOURCE_OVER
      ⟨0, 0, 64, 64⟩ ⟨0, 0, 64, 64⟩ ⟨0, 0, 64, 64⟩ rfl
      (by simp [DrawImageWorker.ofArguments, ToD2DRect])
      (Or.inl (by simp [DrawImageWorker.ofArguments])) (Or.inl ⟨rfl, rfl⟩) (by norm_num)
      (by norm_num)).2.2.1⟩

/-! ### Changing the units keeps the logical transform -/

theorem DipsToPixelsFloor_zero (dpi : ℚ) : DipsToPixelsFloor 0 dpi = 0 := by
  simp [DipsToPixelsFloor, Rat.floor]

/-- C27: on an open session, in the unit mode DIPs or pixels, `put_Units` to DIPs or
pixels succeeds and sets the unit mode of the device context; `get_Transform` right
after it succeeds and returns the matrix `get_Transform` returned right before it
(same session offset, same DPI).  With a session offset of zero the transform of the
device context itself is unchanged, and the steps of the other branch (get the
transform, set the unit mode, set the transform) would have left the device context in
the same state. -/
theorem C27_put_Units_preserves_logical_transform (s : CanvasDrawingSession) (w : World)
    (dc : ID2D1DeviceContext1) (value : CanvasUnits) (hopen : s.resource = some dc)
    (hunit : w.d2d.unitMode = D2D1_UNIT_MODE.DIPS ∨ w.d2d.unitMode = D2D1_UNIT_MODE.PIXELS)
    (hvalue : value = CanvasUnits.Dips ∨ value = CanvasUnits.Pixels) :
    (s.put_Units w value).outcome = Outcome.ok ∧
    (s.put_Units w value).world.d2d.unitMode = value.toD2D ∧
    (s.put_Units w value).world.d2d.dpi = w.d2d.dpi ∧
    (s.get_Transform w Pointer.valid).outcome = Outcome.ok ∧
    ((s.put_Units w value).self.get_Transform (s.put_Units w value).world
      Pointer.valid).outcome = Outcome.ok ∧
    ((s.put_Units w value).self.get_Transform (s.put_Units w value).world
      Pointer.valid).value = (s.get_Transform w Pointer.valid).value ∧
    (s.m_offset.x = 0 → s.m_offset.y = 0 →
      (s.put_Units w value).world.d2d.transform = w.d2d.transform ∧
      ∀ transform w2, GetTransform w.d2d s.m_offset = some transform →
        SetTransform (w.SetUnitMode value.toD2D) s.m_offset transform = some w2 →
        w2.d2d = (s.put_Units w value).world.d2d) := by
  unfold CanvasDrawingSession.put_Units CanvasDrawingSession.get_Transform SetTransform
    GetTransform GetOffsetInCorrectUnits CanvasDrawingSession.GetResource World.SetTransform
    World.SetUnitMode
  by_cases hoff : s.m_offset.x ≠ 0 ∨ s.m_offset.y ≠ 0
  · rcases hunit with hu | hu <;> rcases hvalue with hv | hv <;>
      simp [hopen, hu, hv, hoff, World.call, CanvasUnits.toD2D] <;>
      (intro hx hy
       rcases hoff with h | h
       · exact absurd hx h
       · exact absurd hy h)
  · have hx : s.m_offset.x = 0 := by
      by_contra h
      exact hoff (Or.inl h)
    have hy : s.m_offset.y = 0 := by
      by_contra h
      exact hoff (Or.inr h)
    rcases hunit with hu | hu <;> rcases hvalue with hv | hv <;>
      simp [hopen, hu, hv, hx, hy, World.call, CanvasUnits.toD2D, DipsToPixelsFloor_zero]

/-- C27 at a concrete session: a new session with the offset (3, 4), in DIPs, is
switched to pixels; `get_Transform` returns afterwards what it returned before. -/
theorem C27_put_Units_preserves_logical_transform_witness :
    (CanvasDrawingSession.Constructor ⟨7⟩ (some sampleAdapter) (some ⟨1⟩) true ⟨3, 4⟩
      sampleWorld).1.resource = some ⟨7⟩ ∧
    sampleOpenWorld.d2d.unitMode = D2D1_UNIT_MODE.DIPS ∧
    (((CanvasDrawingSession.Constructor ⟨7⟩ (some sampleAdapter) (some ⟨1⟩) true ⟨3, 4⟩
        sampleWorld).1.put_Units sampleOpenWorld CanvasUnits.Pixels).self.get_Transform
      ((CanvasDrawingSession.Constructor ⟨7⟩ (some sampleAdapter) (some ⟨1⟩) true ⟨3, 4⟩
        sampleWorld).1.put_Units sampleOpenWorld CanvasUnits.Pixels).world
      Pointer.valid).value =
      ((CanvasDrawingSession.Constructor ⟨7⟩ (some sampleAdapter) (some ⟨1⟩) true ⟨3, 4⟩
        sampleWorld).1.get_Transform sampleOpenWorld Pointer.valid).value :=
  ⟨rfl, rfl,
    (C27_put_Units_preserves_logical_transform
      (CanvasDrawingSession.Constructor ⟨7⟩ (some sampleAdapter) (some ⟨1⟩) true ⟨3, 4⟩
        sampleWorld).1 sampleOpenWorld ⟨7⟩ CanvasUnits.Pixels rfl (Or.inl rfl)
      (Or.inr rfl)).2.2.2.2.2.1⟩

/-! ### The composite mode of an eligible request -/

/-- C28: whenever `IsValidDrawBitmapCompositeMode` accepts the primitive blend and the
optional composite override, the composite mode the slow path would resolve for the
same request (the override cast to the Direct2D enumeration, else
`GetCompositeModeFromPrimitiveBlend`) is defined, without error, and is the mode
`GetCompositeModeFromPrimitiveBlend` gives for the primitive blend: `SOURCE_OVER`,
`SOURCE_COPY` or `PLUS` for SourceOver, Copy or Add. -/
theorem C28_eligible_composite_matches_blend (w : World)
    (composite : Option CanvasComposite)
    (h : DrawImageWorker.IsValidDrawBitmapCompositeMode w composite = true) :
    ∃ mode, DrawImageWorker.d2dCompositeMode w composite = Except.ok mode ∧
      DrawImageWorker.GetCompositeModeFromPrimitiveBlend w = Except.ok mode ∧
      ((w.d2d.primitiveBlend = D2D1_PRIMITIVE_BLEND.SOURCE_OVER ∧
          mode = D2D1_COMPOSITE_MODE.SOURCE_OVER) ∨
        (w.d2d.primitiveBlend = D2D1_PRIMITIVE_BLEND.COPY ∧
          mode = D2D1_COMPOSITE_MODE.SOURCE_COPY) ∨
        (w.d2d.primitiveBlend = D2D1_PRIMITIVE_BLEND.ADD ∧
          mode = D2D1_COMPOSITE_MODE.PLUS)) := by
  unfold DrawImageWorker.IsValidDrawBitmapCompositeMode at h
  unfold DrawImageWorker.d2dCompositeMode DrawImageWorker.GetCompositeModeFromPrimitiveBlend
  cases hb : w.d2d.primitiveBlend with
  | SOURCE_OVER =>
    rw [hb] at h
    refine ⟨D2D1_COMPOSITE_MODE.SOURCE_OVER, ?_, rfl, Or.inl ⟨rfl, rfl⟩⟩
    cases composite with
    | none => rfl
    | some c =>
      have hc : c = CanvasComposite.SourceOver := by simpa using h
      rw [hc]
      rfl
  | COPY =>
    rw [hb] at h
    refine ⟨D2D1_COMPOSITE_MODE.SOURCE_COPY, ?_, rfl, Or.inr (Or.inl ⟨rfl, rfl⟩)⟩
    cases composite with
    | none => rfl
    | some c =>
      have hc : c = CanvasComposite.Copy := by simpa using h
      rw [hc]
      rfl
  | ADD =>
    rw [hb] at h
    refine ⟨D2D1_COMPOSITE_MODE.PLUS, ?_, rfl, Or.inr (Or.inr ⟨rfl, rfl⟩)⟩
    cases composite with
    | none => rfl
    | some c =>
      have hc : c = CanvasComposite.Add := by simpa using h
      rw [hc]
      rfl
  | MIN =>
    rw [hb] at h
    simp at h
  | other v =>
    rw [hb] at h
    simp at h

/-- C28 at a concrete request: with the blend Add and the override Add, the check
accepts and both resolutions give `PLUS`. -/
theorem C28_eligible_composite_matches_blend_witness :
    DrawImageWorker.IsValidDrawBitmapCompositeMode addBlendWorld
      (some CanvasComposite.Add) = true ∧
    ∃ mode, DrawImageWorker.d2dCompositeMode addBlendWorld (some CanvasComposite.Add) =
        Except.ok mode ∧
      DrawImageWorker.GetCompositeModeFromPrimitiveBlend addBlendWorld = Except.ok mode :=
  ⟨rfl,
    (C28_eligible_composite_matches_blend addBlendWorld (some CanvasComposite.Add) rfl).elim
      fun mode h => ⟨mode, h.1, h.2.1⟩⟩

/-! ### The assertions of the worker -/

theorem MaybeApplyOpacityEffect_ne_assertFailed (self : DrawImageWorker) (w : World)
    (img : ID2D1Image) : (self.MaybeApplyOpacityEffect w img).1 ≠ Outcome.assertFailed := by
  unfold DrawImageWorker.MaybeApplyOpacityEffect SetDpiCompensatedEffectInput ThrowIfFailed
  by_cases hop : 1 ≤ self.m_opacity
  · simp [hop]
  · by_cases hcm : w.d2d.createColorMatrixResult = HRESULT.S_OK
    · by_cases hdpi : w.d2d.createDpiCompensationResult = HRESULT.S_OK
      · cases img <;> simp [hop, hcm, hdpi, World.call]
      · cases img <;> simp [hop, hcm, hdpi, World.call]
    · simp [hop, hcm]

theorem DrawImageAtOffset_ne_assertFailed (self : DrawImageWorker) (w : World)
    (img : ID2D1Image) (offset : Vector2) (i : D2D1_INTERPOLATION_MODE)
    (m : D2D1_COMPOSITE_MODE) :
    (self.DrawImageAtOffset w img offset i m).1 ≠ Outcome.assertFailed := by
  have h := MaybeApplyOpacityEffect_ne_assertFailed self w img
  unfold DrawImageWorker.DrawImageAtOffset
  rcases hb : self.MaybeApplyOpacityEffect w img with ⟨o, img1, w1⟩
  rw [hb] at h
  cases o <;> simp_all

/-- With a source rectangle, and in the unit mode DIPs or pixels, the source-rectangle
stage does not fail an assertion and leaves the worker with a source rectangle. -/
theorem MaybeAdjustD2DSourceRect_ne_assertFailed (self : DrawImageWorker) (w : World)
    (img : ID2D1Image) (r : D2D1_RECT_F) (hr : self.m_d2dSourceRect = some r)
    (hunit : w.d2d.unitMode = D2D1_UNIT_MODE.DIPS ∨ w.d2d.unitMode = D2D1_UNIT_MODE.PIXELS) :
    (self.MaybeAdjustD2DSourceRect w img).1 ≠ Outcome.assertFailed ∧
    (self.MaybeAdjustD2DSourceRect w img).2.1.m_d2dSourceRect.isSome = true := by
  unfold DrawImageWorker.MaybeAdjustD2DSourceRect SetDpiCompensatedEffectInput ThrowIfFailed
    GetBitmapSize
  cases img with
  | bitmap b =>
    by_cases hb : w.d2d.createBorderResult = HRESULT.S_OK <;>
      by_cases hdpi : w.d2d.createDpiCompensationResult = HRESULT.S_OK <;>
      rcases hunit with hu | hu <;> simp [hr, hu, hb, hdpi, World.call]
  | image n => simp [hr]
  | opacityEffectOutput a b c => simp [hr]
  | borderEffectOutput a => simp [hr]

theorem DrawImageToRect_ne_assertFailed (self : DrawImageWorker) (w : World)
    (img : ID2D1Image) (destinationRect : Rect) (i : D2D1_INTERPOLATION_MODE)
    (m : D2D1_COMPOSITE_MODE) (S : Rect) (r : D2D1_RECT_F)
    (hS : self.m_sourceRect = some S) (hr : self.m_d2dSourceRect = some r)
    (hunit : w.d2d.unitMode = D2D1_UNIT_MODE.DIPS ∨ w.d2d.unitMode = D2D1_UNIT_MODE.PIXELS) :
    (self.DrawImageToRect w img destinationRect i m).1 ≠ Outcome.assertFailed := by
  obtain ⟨h1, h2⟩ := MaybeAdjustD2DSourceRect_ne_assertFailed self w img r hr hunit
  unfold DrawImageWorker.DrawImageToRect
  rw [hS]
  simp only
  rcases ha : self.MaybeAdjustD2DSourceRect w img with ⟨o, self1, img1, w1⟩
  rw [ha] at h1 h2
  simp only at h1 h2
  cases o with
  | threw hr1 msg => simp
  | assertFailed => exact absurd rfl h1
  | ok =>
    simp only
    have h3 := MaybeApplyOpacityEffect_ne_assertFailed self1 w1 img1
    rcases hb : self1.MaybeApplyOpacityEffect w1 img1 with ⟨o2, img2, w2⟩
    rw [hb] at h3
    simp only at h3
    cases o2 with
    | threw hr1 msg => simp
    | assertFailed => exact absurd rfl h3
    | ok =>
      simp only
      cases hd : self1.m_d2dSourceRect with
      | none => simp [hd] at h2
      | some r1 =>
        simp only
        split <;> simp

theorem DrawBitmap_ofArguments_ne_assertFailed (device : ICanvasDevice)
    (offset : Option Vector2) (destinationRect sourceRect : Option Rect) (opacity : ℚ)
    (interpolation : CanvasImageInterpolation) (w : World) (b : ICanvasBitmap)
    (perspective : Option Matrix4x4)
    (harg : offset.isSome = true ∨ destinationRect.isSome = true)
    (hunit : w.d2d.unitMode = D2D1_UNIT_MODE.DIPS ∨ w.d2d.unitMode = D2D1_UNIT_MODE.PIXELS) :
    ((DrawImageWorker.ofArguments device offset destinationRect sourceRect opacity
      interpolation).DrawBitmap w b perspective).1 ≠ Outcome.assertFailed := by
  obtain ⟨d, hd⟩ := CalculateDestRect_isSome device offset destinationRect sourceRect
    opacity interpolation w b.d2dBitmap harg hunit
  unfold DrawImageWorker.DrawBitmap ThrowIfFailed
  by_cases hb : b.result = HRESULT.S_OK
  · simp [hb, hd]
  · simp [hb]

theorem DrawImage_ofArguments_ne_assertFailed (device : ICanvasDevice)
    (offset : Option Vector2) (destinationRect sourceRect : Option Rect) (opacity : ℚ)
    (interpolation : CanvasImageInterpolation) (w : World) (image : ICanvasImage)
    (composite : Option CanvasComposite)
    (harg : offset.isSome = true ∨ destinationRect.isSome = true)
    (hsource : offset = none → sourceRect.isSome = true)
    (hunit : w.d2d.unitMode = D2D1_UNIT_MODE.DIPS ∨ w.d2d.unitMode = D2D1_UNIT_MODE.PIXELS) :
    ((DrawImageWorker.ofArguments device offset destinationRect sourceRect opacity
      interpolation).DrawImage w image composite).1 ≠ Outcome.assertFailed := by
  by_cases ht : (DrawImageWorker.ofArguments device offset destinationRect sourceRect
      opacity interpolation).takesBitmapPath w image composite = true
  · obtain ⟨b, -, he⟩ := DrawImage_of_takesBitmapPath _ w image composite ht
    rw [he]
    exact DrawBitmap_ofArguments_ne_assertFailed device offset destinationRect sourceRect
      opacity interpolation w b none harg hunit
  · rw [DrawImage_of_not_takesBitmapPath _ w image composite (by simpa using ht)]
    unfold DrawImageWorker.DrawImageSlowPath
    cases hi : image.GetD2DImage with
    | error hr => simp
    | ok img =>
      simp only
      cases hm : DrawImageWorker.d2dCompositeMode w composite with
      | error e =>
        simp only
        unfold DrawImageWorker.d2dCompositeMode
          DrawImageWorker.GetCompositeModeFromPrimitiveBlend at hm
        cases composite with
        | some c => simp at hm
        | none =>
          cases hb : w.d2d.primitiveBlend <;> simp [hb] at hm <;> subst hm <;> simp
      | ok mode =>
        simp only
        cases offset with
        | some o =>
          exact DrawImageAtOffset_ne_assertFailed _ w img o _ mode
        | none =>
          cases destinationRect with
          | none => simp at harg
          | some D =>
            cases sourceRect with
            | none => simp at hsource
            | some S =>
              exact DrawImageToRect_ne_assertFailed _ w img D _ mode S (ToD2DRect S) rfl rfl
                hunit

theorem DrawImageImpl_ne_assertFailed (s : CanvasDrawingSession) (w : World)
    (image : Option ICanvasImage) (offset : Option Vector2)
    (destinationRect sourceRect : Option Rect) (opacity : ℚ)
    (interpolation : CanvasImageInterpolation) (composite : Option CanvasComposite)
    (harg : offset.isSome = true ∨ destinationRect.isSome = true)
    (hsource : offset = none → sourceRect.isSome = true)
    (hunit : w.d2d.unitMode = D2D1_UNIT_MODE.DIPS ∨ w.d2d.unitMode = D2D1_UNIT_MODE.PIXELS) :
    (s.DrawImageImpl w image offset destinationRect sourceRect opacity interpolation
      composite).outcome ≠ Outcome.assertFailed := by
  rcases Option.eq_none_or_eq_some s.resource with hres | ⟨dc, hres⟩
  · rw [DrawImageImpl_closed s w hres]
    simp [Ret.closed]
  · cases image with
    | none =>
      simp [CanvasDrawingSession.DrawImageImpl, CanvasDrawingSession.GetResource, hres]
    | some img =>
      obtain ⟨device, hd⟩ := DrawImageImpl_open s w dc hres img offset destinationRect
        sourceRect opacity interpolation composite harg
      rw [hd]
      exact DrawImage_ofArguments_ne_assertFailed device offset destinationRect sourceRect
        opacity interpolation w img composite harg hsource hunit

theorem DrawBitmapImpl_ne_assertFailed (s : CanvasDrawingSession) (w : World)
    (bitmap : Option ICanvasBitmap) (offset : Option Vector2)
    (destinationRect sourceRect : Option Rect) (opacity : ℚ)
    (interpolation : CanvasImageInterpolation) (perspective : Option Matrix4x4)
    (harg : offset.isSome = true ∨ destinationRect.isSome = true)
    (hunit : w.d2d.unitMode = D2D1_UNIT_MODE.DIPS ∨ w.d2d.unitMode = D2D1_UNIT_MODE.PIXELS) :
    (s.DrawBitmapImpl w bitmap offset destinationRect sourceRect opacity interpolation
      perspective).outcome ≠ Outcome.assertFailed := by
  rcases Option.eq_none_or_eq_some s.resource with hres | ⟨dc, hres⟩
  · rw [DrawBitmapImpl_closed s w hres]
    simp [Ret.closed]
  · cases bitmap with
    | none =>
      simp [CanvasDrawingSession.DrawBitmapImpl, CanvasDrawingSession.GetResource, hres]
    | some b =>
      obtain ⟨device, hd⟩ := DrawBitmapImpl_open s w dc hres b offset destinationRect
        sourceRect opacity interpolation perspective harg
      rw [hd]
      exact DrawBitmap_ofArguments_ne_assertFailed device offset destinationRect sourceRect
        opacity interpolation w b perspective harg hunit

/-- C29: for every public image-drawing entry point: exactly one of the offset and the
destination rectangle is handed on; an image-typed entry point that hands on a
destination rectangle (the only way to the slow-path `DrawImageToRect`) hands on a
source rectangle too; the entry point is `DrawImageImpl`, or for the bitmap-typed ones
`DrawBitmapImpl`, at these arguments; the assertion of the worker's constructor holds;
and, in the unit mode DIPs or pixels, no assertion fails in the call, whatever the
session, the image and the other arguments: in `DrawImageToRect` the source rectangle
is there and has been initialised. -/
theorem C29_entry_points_satisfy_worker_assertions (c : DrawImageCall)
    (s : CanvasDrawingSession) (w : World) :
    c.request.1.isSome = !c.request.2.1.isSome ∧
    (c.isBitmapTyped = false → c.request.1 = none → c.request.2.2.isSome = true) ∧
    (c.isBitmapTyped = false → ∃ image opacity interpolation composite,
      c.run s w = s.DrawImageImpl w image c.request.1 c.request.2.1 c.request.2.2 opacity
        interpolation composite) ∧
    (c.isBitmapTyped = true → ∃ bitmap opacity interpolation perspective,
      c.run s w = s.DrawBitmapImpl w bitmap c.request.1 c.request.2.1 c.request.2.2 opacity
        interpolation perspective) ∧
    (∀ device opacity interpolation,
      (DrawImageWorker.Constructor device c.request.1 c.request.2.1 c.request.2.2 opacity
        interpolation).isSome = true) ∧
    ((w.d2d.unitMode = D2D1_UNIT_MODE.DIPS ∨ w.d2d.unitMode = D2D1_UNIT_MODE.PIXELS) →
      (c.run s w).outcome ≠ Outcome.assertFailed) := by
  refine ⟨?_, ?_, ?_, ?_, ?_, ?_⟩
  · cases c <;> rfl
  · cases c <;> intro h1 h2 <;>
      first
        | rfl
        | exact Option.noConfusion h2
        | exact Bool.noConfusion h1
  · cases c <;> intro h <;>
      first
        | exact ⟨_, _, _, _, rfl⟩
        | exact Bool.noConfusion h
  · cases c <;> intro h <;>
      first
        | exact ⟨_, _, _, _, rfl⟩
        | exact Bool.noConfusion h
  · intro device opacity interpolation
    cases c <;> simp [DrawImageCall.request, DrawImageWorker.Constructor]
  · intro hu
    cases c <;>
      first
        | exact DrawImageImpl_ne_assertFailed s w _ _ _ _ _ _ _ (Or.inl rfl)
            (fun h => Option.noConfusion h) hu
        | exact DrawImageImpl_ne_assertFailed s w _ _ _ _ _ _ _ (Or.inr rfl)
            (fun _ => rfl) hu
        | exact DrawBitmapImpl_ne_assertFailed s w _ _ _ _ _ _ _ (Or.inl rfl) hu
        | exact DrawBitmapImpl_ne_assertFailed s w _ _ _ _ _ _ _ (Or.inr rfl) hu

/-- C29 at a concrete call: `DrawImageToRectWithSourceRect` on `sampleSession`, which
reaches the slow-path `DrawImageToRect`, fails no assertion. -/
theorem C29_entry_points_satisfy_worker_assertions_witness :
    sampleOpenWorld.d2d.unitMode = D2D1_UNIT_MODE.DIPS ∧
    (sampleSession.DrawImageToRectWithSourceRect sampleOpenWorld (some sampleEffectImage)
      ⟨0, 0, 128, 128⟩ ⟨0, 0, 64, 64⟩).outcome ≠ Outcome.assertFailed :=
  ⟨rfl,
    (C29_entry_points_satisfy_worker_assertions
      (DrawImageCall.DrawImageToRectWithSourceRect (some sampleEffectImage) ⟨0, 0, 128, 128⟩
        ⟨0, 0, 64, 64⟩) sampleSession sampleOpenWorld).2.2.2.2.2 (Or.inl rfl)⟩

/-! ### The shorter overloads -/

/-- C30: the shorter image-drawing overloads are the longer ones at the default
arguments, as whole results (outcome, session, world with its call log), for every
session, world and image: `DrawImageAtOrigin` is `DrawImageAtOffset` at (0, 0); each
`AtCoords` overload is the `AtOffset` overload at the offset (x, y); and an overload
without opacity or interpolation is the fuller one at opacity 1 and interpolation
Linear. -/
theorem C30_shorter_overloads_use_defaults (s : CanvasDrawingSession) (w : World)
    (image : Option ICanvasImage) (bitmap : Option ICanvasBitmap) (x y : ℚ)
    (offset : Vector2) (destinationRect sourceRect : Rect) (opacity : ℚ)
    (interpolation : CanvasImageInterpolation) (composite : CanvasComposite)
    (perspective : Matrix4x4) :
    DefaultDrawImageOpacity = 1 ∧
    DefaultDrawImageInterpolation = CanvasImageInterpolation.Linear ∧
    s.DrawImageAtOrigin w image = s.DrawImageAtOffset w image ⟨0, 0⟩ ∧
    s.DrawImageAtCoords w image x y = s.DrawImageAtOffset w image ⟨x, y⟩ ∧
    s.DrawImageAtCoordsWithSourceRect w image x y sourceRect =
      s.DrawImageAtOffsetWithSourceRect w image ⟨x, y⟩ sourceRect ∧
    s.DrawImageAtCoordsWithSourceRectAndOpacity w image x y sourceRect opacity =
      s.DrawImageAtOffsetWithSourceRectAndOpacity w image ⟨x, y⟩ sourceRect opacity ∧
    s.DrawImageAtCoordsWithSourceRectAndOpacityAndInterpolation w image x y sourceRect
        opacity interpolation =
      s.DrawImageAtOffsetWithSourceRectAndOpacityAndInterpolation w image ⟨x, y⟩ sourceRect
        opacity interpolation ∧
    s.DrawImageAtCoordsWithSourceRectAndOpacityAndInterpolationAndComposite w image x y
        sourceRect opacity interpolation composite =
      s.DrawImageAtOffsetWithSourceRectAndOpacityAndInterpolationAndComposite w image ⟨x, y⟩
        sourceRect opacity interpolation composite ∧
    s.DrawImageAtCoordsWithSourceRectAndOpacityAndInterpolationAndPerspective w bitmap x y
        sourceRect opacity interpolation perspective =
      s.DrawImageAtOffsetWithSourceRectAndOpacityAndInterpolationAndPerspective w bitmap
        ⟨x, y⟩ sourceRect opacity interpolation perspective ∧
    s.DrawImageAtOffsetWithSourceRect w image offset sourceRect =
      s.DrawImageAtOffsetWithSourceRectAndOpacity w image offset sourceRect 1 ∧
    s.DrawImageAtCoordsWithSourceRect w image x y sourceRect =
      s.DrawImageAtCoordsWithSourceRectAndOpacity w image x y sourceRect 1 ∧
    s.DrawImageToRectWithSourceRect w image destinationRect sourceRect =
      s.DrawImageToRectWithSourceRectAndOpacity w image destinationRect sourceRect 1 ∧
    s.DrawImageAtOffsetWithSourceRectAndOpacity w image offset sourceRect opacity =
      s.DrawImageAtOffsetWithSourceRectAndOpacityAndInterpolation w image offset sourceRect
        opacity CanvasImageInterpolation.Linear ∧
    s.DrawImageAtCoordsWithSourceRectAndOpacity w image x y sourceRect opacity =
      s.DrawImageAtCoordsWithSourceRectAndOpacityAndInterpolation w image x y sourceRect
        opacity CanvasImageInterpolation.Linear ∧
    s.DrawImageToRectWithSourceRectAndOpacity w image destinationRect sourceRect opacity =
      s.DrawImageToRectWithSourceRectAndOpacityAndInterpolation w image destinationRect
        sourceRect opacity CanvasImageInterpolation.Linear ∧
    s.DrawImageAtOffsetWithSourceRect w image offset sourceRect =
      s.DrawImageAtOffsetWithSourceRectAndOpacityAndInterpolation w image offset sourceRect 1
        CanvasImageInterpolation.Linear ∧
    s.DrawImageAtCoordsWithSourceRect w image x y sourceRect =
      s.DrawImageAtCoordsWithSourceRectAndOpacityAndInterpolation w image x y sourceRect 1
        CanvasImageInterpolation.Linear ∧
    s.DrawImageToRectWithSourceRect w image destinationRect sourceRect =
      s.DrawImageToRectWithSourceRectAndOpacityAndInterpolation w image destinationRect
        sourceRect 1 CanvasImageInterpolation.Linear :=
  ⟨rfl, rfl, rfl, rfl, rfl, rfl, rfl, rfl, rfl, rfl, rfl, rfl, rfl, rfl, rfl, rfl, rfl, rfl⟩

/-- C30 at a concrete call: on `sampleSession`, drawing `sampleEffectImage` at the
origin is drawing it at the offset (0, 0), and at the coordinates 3, 4 is drawing it
at the offset (3, 4). -/
theorem C30_shorter_overloads_use_defaults_witness :
    sampleSession.DrawImageAtOrigin sampleOpenWorld (some sampleEffectImage) =
      sampleSession.DrawImageAtOffset sampleOpenWorld (some sampleEffectImage) ⟨0, 0⟩ ∧
    sampleSession.DrawImageAtCoords sampleOpenWorld (some sampleEffectImage) 3 4 =
      sampleSession.DrawImageAtOffset sampleOpenWorld (some sampleEffectImage) ⟨3, 4⟩ :=
  ⟨(C30_shorter_overloads_use_defaults sampleSession sampleOpenWorld (some sampleEffectImage)
      (some sampleBitmap) 3 4 ⟨0, 0⟩ ⟨0, 0, 128, 128⟩ ⟨0, 0, 64, 64⟩ 1
      CanvasImageInterpolation.Linear CanvasComposite.SourceOver ⟨[]⟩).2.2.1,
    (C30_shorter_overloads_use_defaults sampleSession sampleOpenWorld (some sampleEffectImage)
      (some sampleBitmap) 3 4 ⟨0, 0⟩ ⟨0, 0, 128, 128⟩ ⟨0, 0, 64, 64⟩ 1
      CanvasImageInterpolation.Linear CanvasComposite.SourceOver ⟨[]⟩).2.2.2.1⟩

end Win2D
